import Mathlib

/-!
# Musashi M680x0 core, `m68kcpu.h`

A shallow embedding of the status-register code, the flag macros, the
stack-pointer bank, the memory gateway, the immediate reads, the indexed
effective address, the exception stack frames, the exceptions and the
interrupt arbiter of `src/m68kcpu.h`, followed by theorems about them.

Conventions of the embedding.

* A C `uint` is a natural number; every operation that can leave the 32-bit
  range in C is reduced modulo 2^32 here (`add32`, `sub32`, `shl32`, `not32`).
* `m68ki_remaining_cycles` is a C `sint`; it is an integer here.
* The arrays `dar[16]`, `sp[7]`, `cyc_instruction[]`, `cyc_exception[]` and the
  cache arrays are functions from the index to the cell.
* `state` always points at the one global `m68ki_cpu`, so `state->x` and
  `m68ki_cpu.x` are the same field.
* The file-scope variables that the header declares `extern` and the memory
  of the host travel with the CPU structure in one record.
* The options of `m68kconf.h`, which is not part of the sources, are
  parameters (`Config`).  The CPU variant switches `M68K_EMULATE_010`,
  `M68K_EMULATE_EC020`, `M68K_EMULATE_020`, `M68K_EMULATE_030` and
  `M68K_EMULATE_040` are taken as enabled, and `CACHE_ON`, `T_CACHE_ON` and
  `CHIP_FASTPATH` as undefined, the way the header leaves them.
* `int` has 32 bits, so `M68K_INT_GT_32_BIT` is 0 and the 8- and 16-bit types
  exist (`MAKE_INT_8`, `MAKE_INT_16` and `MAKE_INT_32` are casts).
* `g_buserr` is a `volatile` flag that the host sets behind the core; here it
  is a field of the record that the modelled host calls leave alone.
* The host notifications `m68ki_set_fc` and `m68ki_pc_changed` and the
  logging calls return nothing to the core and are left out.
-/

set_option linter.unusedVariables false

namespace Musashi

/-! ## General defines -/

def M68K_IC_SIZE : Nat := 128

def EXCEPTION_RESET : Nat := 0
def EXCEPTION_BUS_ERROR : Nat := 2
def EXCEPTION_ADDRESS_ERROR : Nat := 3
def EXCEPTION_ILLEGAL_INSTRUCTION : Nat := 4
def EXCEPTION_ZERO_DIVIDE : Nat := 5
def EXCEPTION_CHK : Nat := 6
def EXCEPTION_TRAPV : Nat := 7
def EXCEPTION_PRIVILEGE_VIOLATION : Nat := 8
def EXCEPTION_TRACE : Nat := 9
def EXCEPTION_1010 : Nat := 10
def EXCEPTION_1111 : Nat := 11
def EXCEPTION_FORMAT_ERROR : Nat := 14
def EXCEPTION_UNINITIALIZED_INTERRUPT : Nat := 15
def EXCEPTION_SPURIOUS_INTERRUPT : Nat := 24
def EXCEPTION_INTERRUPT_AUTOVECTOR : Nat := 24
def EXCEPTION_TRAP_BASE : Nat := 32

def FUNCTION_CODE_USER_DATA : Nat := 1
def FUNCTION_CODE_USER_PROGRAM : Nat := 2
def FUNCTION_CODE_SUPERVISOR_DATA : Nat := 5
def FUNCTION_CODE_SUPERVISOR_PROGRAM : Nat := 6
def FUNCTION_CODE_CPU_SPACE : Nat := 7

def CPU_TYPE_000 : Nat := 0x00000001
def CPU_TYPE_008 : Nat := 0x00000002
def CPU_TYPE_010 : Nat := 0x00000004
def CPU_TYPE_EC020 : Nat := 0x00000008
def CPU_TYPE_020 : Nat := 0x00000010
def CPU_TYPE_EC030 : Nat := 0x00000020
def CPU_TYPE_030 : Nat := 0x00000040
def CPU_TYPE_EC040 : Nat := 0x00000080
def CPU_TYPE_LC040 : Nat := 0x00000100
def CPU_TYPE_040 : Nat := 0x00000200
def CPU_TYPE_SCC070 : Nat := 0x00000400

def STOP_LEVEL_STOP : Nat := 1
def STOP_LEVEL_HALT : Nat := 2

def INSTRUCTION_YES : Nat := 0
def INSTRUCTION_NO : Nat := 0x08
def MODE_READ : Nat := 0x10
def MODE_WRITE : Nat := 0

def RUN_MODE_NORMAL : Nat := 0
def RUN_MODE_BERR_AERR_RESET_WSF : Nat := 1
def RUN_MODE_BERR_AERR_RESET : Nat := 2

def M68K_CACR_IBE : Nat := 0x10
def M68K_CACR_CI : Nat := 0x08
def M68K_CACR_CEI : Nat := 0x04
def M68K_CACR_FI : Nat := 0x02
def M68K_CACR_EI : Nat := 0x01

def SFLAG_SET : Nat := 4
def SFLAG_CLEAR : Nat := 0
def MFLAG_SET : Nat := 2
def MFLAG_CLEAR : Nat := 0

/-! ## 32-bit unsigned arithmetic -/

/-- MASK_OUT_ABOVE_32: the low 32 bits of a value. -/
def MASK_OUT_ABOVE_32 (a : Nat) : Nat := a % 0x100000000

/-- Sum of two `uint` values as C computes it. -/
def add32 (a b : Nat) : Nat := (a + b) % 0x100000000

/-- Difference of two `uint` values as C computes it (wrapping below zero). -/
def sub32 (a b : Nat) : Nat :=
  ((0x100000000 - b % 0x100000000) + a % 0x100000000) % 0x100000000

/-- Left shift of a `uint` value as C computes it. -/
def shl32 (a n : Nat) : Nat := (a <<< n) % 0x100000000

/-- Bitwise complement of a `uint` value, the C operator `~`. -/
def not32 (a : Nat) : Nat := 0xFFFFFFFF - a % 0x100000000

/-- Logical negation, the C operator `!`: 1 for zero and 0 for anything else. -/
def lnot (a : Nat) : Nat := if a = 0 then 1 else 0

/-! ## Bit isolation -/

def BIT_0 (a : Nat) : Nat := a &&& 0x00000001
def BIT_1 (a : Nat) : Nat := a &&& 0x00000002
def BIT_2 (a : Nat) : Nat := a &&& 0x00000004
def BIT_3 (a : Nat) : Nat := a &&& 0x00000008
def BIT_4 (a : Nat) : Nat := a &&& 0x00000010
def BIT_5 (a : Nat) : Nat := a &&& 0x00000020
def BIT_6 (a : Nat) : Nat := a &&& 0x00000040
def BIT_7 (a : Nat) : Nat := a &&& 0x00000080
def BIT_8 (a : Nat) : Nat := a &&& 0x00000100
def BIT_B (a : Nat) : Nat := a &&& 0x00000800
def BIT_E (a : Nat) : Nat := a &&& 0x00004000
def BIT_F (a : Nat) : Nat := a &&& 0x00008000

/-! ## Sizes and signed values -/

def MASK_OUT_ABOVE_8 (a : Nat) : Nat := a &&& 0xff

def MASK_OUT_ABOVE_16 (a : Nat) : Nat := a &&& 0xffff

/-- MAKE_INT_8: the cast `(sint8)(A)`, the low byte read as a signed value. -/
def MAKE_INT_8 (a : Nat) : Int :=
  if a % 0x100 < 0x80 then (a % 0x100 : Int) else (a % 0x100 : Int) - 0x100

/-- MAKE_INT_16: the cast `(sint16)(A)`. -/
def MAKE_INT_16 (a : Nat) : Int :=
  if a % 0x10000 < 0x8000 then (a % 0x10000 : Int) else (a % 0x10000 : Int) - 0x10000

/-- MAKE_INT_32: the cast `(sint32)(A)`. -/
def MAKE_INT_32 (a : Nat) : Int :=
  if a % 0x100000000 < 0x80000000 then (a % 0x100000000 : Int)
  else (a % 0x100000000 : Int) - 0x100000000

/-- A signed value converted back to `uint`, as C does when a `sint` meets a
`uint` in an expression. -/
def to_uint (i : Int) : Nat := (i % 0x100000000).toNat

/-! ## Flag calculation macros -/

def CFLAG_8 (a : Nat) : Nat := a

def CFLAG_16 (a : Nat) : Nat := a >>> 8

/-- CFLAG_ADD_32, the variant for a 32-bit `int` (M68K_INT_GT_32_BIT = 0). -/
def CFLAG_ADD_32 (s d r : Nat) : Nat := ((s &&& d) ||| (not32 r &&& (s ||| d))) >>> 23

/-- CFLAG_SUB_32, the variant for a 32-bit `int`. -/
def CFLAG_SUB_32 (s d r : Nat) : Nat := ((s &&& r) ||| (not32 d &&& (s ||| r))) >>> 23

def VFLAG_ADD_8 (s d r : Nat) : Nat := (s ^^^ r) &&& (d ^^^ r)

def VFLAG_ADD_16 (s d r : Nat) : Nat := ((s ^^^ r) &&& (d ^^^ r)) >>> 8

def VFLAG_ADD_32 (s d r : Nat) : Nat := ((s ^^^ r) &&& (d ^^^ r)) >>> 24

def VFLAG_SUB_8 (s d r : Nat) : Nat := (s ^^^ d) &&& (r ^^^ d)

def VFLAG_SUB_16 (s d r : Nat) : Nat := ((s ^^^ d) &&& (r ^^^ d)) >>> 8

def VFLAG_SUB_32 (s d r : Nat) : Nat := ((s ^^^ d) &&& (r ^^^ d)) >>> 24

def NFLAG_8 (a : Nat) : Nat := a

def NFLAG_16 (a : Nat) : Nat := a >>> 8

def NFLAG_32 (a : Nat) : Nat := a >>> 24

def ZFLAG_8 (a : Nat) : Nat := MASK_OUT_ABOVE_8 a

def ZFLAG_16 (a : Nat) : Nat := MASK_OUT_ABOVE_16 a

def ZFLAG_32 (a : Nat) : Nat := MASK_OUT_ABOVE_32 a

/-! ## CPU type tests -/

def CPU_TYPE_IS_EC020_PLUS (a : Nat) : Nat :=
  a &&& (CPU_TYPE_EC020 ||| CPU_TYPE_020 ||| CPU_TYPE_030 ||| CPU_TYPE_EC030 |||
    CPU_TYPE_040 ||| CPU_TYPE_EC040 ||| CPU_TYPE_LC040)

def CPU_TYPE_IS_010_LESS (a : Nat) : Nat :=
  a &&& (CPU_TYPE_000 ||| CPU_TYPE_008 ||| CPU_TYPE_010)

def CPU_TYPE_IS_010 (a : Nat) : Bool := a == CPU_TYPE_010

def CPU_TYPE_IS_000 (a : Nat) : Bool := a == CPU_TYPE_000

/-! ## Host bus -/

/-- One call from the core into the host, in the order the calls are made. -/
inductive BusEvent where
  | read8 (address : Nat)
  | read16 (address : Nat)
  | read32 (address : Nat)
  | write8 (address value : Nat)
  | write16 (address value : Nat)
  | write32 (address value : Nat)
  | ps_read32 (address : Nat)
  | int_ack (level : Nat)
  deriving DecidableEq, Repr

/-- Modelled from the spec: the host memory behind `m68k_read_memory_*`,
`m68k_write_memory_*` and `ps_read_32`, which the sources only call.  It is a
flat store of bytes; this reads one byte of it. -/
def mem_byte (mem : Nat → Nat) (a : Nat) : Nat := mem a % 0x100

/-- Modelled from the spec: a 16-bit value of the host memory, big-endian. -/
def mem_read_16 (mem : Nat → Nat) (a : Nat) : Nat :=
  mem_byte mem a * 0x100 + mem_byte mem (a + 1)

/-- Modelled from the spec: a 32-bit value of the host memory, big-endian. -/
def mem_read_32 (mem : Nat → Nat) (a : Nat) : Nat :=
  mem_read_16 mem a * 0x10000 + mem_read_16 mem (a + 2)

/-- Modelled from the spec: store one byte in the host memory. -/
def mem_write_8 (mem : Nat → Nat) (a v : Nat) : Nat → Nat :=
  Function.update mem a (v % 0x100)

/-- Modelled from the spec: store a 16-bit value in the host memory,
big-endian. -/
def mem_write_16 (mem : Nat → Nat) (a v : Nat) : Nat → Nat :=
  mem_write_8 (mem_write_8 mem a (v >>> 8)) (a + 1) v

/-- Modelled from the spec: store a 32-bit value in the host memory,
big-endian. -/
def mem_write_32 (mem : Nat → Nat) (a v : Nat) : Nat → Nat :=
  mem_write_16 (mem_write_16 mem a (v >>> 16)) (a + 2) v

/-! ## CPU state -/

/-- The structure `m68ki_cpu_core` (the fields the embedded code touches; the
mapped ranges `read_data[i]` are byte arrays of the host, read by offset),
then the file-scope variables of the core, then the host: its memory and the
record of the calls made into it. -/
structure m68ki_cpu_core where
  cpu_type : Nat := 0
  dar : Nat → Nat := fun _ => 0
  ppc : Nat := 0
  pc : Nat := 0
  sp : Nat → Nat := fun _ => 0
  vbr : Nat := 0
  sfc : Nat := 0
  dfc : Nat := 0
  cacr : Nat := 0
  caar : Nat := 0
  ir : Nat := 0
  t1_flag : Nat := 0
  t0_flag : Nat := 0
  s_flag : Nat := 0
  m_flag : Nat := 0
  x_flag : Nat := 0
  n_flag : Nat := 0
  not_z_flag : Nat := 0
  v_flag : Nat := 0
  c_flag : Nat := 0
  int_mask : Nat := 0
  int_level : Nat := 0
  stopped : Nat := 0
  pref_addr : Nat := 0
  pref_data : Nat := 0
  address_mask : Nat := 0
  sr_mask : Nat := 0
  instr_mode : Nat := 0
  run_mode : Nat := 0
  pmmu_enabled : Nat := 0
  nmi_pending : Nat := 0
  mmu_tmp_buserror_address : Nat := 0
  mmu_tmp_buserror_fc : Nat := 0
  mmu_tmp_buserror_rw : Nat := 0
  mmu_tmp_buserror_sz : Nat := 0
  ic_address : Nat → Nat := fun _ => 0
  ic_data : Nat → Nat := fun _ => 0
  ic_valid : Nat → Nat := fun _ => 0
  cyc_instruction : Nat → Nat := fun _ => 0
  cyc_exception : Nat → Nat := fun _ => 0
  read_ranges : Nat := 0
  read_addr : Nat → Nat := fun _ => 0
  read_upper : Nat → Nat := fun _ => 0
  read_data : Nat → Nat → Nat := fun _ _ => 0
  m68ki_remaining_cycles : Int := 0
  m68ki_tracing : Nat := 0
  m68ki_address_space : Nat := 0
  m68ki_aerr_address : Nat := 0
  m68ki_aerr_write_mode : Nat := 0
  m68ki_aerr_fc : Nat := 0
  g_buserr : Nat := 0
  mem : Nat → Nat := fun _ => 0
  bus : List BusEvent := []

/-- The compile-time options of `m68kconf.h`, the two acknowledge sentinels of
`m68k.h`, the table `m68ki_ea_idx_cycle_table` and the collaborators the core
calls: none of them is in the sources, so each is a parameter.
`m68k_read_immediate_16` and `m68k_read_immediate_32` are the host functions
used under M68K_SEPARATE_READS.  `m68ki_read_imm16_addr_slowpath` is the
function of `m68kcpu.c` behind `m68ki_read_imm_16`; the default given here,
which the sample states use, is the fetch the specification describes: the
word at the PC, with the PC advanced by 2. -/
structure Config where
  M68K_EMULATE_INT_ACK : Bool := true
  M68K_EMULATE_ADDRESS_ERROR : Bool := true
  M68K_EMULATE_TRACE : Bool := true
  M68K_INT_ACK_AUTOVECTOR : Nat := 0xffffffff
  M68K_INT_ACK_SPURIOUS : Nat := 0xfffffffe
  int_ack_callback : Nat → Nat := fun _ => 0xffffffff
  M68K_EMULATE_PMMU : Bool := true
  pmmu_translate_addr : m68ki_cpu_core → Nat → Nat → Nat := fun _ a _ => a
  m68ki_illg_callback : Nat → Nat := fun _ => 0
  M68K_EMULATE_FC : Bool := true
  M68K_EMULATE_PREFETCH : Bool := true
  M68K_SEPARATE_READS : Bool := false
  m68k_read_immediate_16 : m68ki_cpu_core → Nat → Nat × m68ki_cpu_core := fun s _ => (0, s)
  m68k_read_immediate_32 : m68ki_cpu_core → Nat → Nat × m68ki_cpu_core := fun s _ => (0, s)
  m68ki_read_imm16_addr_slowpath : m68ki_cpu_core → Nat → Nat × m68ki_cpu_core :=
    fun s pc =>
      (mem_read_16 s.mem (pc &&& s.address_mask),
        { s with
          pc := (pc + 2) % 0x100000000
          bus := s.bus ++ [BusEvent.read16 (pc &&& s.address_mask)] })
  m68ki_ea_idx_cycle_table : Nat → Nat := fun _ => 0

/-- ADDRESS_68K: the address lines of the CPU. -/
def ADDRESS_68K (s : m68ki_cpu_core) (a : Nat) : Nat := a &&& s.address_mask

/-- REG_SP, the live stack pointer `dar[15]`. -/
def REG_SP (s : m68ki_cpu_core) : Nat := s.dar 15

/-- The index of the live stack pointer in the bank `sp[7]`. -/
def sp_index (s_flag m_flag : Nat) : Nat := s_flag ||| ((s_flag >>> 1) &&& m_flag)

/-! ## Status register -/

def COND_CS (s : m68ki_cpu_core) : Nat := s.c_flag &&& 0x100
def COND_VS (s : m68ki_cpu_core) : Nat := s.v_flag &&& 0x80
def COND_NE (s : m68ki_cpu_core) : Nat := s.not_z_flag
def COND_EQ (s : m68ki_cpu_core) : Nat := lnot (COND_NE s)
def COND_MI (s : m68ki_cpu_core) : Nat := s.n_flag &&& 0x80
def COND_XS (s : m68ki_cpu_core) : Nat := s.x_flag &&& 0x100

/-- Get the condition code register. -/
def m68ki_get_ccr (s : m68ki_cpu_core) : Nat :=
  (COND_XS s >>> 4) |||
  (COND_MI s >>> 4) |||
  (shl32 (COND_EQ s) 2) |||
  (COND_VS s >>> 6) |||
  (COND_CS s >>> 8)

/-- Get the status register. -/
def m68ki_get_sr (s : m68ki_cpu_core) : Nat :=
  s.t1_flag |||
  s.t0_flag |||
  (shl32 s.s_flag 11) |||
  (shl32 s.m_flag 11) |||
  s.int_mask |||
  m68ki_get_ccr s

/-- Set the S flag and change the active stack pointer. -/
def m68ki_set_s_flag (s : m68ki_cpu_core) (value : Nat) : m68ki_cpu_core :=
  let s := { s with sp := Function.update s.sp (sp_index s.s_flag s.m_flag) (REG_SP s) }
  let s := { s with s_flag := value }
  { s with dar := Function.update s.dar 15 (s.sp (sp_index s.s_flag s.m_flag)) }

/-- Set the S and M flags and change the active stack pointer. -/
def m68ki_set_sm_flag (s : m68ki_cpu_core) (value : Nat) : m68ki_cpu_core :=
  let s := { s with sp := Function.update s.sp (sp_index s.s_flag s.m_flag) (REG_SP s) }
  let s := { s with s_flag := value &&& SFLAG_SET }
  let s := { s with m_flag := value &&& MFLAG_SET }
  { s with dar := Function.update s.dar 15 (s.sp (sp_index s.s_flag s.m_flag)) }

/-- Set the S and M flags.  Don't touch the stack pointer. -/
def m68ki_set_sm_flag_nosp (s : m68ki_cpu_core) (value : Nat) : m68ki_cpu_core :=
  let s := { s with s_flag := value &&& SFLAG_SET }
  { s with m_flag := value &&& MFLAG_SET }

/-- Set the condition code register. -/
def m68ki_set_ccr (s : m68ki_cpu_core) (value : Nat) : m68ki_cpu_core :=
  let s := { s with x_flag := shl32 (BIT_4 value) 4 }
  let s := { s with n_flag := shl32 (BIT_3 value) 4 }
  let s := { s with not_z_flag := lnot (BIT_2 value) }
  let s := { s with v_flag := shl32 (BIT_1 value) 6 }
  { s with c_flag := shl32 (BIT_0 value) 8 }

/-- Set the status register but don't check for interrupts. -/
def m68ki_set_sr_noint (s : m68ki_cpu_core) (value : Nat) : m68ki_cpu_core :=
  let value := value &&& s.sr_mask
  let s := { s with t1_flag := BIT_F value }
  let s := { s with t0_flag := BIT_E value }
  let s := { s with int_mask := value &&& 0x0700 }
  let s := m68ki_set_ccr s value
  m68ki_set_sm_flag s ((value >>> 11) &&& 6)

/-- Set the status register but don't check for interrupts nor change the
stack pointer. -/
def m68ki_set_sr_noint_nosp (s : m68ki_cpu_core) (value : Nat) : m68ki_cpu_core :=
  let value := value &&& s.sr_mask
  let s := { s with t1_flag := BIT_F value }
  let s := { s with t0_flag := BIT_E value }
  let s := { s with int_mask := value &&& 0x0700 }
  let s := m68ki_set_ccr s value
  m68ki_set_sm_flag_nosp s ((value >>> 11) &&& 6)

/-- Set the status register; the interrupt check that used to follow is
commented out in the source. -/
def m68ki_set_sr (s : m68ki_cpu_core) (value : Nat) : m68ki_cpu_core :=
  m68ki_set_sr_noint s value

/-! ## Cycle counting -/

/-- USE_CYCLES: debit the remaining-cycle counter. -/
def USE_CYCLES (s : m68ki_cpu_core) (a : Int) : m68ki_cpu_core :=
  { s with m68ki_remaining_cycles := s.m68ki_remaining_cycles - a }

/-! ## Host calls -/

/-- Modelled from the spec: the host callback `m68k_read_memory_8`. -/
def m68k_read_memory_8 (s : m68ki_cpu_core) (a : Nat) : Nat × m68ki_cpu_core :=
  (mem_byte s.mem a, { s with bus := s.bus ++ [BusEvent.read8 a] })

/-- Modelled from the spec: the host callback `m68k_read_memory_16`. -/
def m68k_read_memory_16 (s : m68ki_cpu_core) (a : Nat) : Nat × m68ki_cpu_core :=
  (mem_read_16 s.mem a, { s with bus := s.bus ++ [BusEvent.read16 a] })

/-- Modelled from the spec: the host callback `m68k_read_memory_32`. -/
def m68k_read_memory_32 (s : m68ki_cpu_core) (a : Nat) : Nat × m68ki_cpu_core :=
  (mem_read_32 s.mem a, { s with bus := s.bus ++ [BusEvent.read32 a] })

/-- Modelled from the spec: the host callback `m68k_write_memory_8`. -/
def m68k_write_memory_8 (s : m68ki_cpu_core) (a v : Nat) : m68ki_cpu_core :=
  { s with mem := mem_write_8 s.mem a v, bus := s.bus ++ [BusEvent.write8 a v] }

/-- Modelled from the spec: the host callback `m68k_write_memory_16`. -/
def m68k_write_memory_16 (s : m68ki_cpu_core) (a v : Nat) : m68ki_cpu_core :=
  { s with mem := mem_write_16 s.mem a v, bus := s.bus ++ [BusEvent.write16 a v] }

/-- Modelled from the spec: the host callback `m68k_write_memory_32`. -/
def m68k_write_memory_32 (s : m68ki_cpu_core) (a v : Nat) : m68ki_cpu_core :=
  { s with mem := mem_write_32 s.mem a v, bus := s.bus ++ [BusEvent.write32 a v] }

/-- Modelled from the spec: the bus read `ps_read_32` of `gpio/ps_protocol.h`,
a 32-bit read of the same host memory. -/
def ps_read_32 (s : m68ki_cpu_core) (a : Nat) : Nat × m68ki_cpu_core :=
  (mem_read_32 s.mem a, { s with bus := s.bus ++ [BusEvent.ps_read32 a] })

/-- The interrupt acknowledge `m68ki_int_ack`: the host callback when
M68K_EMULATE_INT_ACK is on, the autovector sentinel otherwise. -/
def m68ki_int_ack (cfg : Config) (s : m68ki_cpu_core) (level : Nat) :
    Nat × m68ki_cpu_core :=
  if cfg.M68K_EMULATE_INT_ACK then
    (cfg.int_ack_callback level, { s with bus := s.bus ++ [BusEvent.int_ack level] })
  else
    (cfg.M68K_INT_ACK_AUTOVECTOR, s)

/-- The address translation at the head of every gateway function:
`if (PMMU_ENABLED) address = pmmu_translate_addr(state, address, rw)`. -/
def pmmu_address (cfg : Config) (s : m68ki_cpu_core) (address rw : Nat) : Nat :=
  if cfg.M68K_EMULATE_PMMU ∧ s.pmmu_enabled ≠ 0 then
    cfg.pmmu_translate_addr s address rw
  else address

/-! ## Top level read/write -/

def m68ki_read_8_fc (cfg : Config) (s : m68ki_cpu_core) (address fc : Nat) :
    Nat × m68ki_cpu_core :=
  let address := pmmu_address cfg s address 1
  m68k_read_memory_8 s (ADDRESS_68K s address)

def m68ki_read_16_fc (cfg : Config) (s : m68ki_cpu_core) (address fc : Nat) :
    Nat × m68ki_cpu_core :=
  let address := pmmu_address cfg s address 1
  m68k_read_memory_16 s (ADDRESS_68K s address)

def m68ki_read_32_fc (cfg : Config) (s : m68ki_cpu_core) (address fc : Nat) :
    Nat × m68ki_cpu_core :=
  let address := pmmu_address cfg s address 1
  m68k_read_memory_32 s (ADDRESS_68K s address)

def m68ki_write_8_fc (cfg : Config) (s : m68ki_cpu_core) (address fc value : Nat) :
    m68ki_cpu_core :=
  let address := pmmu_address cfg s address 0
  m68k_write_memory_8 s (ADDRESS_68K s address) value

def m68ki_write_16_fc (cfg : Config) (s : m68ki_cpu_core) (address fc value : Nat) :
    m68ki_cpu_core :=
  let address := pmmu_address cfg s address 0
  m68k_write_memory_16 s (ADDRESS_68K s address) value

def m68ki_write_32_fc (cfg : Config) (s : m68ki_cpu_core) (address fc value : Nat) :
    m68ki_cpu_core :=
  let address := pmmu_address cfg s address 0
  m68k_write_memory_32 s (ADDRESS_68K s address) value

/-- Write to the current data space: m68ki_write_16. -/
def m68ki_write_16 (cfg : Config) (s : m68ki_cpu_core) (a v : Nat) : m68ki_cpu_core :=
  m68ki_write_16_fc cfg s a (s.s_flag ||| FUNCTION_CODE_USER_DATA) v

/-- Write to the current data space: m68ki_write_32. -/
def m68ki_write_32 (cfg : Config) (s : m68ki_cpu_core) (a v : Nat) : m68ki_cpu_core :=
  m68ki_write_32_fc cfg s a (s.s_flag ||| FUNCTION_CODE_USER_DATA) v

/-- Read from the data space: m68ki_read_data_32. -/
def m68ki_read_data_32 (cfg : Config) (s : m68ki_cpu_core) (a : Nat) :
    Nat × m68ki_cpu_core :=
  m68ki_read_32_fc cfg s a (s.s_flag ||| FUNCTION_CODE_USER_DATA)

/-- The address space of `m68ki_read_*`: the variable `m68ki_address_space`
when function codes are emulated, user data otherwise. -/
def m68ki_get_address_space (cfg : Config) (s : m68ki_cpu_core) : Nat :=
  if cfg.M68K_EMULATE_FC then s.m68ki_address_space else FUNCTION_CODE_USER_DATA

/-- Read from the current address space: m68ki_read_32. -/
def m68ki_read_32 (cfg : Config) (s : m68ki_cpu_core) (a : Nat) : Nat × m68ki_cpu_core :=
  m68ki_read_32_fc cfg s a (s.s_flag ||| m68ki_get_address_space cfg s)

/-- Read from the program space: m68ki_read_program_16. -/
def m68ki_read_program_16 (cfg : Config) (s : m68ki_cpu_core) (a : Nat) :
    Nat × m68ki_cpu_core :=
  m68ki_read_16_fc cfg s a (s.s_flag ||| FUNCTION_CODE_USER_PROGRAM)

/-- Read from the program space: m68ki_read_program_32. -/
def m68ki_read_program_32 (cfg : Config) (s : m68ki_cpu_core) (a : Nat) :
    Nat × m68ki_cpu_core :=
  m68ki_read_32_fc cfg s a (s.s_flag ||| FUNCTION_CODE_USER_PROGRAM)

/-- The immediate read `m68k_read_immediate_16`: a program-space read unless
M68K_SEPARATE_READS hands it to the host. -/
def m68k_read_immediate_16 (cfg : Config) (s : m68ki_cpu_core) (a : Nat) :
    Nat × m68ki_cpu_core :=
  if cfg.M68K_SEPARATE_READS then cfg.m68k_read_immediate_16 s a
  else m68ki_read_program_16 cfg s a

/-- The immediate read `m68k_read_immediate_32`. -/
def m68k_read_immediate_32 (cfg : Config) (s : m68ki_cpu_core) (a : Nat) :
    Nat × m68ki_cpu_core :=
  if cfg.M68K_SEPARATE_READS then cfg.m68k_read_immediate_32 s a
  else m68ki_read_program_32 cfg s a

/-! ## Read immediate -/

/-- Clear the instruction cache: the loop stores `~0` in the tag of each of
the M68K_IC_SIZE lines. -/
def m68ki_ic_clear (s : m68ki_cpu_core) : m68ki_cpu_core :=
  { s with ic_address := fun i => if i < M68K_IC_SIZE then 0xffffffff else s.ic_address i }

/-- The line that m68ki_ic_readimm16 selects for `address`:
`(address >> 2) & 0x3f`, 1 of 64. -/
def ic_idx (address : Nat) : Nat := (address >>> 2) &&& 0x3f

/-- The tag that m68ki_ic_readimm16 computes for `address`:
`(address >> 8) | (state->s_flag ? 0x1000000 : 0)`. -/
def ic_tag (s : m68ki_cpu_core) (address : Nat) : Nat :=
  (address >>> 8) ||| (if s.s_flag ≠ 0 then 0x1000000 else 0)

/-- The word of an instruction cache line that `address` selects. -/
def ic_line_word (s : m68ki_cpu_core) (idx address : Nat) : Nat :=
  if address &&& 2 ≠ 0 then s.ic_data idx &&& 0xffff else s.ic_data idx >>> 16

/-- Read an immediate word using the instruction cache of the 68020. -/
def m68ki_ic_readimm16 (cfg : Config) (s : m68ki_cpu_core) (address : Nat) :
    Nat × m68ki_cpu_core :=
  if s.cacr &&& M68K_CACR_EI ≠ 0 ∧ s.cpu_type &&& (CPU_TYPE_EC020 ||| CPU_TYPE_020) ≠ 0 then
    let tag := (address >>> 8) ||| (if s.s_flag ≠ 0 then 0x1000000 else 0)
    let idx := (address >>> 2) &&& 0x3f
    if s.ic_valid idx = 0 ∨ s.ic_address idx ≠ tag then
      if s.cacr &&& M68K_CACR_FI ≠ 0 then
        m68k_read_immediate_16 cfg s address
      else
        let r := m68ki_read_32 cfg s (address &&& not32 3)
        let data := r.1
        let s := r.2
        if s.g_buserr = 0 then
          let s := { s with
            ic_address := Function.update s.ic_address idx tag
            ic_data := Function.update s.ic_data idx data
            ic_valid := Function.update s.ic_valid idx 1 }
          (ic_line_word s idx address, s)
        else
          m68k_read_immediate_16 cfg s address
    else
      (ic_line_word s idx address, s)
  else
    m68k_read_immediate_16 cfg s address

/-- Handles all immediate word reads.  The body is the function
`m68ki_read_imm16_addr_slowpath` of `m68kcpu.c`, which is outside the
sources and is a parameter. -/
def m68ki_read_imm_16 (cfg : Config) (s : m68ki_cpu_core) : Nat × m68ki_cpu_core :=
  cfg.m68ki_read_imm16_addr_slowpath s s.pc

/-- The first mapped range that holds `address`, as the loop over
`read_ranges` finds it. -/
def mapped_read_range (s : m68ki_cpu_core) (address : Nat) : Option Nat :=
  (List.range s.read_ranges).find?
    (fun i => decide (address ≥ s.read_addr i ∧ address < s.read_upper i))

/-- Handles all immediate long reads. -/
def m68ki_read_imm_32 (cfg : Config) (s : m68ki_cpu_core) : Nat × m68ki_cpu_core :=
  let address := ADDRESS_68K s s.pc
  match mapped_read_range s address with
  | some i =>
    (mem_read_32 (s.read_data i) (address - s.read_addr i), { s with pc := add32 s.pc 4 })
  | none =>
    if cfg.M68K_EMULATE_PREFETCH then
      let s :=
        if s.pc ≠ s.pref_addr then
          let s := { s with pref_addr := s.pc }
          let r := m68ki_ic_readimm16 cfg s (ADDRESS_68K s s.pref_addr)
          { r.2 with pref_data := r.1 }
        else s
      let temp_val := MASK_OUT_ABOVE_16 s.pref_data
      let s := { s with pc := add32 s.pc 2 }
      let s := { s with pref_addr := s.pc }
      let r := m68ki_ic_readimm16 cfg s (ADDRESS_68K s s.pref_addr)
      let s := { r.2 with pref_data := r.1 }
      let temp_val := MASK_OUT_ABOVE_32 (shl32 temp_val 16 ||| MASK_OUT_ABOVE_16 s.pref_data)
      let s := { s with pc := add32 s.pc 2 }
      let r := m68ki_ic_readimm16 cfg s s.pc
      let s := { r.2 with pref_data := r.1 }
      let s := { s with pref_addr := if s.g_buserr ≠ 0 then 0xffffffff else s.pc }
      (temp_val, s)
    else
      let s := { s with pc := add32 s.pc 4 }
      m68k_read_immediate_32 cfg s address

/-! ## Effective address calculation -/

/-- Indexed addressing: m68ki_get_ea_ix, with `An` the base register. -/
def m68ki_get_ea_ix (cfg : Config) (s : m68ki_cpu_core) (An : Nat) : Nat × m68ki_cpu_core :=
  let r := m68ki_read_imm_16 cfg s
  let extension := r.1
  let s := r.2
  if CPU_TYPE_IS_010_LESS s.cpu_type ≠ 0 then
    let Xn := s.dar (extension >>> 12)
    let Xn := if BIT_B extension = 0 then to_uint (MAKE_INT_16 Xn) else Xn
    (add32 (add32 An Xn) (to_uint (MAKE_INT_8 extension)), s)
  else if BIT_8 extension = 0 then
    let Xn := s.dar (extension >>> 12)
    let Xn := if BIT_B extension = 0 then to_uint (MAKE_INT_16 Xn) else Xn
    let Xn :=
      if CPU_TYPE_IS_EC020_PLUS s.cpu_type ≠ 0 then shl32 Xn ((extension >>> 9) &&& 3)
      else Xn
    (add32 (add32 An Xn) (to_uint (MAKE_INT_8 extension)), s)
  else
    let s := USE_CYCLES s (cfg.m68ki_ea_idx_cycle_table (extension &&& 0x3f))
    let An := if BIT_7 extension ≠ 0 then 0 else An
    let Xn :=
      if BIT_6 extension = 0 then
        let Xn := s.dar (extension >>> 12)
        let Xn := if BIT_B extension = 0 then to_uint (MAKE_INT_16 Xn) else Xn
        shl32 Xn ((extension >>> 9) &&& 3)
      else 0
    let rbd :=
      if BIT_5 extension ≠ 0 then
        if BIT_4 extension ≠ 0 then m68ki_read_imm_32 cfg s
        else
          let r := m68ki_read_imm_16 cfg s
          (to_uint (MAKE_INT_16 r.1), r.2)
      else (0, s)
    let bd := rbd.1
    let s := rbd.2
    if extension &&& 7 = 0 then
      (add32 (add32 An bd) Xn, s)
    else
      let rod :=
        if BIT_1 extension ≠ 0 then
          if BIT_0 extension ≠ 0 then m68ki_read_imm_32 cfg s
          else
            let r := m68ki_read_imm_16 cfg s
            (to_uint (MAKE_INT_16 r.1), r.2)
        else (0, s)
      let od := rod.1
      let s := rod.2
      if BIT_2 extension ≠ 0 then
        let r := m68ki_read_32 cfg s (add32 An bd)
        (add32 (add32 r.1 Xn) od, r.2)
      else
        let r := m68ki_read_32 cfg s (add32 (add32 An bd) Xn)
        (add32 r.1 od, r.2)

/-- The cell of `dar` behind AX, `REG_A[(REG_IR >> 9) & 7]`. -/
def AX_index (s : m68ki_cpu_core) : Nat := 8 + ((s.ir >>> 9) &&& 7)

/-- The cell of `dar` behind AY, `REG_A[REG_IR & 7]`. -/
def AY_index (s : m68ki_cpu_core) : Nat := 8 + (s.ir &&& 7)

/-- AX: address register X of the instruction. -/
def AX (s : m68ki_cpu_core) : Nat := s.dar (AX_index s)

/-- AY: address register Y of the instruction. -/
def AY (s : m68ki_cpu_core) : Nat := s.dar (AY_index s)

/-- EA_AY_PI_8: `(AY++)`. -/
def EA_AY_PI_8 (s : m68ki_cpu_core) : Nat × m68ki_cpu_core :=
  (AY s, { s with dar := Function.update s.dar (AY_index s) (add32 (AY s) 1) })

/-- EA_AY_PI_16: `((AY+=2)-2)`. -/
def EA_AY_PI_16 (s : m68ki_cpu_core) : Nat × m68ki_cpu_core :=
  let t := { s with dar := Function.update s.dar (AY_index s) (add32 (AY s) 2) }
  (sub32 (AY t) 2, t)

/-- EA_AY_PI_32: `((AY+=4)-4)`. -/
def EA_AY_PI_32 (s : m68ki_cpu_core) : Nat × m68ki_cpu_core :=
  let t := { s with dar := Function.update s.dar (AY_index s) (add32 (AY s) 4) }
  (sub32 (AY t) 4, t)

/-- EA_AY_PD_8: `(--AY)`. -/
def EA_AY_PD_8 (s : m68ki_cpu_core) : Nat × m68ki_cpu_core :=
  let t := { s with dar := Function.update s.dar (AY_index s) (sub32 (AY s) 1) }
  (AY t, t)

/-- EA_AY_PD_16: `(AY-=2)`. -/
def EA_AY_PD_16 (s : m68ki_cpu_core) : Nat × m68ki_cpu_core :=
  let t := { s with dar := Function.update s.dar (AY_index s) (sub32 (AY s) 2) }
  (AY t, t)

/-- EA_AY_PD_32: `(AY-=4)`. -/
def EA_AY_PD_32 (s : m68ki_cpu_core) : Nat × m68ki_cpu_core :=
  let t := { s with dar := Function.update s.dar (AY_index s) (sub32 (AY s) 4) }
  (AY t, t)

/-- EA_AX_PI_8: `(AX++)`. -/
def EA_AX_PI_8 (s : m68ki_cpu_core) : Nat × m68ki_cpu_core :=
  (AX s, { s with dar := Function.update s.dar (AX_index s) (add32 (AX s) 1) })

/-- EA_AX_PI_16: `((AX+=2)-2)`. -/
def EA_AX_PI_16 (s : m68ki_cpu_core) : Nat × m68ki_cpu_core :=
  let t := { s with dar := Function.update s.dar (AX_index s) (add32 (AX s) 2) }
  (sub32 (AX t) 2, t)

/-- EA_AX_PI_32: `((AX+=4)-4)`. -/
def EA_AX_PI_32 (s : m68ki_cpu_core) : Nat × m68ki_cpu_core :=
  let t := { s with dar := Function.update s.dar (AX_index s) (add32 (AX s) 4) }
  (sub32 (AX t) 4, t)

/-- EA_AX_PD_8: `(--AX)`. -/
def EA_AX_PD_8 (s : m68ki_cpu_core) : Nat × m68ki_cpu_core :=
  let t := { s with dar := Function.update s.dar (AX_index s) (sub32 (AX s) 1) }
  (AX t, t)

/-- EA_AX_PD_16: `(AX-=2)`. -/
def EA_AX_PD_16 (s : m68ki_cpu_core) : Nat × m68ki_cpu_core :=
  let t := { s with dar := Function.update s.dar (AX_index s) (sub32 (AX s) 2) }
  (AX t, t)

/-- EA_AX_PD_32: `(AX-=4)`. -/
def EA_AX_PD_32 (s : m68ki_cpu_core) : Nat × m68ki_cpu_core :=
  let t := { s with dar := Function.update s.dar (AX_index s) (sub32 (AX s) 4) }
  (AX t, t)

/-- EA_A7_PI_8: `((REG_A[7]+=2)-2)`. -/
def EA_A7_PI_8 (s : m68ki_cpu_core) : Nat × m68ki_cpu_core :=
  let t := { s with dar := Function.update s.dar 15 (add32 (s.dar 15) 2) }
  (sub32 (t.dar 15) 2, t)

/-- EA_A7_PD_8: `(REG_A[7]-=2)`. -/
def EA_A7_PD_8 (s : m68ki_cpu_core) : Nat × m68ki_cpu_core :=
  let t := { s with dar := Function.update s.dar 15 (sub32 (s.dar 15) 2) }
  (t.dar 15, t)

/-- EA_AY_DI: `(AY+MAKE_INT_16(m68ki_read_imm_16(state)))`.  C leaves the
order of the two operands open; the register is read first here. -/
def EA_AY_DI (cfg : Config) (s : m68ki_cpu_core) : Nat × m68ki_cpu_core :=
  let r := m68ki_read_imm_16 cfg s
  (add32 (AY s) (to_uint (MAKE_INT_16 r.1)), r.2)

/-- EA_AW: `MAKE_INT_16(m68ki_read_imm_16(state))`, absolute word. -/
def EA_AW (cfg : Config) (s : m68ki_cpu_core) : Nat × m68ki_cpu_core :=
  let r := m68ki_read_imm_16 cfg s
  (to_uint (MAKE_INT_16 r.1), r.2)

/-- The macro `m68ki_use_program_space`, which does something only when
function codes are emulated. -/
def m68ki_use_program_space (cfg : Config) (s : m68ki_cpu_core) : m68ki_cpu_core :=
  if cfg.M68K_EMULATE_FC then { s with m68ki_address_space := FUNCTION_CODE_USER_PROGRAM }
  else s

/-- PC indirect with displacement: m68ki_get_ea_pcdi. -/
def m68ki_get_ea_pcdi (cfg : Config) (s : m68ki_cpu_core) : Nat × m68ki_cpu_core :=
  let old_pc := s.pc
  let s := m68ki_use_program_space cfg s
  let r := m68ki_read_imm_16 cfg s
  (add32 old_pc (to_uint (MAKE_INT_16 r.1)), r.2)

/-- PC indirect with index: m68ki_get_ea_pcix. -/
def m68ki_get_ea_pcix (cfg : Config) (s : m68ki_cpu_core) : Nat × m68ki_cpu_core :=
  let s := m68ki_use_program_space cfg s
  m68ki_get_ea_ix cfg s s.pc

/-- OPER_AY_IX_32: fetch a long operand through `EA_AY_IX_32`. -/
def OPER_AY_IX_32 (cfg : Config) (s : m68ki_cpu_core) : Nat × m68ki_cpu_core :=
  let r := m68ki_get_ea_ix cfg s (AY s)
  m68ki_read_32 cfg r.2 r.1

/-! ## Stack functions -/

def m68ki_push_16 (cfg : Config) (s : m68ki_cpu_core) (value : Nat) : m68ki_cpu_core :=
  let s := { s with dar := Function.update s.dar 15 (MASK_OUT_ABOVE_32 (sub32 (REG_SP s) 2)) }
  m68ki_write_16 cfg s (REG_SP s) value

def m68ki_push_32 (cfg : Config) (s : m68ki_cpu_core) (value : Nat) : m68ki_cpu_core :=
  let s := { s with dar := Function.update s.dar 15 (MASK_OUT_ABOVE_32 (sub32 (REG_SP s) 4)) }
  m68ki_write_32 cfg s (REG_SP s) value

def m68ki_fake_push_16 (s : m68ki_cpu_core) : m68ki_cpu_core :=
  { s with dar := Function.update s.dar 15 (MASK_OUT_ABOVE_32 (sub32 (REG_SP s) 2)) }

def m68ki_fake_push_32 (s : m68ki_cpu_core) : m68ki_cpu_core :=
  { s with dar := Function.update s.dar 15 (MASK_OUT_ABOVE_32 (sub32 (REG_SP s) 4)) }

def m68ki_fake_pull_16 (s : m68ki_cpu_core) : m68ki_cpu_core :=
  { s with dar := Function.update s.dar 15 (MASK_OUT_ABOVE_32 (add32 (REG_SP s) 2)) }

def m68ki_fake_pull_32 (s : m68ki_cpu_core) : m68ki_cpu_core :=
  { s with dar := Function.update s.dar 15 (MASK_OUT_ABOVE_32 (add32 (REG_SP s) 4)) }

/-! ## Program flow -/

def m68ki_jump (s : m68ki_cpu_core) (new_pc : Nat) : m68ki_cpu_core :=
  { s with pc := new_pc }

def m68ki_jump_vector (s : m68ki_cpu_core) (vector : Nat) : m68ki_cpu_core :=
  let s := { s with pc := add32 (shl32 vector 2) s.vbr }
  let r := ps_read_32 s s.pc
  { r.2 with pc := r.1 }

/-! ## Exception processing -/

/-- m68ki_clear_trace: clear all tracing, when trace emulation is compiled in. -/
def m68ki_clear_trace (cfg : Config) (s : m68ki_cpu_core) : m68ki_cpu_core :=
  if cfg.M68K_EMULATE_TRACE then { s with m68ki_tracing := 0 } else s

/-- Initiate exception processing; returns the old status register. -/
def m68ki_init_exception (cfg : Config) (s : m68ki_cpu_core) : Nat × m68ki_cpu_core :=
  let sr := m68ki_get_sr s
  let s := { s with t0_flag := 0 }
  let s := { s with t1_flag := s.t0_flag }
  let s := m68ki_clear_trace cfg s
  let s := m68ki_set_s_flag s SFLAG_SET
  (sr, s)

/-- 3 word stack frame (68000 only). -/
def m68ki_stack_frame_3word (cfg : Config) (s : m68ki_cpu_core) (pc sr : Nat) :
    m68ki_cpu_core :=
  let s := m68ki_push_32 cfg s pc
  m68ki_push_16 cfg s sr

/-- Format 0 stack frame. -/
def m68ki_stack_frame_0000 (cfg : Config) (s : m68ki_cpu_core) (pc sr vector : Nat) :
    m68ki_cpu_core :=
  if s.cpu_type = CPU_TYPE_000 then
    m68ki_stack_frame_3word cfg s pc sr
  else
    let s := m68ki_push_16 cfg s (shl32 vector 2)
    let s := m68ki_push_32 cfg s pc
    m68ki_push_16 cfg s sr

/-- Format 1 stack frame (68020): the 4 word throwaway frame. -/
def m68ki_stack_frame_0001 (cfg : Config) (s : m68ki_cpu_core) (pc sr vector : Nat) :
    m68ki_cpu_core :=
  let s := m68ki_push_16 cfg s (0x1000 ||| shl32 vector 2)
  let s := m68ki_push_32 cfg s pc
  m68ki_push_16 cfg s sr

/-- Format 2 stack frame. -/
def m68ki_stack_frame_0010 (cfg : Config) (s : m68ki_cpu_core) (sr vector : Nat) :
    m68ki_cpu_core :=
  let s := m68ki_push_32 cfg s s.ppc
  let s := m68ki_push_16 cfg s (0x2000 ||| shl32 vector 2)
  let s := m68ki_push_32 cfg s s.pc
  m68ki_push_16 cfg s sr

/-- The opcodes JMP (Reg) listed one by one in the switch of
m68ki_stack_frame_buserr. -/
def buserr_jmp_reg_opcodes : List Nat :=
  [0x4ED0, 0x4ED1, 0x4ED2, 0x4ED3, 0x4ED4, 0x4ED5, 0x4ED6, 0x4ED7,
   0x4ED8, 0x4ED9, 0x4EDa, 0x4EDb, 0x4EDc, 0x4EDd, 0x4EDe, 0x4EDf]

/-- The switch on REG_IR at the head of m68ki_stack_frame_buserr: the PC to
stack, and the state after the stack correction of the JSR cases. -/
def buserr_stacked_pc (s : m68ki_cpu_core) (sr : Nat) : Nat × m68ki_cpu_core :=
  if s.ir = 0x4E75 then
    ((add32 s.ppc 2) &&& s.address_mask, s)
  else if s.ir = 0x4EF9 then
    ((add32 s.ppc 2) &&& s.address_mask, s)
  else if s.ir ∈ buserr_jmp_reg_opcodes then
    ((add32 s.ppc 2) &&& s.address_mask, s)
  else if s.ir = 0x4E73 then
    ((add32 s.ppc 2) &&& s.address_mask, s)
  else if s.ir = 0x4Eb9 ∨ s.ir = 0x4E90 ∨ s.ir = 0x4Ea8 then
    ((add32 s.ppc 2) &&& s.address_mask,
      if sr &&& 0x2000 ≠ 0 then m68ki_fake_pull_32 s
      else { s with sp := Function.update s.sp 0 (add32 (s.sp 0) 4) })
  else if s.ir = 0x4A2F then
    ((add32 s.ppc 2) &&& s.address_mask, s)
  else
    (s.pc &&& s.address_mask, s)

/-- Bus error stack frame (68000 only). -/
def m68ki_stack_frame_buserr (cfg : Config) (s : m68ki_cpu_core) (sr : Nat) :
    m68ki_cpu_core :=
  let r := buserr_stacked_pc s sr
  let stacked_pc := r.1
  let s := r.2
  let s := m68ki_push_32 cfg s stacked_pc
  let s := m68ki_push_16 cfg s sr
  let s := m68ki_push_16 cfg s s.ir
  let s := m68ki_push_32 cfg s s.m68ki_aerr_address
  m68ki_push_16 cfg s (s.m68ki_aerr_write_mode ||| s.instr_mode ||| s.m68ki_aerr_fc)

/-- Format 8 stack frame (68010): the 29 word bus/address error frame. -/
def m68ki_stack_frame_1000 (cfg : Config) (s : m68ki_cpu_core) (pc sr vector : Nat) :
    m68ki_cpu_core :=
  let s := m68ki_fake_push_32 s
  let s := m68ki_fake_push_32 s
  let s := m68ki_fake_push_32 s
  let s := m68ki_fake_push_32 s
  let s := m68ki_fake_push_32 s
  let s := m68ki_fake_push_32 s
  let s := m68ki_fake_push_32 s
  let s := m68ki_fake_push_32 s
  let s := m68ki_push_16 cfg s 0
  let s := m68ki_fake_push_16 s
  let s := m68ki_push_16 cfg s 0
  let s := m68ki_fake_push_16 s
  let s := m68ki_push_16 cfg s 0
  let s := m68ki_fake_push_16 s
  let s := m68ki_push_32 cfg s 0
  let s := m68ki_push_16 cfg s 0
  let s := m68ki_push_16 cfg s (0x8000 ||| shl32 vector 2)
  let s := m68ki_push_32 cfg s pc
  m68ki_push_16 cfg s sr

/-- Format A stack frame (short bus fault). -/
def m68ki_stack_frame_1010 (cfg : Config) (s : m68ki_cpu_core)
    (sr vector pc fault_address : Nat) : m68ki_cpu_core :=
  let orig_rw := s.mmu_tmp_buserror_rw
  let orig_fc := s.mmu_tmp_buserror_fc
  let orig_sz := s.mmu_tmp_buserror_sz
  let s := m68ki_push_16 cfg s 0
  let s := m68ki_push_16 cfg s 0
  let s := m68ki_push_32 cfg s 0
  let s := m68ki_push_16 cfg s 0
  let s := m68ki_push_16 cfg s 0
  let s := m68ki_push_32 cfg s fault_address
  let s := m68ki_push_16 cfg s 0
  let s := m68ki_push_16 cfg s 0
  let s := m68ki_push_16 cfg s (0x0100 ||| orig_fc ||| shl32 orig_rw 6 ||| shl32 orig_sz 4)
  let s := m68ki_push_16 cfg s 0
  let s := m68ki_push_16 cfg s (0xa000 ||| shl32 vector 2)
  let s := m68ki_push_32 cfg s pc
  m68ki_push_16 cfg s sr

/-- Format B stack frame (long bus fault). -/
def m68ki_stack_frame_1011 (cfg : Config) (s : m68ki_cpu_core)
    (sr vector pc fault_address : Nat) : m68ki_cpu_core :=
  let orig_rw := s.mmu_tmp_buserror_rw
  let orig_fc := s.mmu_tmp_buserror_fc
  let orig_sz := s.mmu_tmp_buserror_sz
  let s := m68ki_push_32 cfg s 0
  let s := m68ki_push_32 cfg s 0
  let s := m68ki_push_32 cfg s 0
  let s := m68ki_push_32 cfg s 0
  let s := m68ki_push_32 cfg s 0
  let s := m68ki_push_32 cfg s 0
  let s := m68ki_push_32 cfg s 0
  let s := m68ki_push_32 cfg s 0
  let s := m68ki_push_32 cfg s 0
  let s := m68ki_push_16 cfg s 0
  let s := m68ki_push_32 cfg s 0
  let s := m68ki_push_16 cfg s 0
  let s := m68ki_push_32 cfg s 0
  let s := m68ki_push_32 cfg s 0
  let s := m68ki_push_32 cfg s 0
  let s := m68ki_push_32 cfg s 0
  let s := m68ki_push_32 cfg s 0
  let s := m68ki_push_32 cfg s 0
  let s := m68ki_push_16 cfg s 0
  let s := m68ki_push_16 cfg s 0
  let s := m68ki_push_32 cfg s fault_address
  let s := m68ki_push_16 cfg s 0
  let s := m68ki_push_16 cfg s 0
  let s := m68ki_push_16 cfg s (0x0100 ||| orig_fc ||| shl32 orig_rw 6 ||| shl32 orig_sz 4)
  let s := m68ki_push_16 cfg s 0
  let s := m68ki_push_16 cfg s (0xb000 ||| shl32 vector 2)
  let s := m68ki_push_32 cfg s pc
  m68ki_push_16 cfg s sr

/-- Type 7 stack frame (access fault), used by the 68040 for bus fault and
mmu trap: 30 words. -/
def m68ki_stack_frame_0111 (cfg : Config) (s : m68ki_cpu_core)
    (sr vector pc fault_address in_mmu : Nat) : m68ki_cpu_core :=
  let orig_rw := s.mmu_tmp_buserror_rw
  let orig_fc := s.mmu_tmp_buserror_fc
  let s := m68ki_push_32 cfg s 0
  let s := m68ki_push_32 cfg s 0
  let s := m68ki_push_32 cfg s 0
  let s := m68ki_push_32 cfg s 0
  let s := m68ki_push_32 cfg s 0
  let s := m68ki_push_32 cfg s 0
  let s := m68ki_push_32 cfg s 0
  let s := m68ki_push_32 cfg s 0
  let s := m68ki_push_32 cfg s 0
  let s := m68ki_push_32 cfg s fault_address
  let s := m68ki_push_32 cfg s 0
  let s := m68ki_push_16 cfg s 0
  let s := m68ki_push_16 cfg s
    ((if in_mmu ≠ 0 then 0x400 else 0) ||| orig_fc ||| shl32 orig_rw 8)
  let s := m68ki_push_32 cfg s fault_address
  let s := m68ki_push_16 cfg s (0x7000 ||| shl32 vector 2)
  let s := m68ki_push_32 cfg s pc
  m68ki_push_16 cfg s sr

/-- Used for Group 2 exceptions: these stack a type 2 frame on the 020. -/
def m68ki_exception_trap (cfg : Config) (s : m68ki_cpu_core) (vector : Nat) :
    m68ki_cpu_core :=
  let r := m68ki_init_exception cfg s
  let sr := r.1
  let s := r.2
  let s :=
    if CPU_TYPE_IS_010_LESS s.cpu_type ≠ 0 then
      m68ki_stack_frame_0000 cfg s s.pc sr vector
    else
      m68ki_stack_frame_0010 cfg s sr vector
  let s := m68ki_jump_vector s vector
  USE_CYCLES s ((s.cyc_exception vector : Int) - (s.cyc_instruction s.ir : Int))

/-- Trap#n stacks a 0 frame but behaves like group2 otherwise. -/
def m68ki_exception_trapN (cfg : Config) (s : m68ki_cpu_core) (vector : Nat) :
    m68ki_cpu_core :=
  let r := m68ki_init_exception cfg s
  let sr := r.1
  let s := r.2
  let s := m68ki_stack_frame_0000 cfg s s.pc sr vector
  let s := m68ki_jump_vector s vector
  USE_CYCLES s ((s.cyc_exception vector : Int) - (s.cyc_instruction s.ir : Int))

/-- Exception for trace mode. -/
def m68ki_exception_trace (cfg : Config) (s : m68ki_cpu_core) : m68ki_cpu_core :=
  let r := m68ki_init_exception cfg s
  let sr := r.1
  let s := r.2
  let s :=
    if CPU_TYPE_IS_010_LESS s.cpu_type ≠ 0 then
      let s :=
        if cfg.M68K_EMULATE_ADDRESS_ERROR ∧ CPU_TYPE_IS_000 s.cpu_type then
          { s with instr_mode := INSTRUCTION_NO }
        else s
      m68ki_stack_frame_0000 cfg s s.pc sr EXCEPTION_TRACE
    else
      m68ki_stack_frame_0010 cfg s sr EXCEPTION_TRACE
  let s := m68ki_jump_vector s EXCEPTION_TRACE
  let s := { s with stopped := s.stopped &&& not32 STOP_LEVEL_STOP }
  USE_CYCLES s (s.cyc_exception EXCEPTION_TRACE)

/-- Exception for privilege violation. -/
def m68ki_exception_privilege_violation (cfg : Config) (s : m68ki_cpu_core) :
    m68ki_cpu_core :=
  let r := m68ki_init_exception cfg s
  let sr := r.1
  let s := r.2
  let s :=
    if cfg.M68K_EMULATE_ADDRESS_ERROR ∧ CPU_TYPE_IS_000 s.cpu_type then
      { s with instr_mode := INSTRUCTION_NO }
    else s
  let s := m68ki_stack_frame_0000 cfg s s.ppc sr EXCEPTION_PRIVILEGE_VIOLATION
  let s := m68ki_jump_vector s EXCEPTION_PRIVILEGE_VIOLATION
  USE_CYCLES s ((s.cyc_exception EXCEPTION_PRIVILEGE_VIOLATION : Int) -
    (s.cyc_instruction s.ir : Int))

/-- Exception for bus error.  The two double-fault tests at its head are
commented out in the source, so there is none here; the frame is the 68000
one whatever the CPU type. -/
def m68ki_exception_bus_error (cfg : Config) (s : m68ki_cpu_core) : m68ki_cpu_core :=
  let s := USE_CYCLES s ((s.cyc_exception EXCEPTION_BUS_ERROR : Int) -
    (s.cyc_instruction s.ir : Int))
  let r := m68ki_init_exception cfg s
  let sr := r.1
  let s := r.2
  let s := m68ki_stack_frame_buserr cfg s sr
  m68ki_jump_vector s EXCEPTION_BUS_ERROR

/-- Exception for A-Line instructions. -/
def m68ki_exception_1010 (cfg : Config) (s : m68ki_cpu_core) : m68ki_cpu_core :=
  let r := m68ki_init_exception cfg s
  let sr := r.1
  let s := r.2
  let s := m68ki_stack_frame_0000 cfg s s.ppc sr EXCEPTION_1010
  let s := m68ki_jump_vector s EXCEPTION_1010
  USE_CYCLES s ((s.cyc_exception EXCEPTION_1010 : Int) - (s.cyc_instruction s.ir : Int))

/-- Exception for F-Line instructions. -/
def m68ki_exception_1111 (cfg : Config) (s : m68ki_cpu_core) : m68ki_cpu_core :=
  let r := m68ki_init_exception cfg s
  let sr := r.1
  let s := r.2
  let s := m68ki_stack_frame_0000 cfg s s.ppc sr EXCEPTION_1111
  let s := m68ki_jump_vector s EXCEPTION_1111
  USE_CYCLES s ((s.cyc_exception EXCEPTION_1111 : Int) - (s.cyc_instruction s.ir : Int))

/-- Exception for illegal instructions; a callback that answers non-zero has
handled the opcode and suppresses the exception. -/
def m68ki_exception_illegal (cfg : Config) (s : m68ki_cpu_core) : m68ki_cpu_core :=
  if cfg.m68ki_illg_callback s.ir ≠ 0 then s
  else
    let r := m68ki_init_exception cfg s
    let sr := r.1
    let s := r.2
    let s :=
      if cfg.M68K_EMULATE_ADDRESS_ERROR ∧ CPU_TYPE_IS_000 s.cpu_type then
        { s with instr_mode := INSTRUCTION_NO }
      else s
    let s := m68ki_stack_frame_0000 cfg s s.ppc sr EXCEPTION_ILLEGAL_INSTRUCTION
    let s := m68ki_jump_vector s EXCEPTION_ILLEGAL_INSTRUCTION
    USE_CYCLES s ((s.cyc_exception EXCEPTION_ILLEGAL_INSTRUCTION : Int) -
      (s.cyc_instruction s.ir : Int))

/-- Exception for format error in RTE. -/
def m68ki_exception_format_error (cfg : Config) (s : m68ki_cpu_core) : m68ki_cpu_core :=
  let r := m68ki_init_exception cfg s
  let sr := r.1
  let s := r.2
  let s := m68ki_stack_frame_0000 cfg s s.pc sr EXCEPTION_FORMAT_ERROR
  let s := m68ki_jump_vector s EXCEPTION_FORMAT_ERROR
  USE_CYCLES s ((s.cyc_exception EXCEPTION_FORMAT_ERROR : Int) -
    (s.cyc_instruction s.ir : Int))

/-- Exception for address error. -/
def m68ki_exception_address_error (cfg : Config) (s : m68ki_cpu_core) : m68ki_cpu_core :=
  let r := m68ki_init_exception cfg s
  let sr := r.1
  let s := r.2
  if s.run_mode = RUN_MODE_BERR_AERR_RESET_WSF then
    let s := (m68k_read_memory_8 s 0x00ffff01).2
    { s with stopped := STOP_LEVEL_HALT }
  else
    let s := { s with run_mode := RUN_MODE_BERR_AERR_RESET_WSF }
    let s :=
      if CPU_TYPE_IS_000 s.cpu_type then
        m68ki_stack_frame_buserr cfg s sr
      else if CPU_TYPE_IS_010 s.cpu_type then
        m68ki_stack_frame_1000 cfg s s.ppc sr EXCEPTION_BUS_ERROR
      else if s.mmu_tmp_buserror_address = s.ppc then
        m68ki_stack_frame_1010 cfg s sr EXCEPTION_BUS_ERROR s.ppc s.mmu_tmp_buserror_address
      else
        m68ki_stack_frame_1011 cfg s sr EXCEPTION_BUS_ERROR s.ppc s.mmu_tmp_buserror_address
    let s := m68ki_jump_vector s EXCEPTION_ADDRESS_ERROR
    let s := { s with run_mode := RUN_MODE_BERR_AERR_RESET }
    USE_CYCLES s (s.cyc_exception EXCEPTION_ADDRESS_ERROR)

/-- The vector chosen by m68ki_exception_interrupt from the answer of the
interrupt acknowledge; `none` is the early return on an invalid vector. -/
def interrupt_vector (cfg : Config) (vector int_level : Nat) : Option Nat :=
  if vector = cfg.M68K_INT_ACK_AUTOVECTOR then
    some (add32 EXCEPTION_INTERRUPT_AUTOVECTOR int_level)
  else if vector = cfg.M68K_INT_ACK_SPURIOUS then
    some EXCEPTION_SPURIOUS_INTERRUPT
  else if vector > 255 then
    none
  else
    some vector

/-- The body of m68ki_exception_interrupt from "Start exception processing"
on, for the level and vector settled before it. -/
def interrupt_process (cfg : Config) (s : m68ki_cpu_core) (int_level vector : Nat) :
    m68ki_cpu_core :=
  let r := m68ki_init_exception cfg s
  let sr := r.1
  let s := r.2
  let s := { s with int_mask := shl32 int_level 8 }
  let r := m68ki_read_data_32 cfg s (add32 (shl32 vector 2) s.vbr)
  let new_pc := r.1
  let s := r.2
  let r :=
    if new_pc = 0 then
      m68ki_read_data_32 cfg s (add32 (shl32 EXCEPTION_UNINITIALIZED_INTERRUPT 2) s.vbr)
    else (new_pc, s)
  let new_pc := r.1
  let s := r.2
  let s := m68ki_stack_frame_0000 cfg s s.pc sr vector
  let s :=
    if s.m_flag ≠ 0 ∧ CPU_TYPE_IS_EC020_PLUS s.cpu_type ≠ 0 then
      let s := m68ki_set_sm_flag s s.s_flag
      let sr := sr ||| 0x2000
      m68ki_stack_frame_0001 cfg s s.pc sr vector
    else s
  let s := m68ki_jump s new_pc
  let s := USE_CYCLES s (s.cyc_exception vector)
  if cfg.M68K_EMULATE_INT_ACK then s else { s with int_level := 0 }

/-- The head of m68ki_exception_interrupt: on a 68000 with address-error
emulation leave instruction mode, then turn off the stopped state. -/
def interrupt_entry (cfg : Config) (s : m68ki_cpu_core) : m68ki_cpu_core :=
  let s :=
    if cfg.M68K_EMULATE_ADDRESS_ERROR ∧ CPU_TYPE_IS_000 s.cpu_type then
      { s with instr_mode := INSTRUCTION_NO }
    else s
  { s with stopped := s.stopped &&& not32 STOP_LEVEL_STOP }

/-- The level that m68ki_exception_interrupt settles on, whatever level it was
passed: 7 for a latched NMI (the latch is cleared), else `int_level >> 8` when
`int_level` exceeds the mask; `none` is the return when neither holds. -/
def interrupt_level (s : m68ki_cpu_core) : Option (Nat × m68ki_cpu_core) :=
  if s.nmi_pending ≠ 0 then some (7, { s with nmi_pending := 0 })
  else if s.int_level > s.int_mask then some (s.int_level >>> 8, s)
  else none

/-- Service an interrupt request and start exception processing. -/
def m68ki_exception_interrupt (cfg : Config) (s : m68ki_cpu_core) (int_level : Nat) :
    m68ki_cpu_core :=
  let s := interrupt_entry cfg s
  if s.stopped ≠ 0 then s
  else
    match interrupt_level s with
    | none => s
    | some (int_level, s) =>
      let r := m68ki_int_ack cfg s int_level
      match interrupt_vector cfg r.1 int_level with
      | none => r.2
      | some vector => interrupt_process cfg r.2 int_level vector

/-- Check for interrupts. -/
def m68ki_check_interrupts (cfg : Config) (s : m68ki_cpu_core) : m68ki_cpu_core :=
  if s.nmi_pending ≠ 0 then
    let s := { s with nmi_pending := 0 }
    m68ki_exception_interrupt cfg s 7
  else if s.int_level > s.int_mask then
    m68ki_exception_interrupt cfg s (s.int_level >>> 8)
  else s

/-! ## Observations -/

/-- What the cycle accounting of an exception reads and writes: the
remaining-cycle counter, the two cycle tables and the instruction register. -/
def cycle_view (s : m68ki_cpu_core) : Int × (Nat → Nat) × (Nat → Nat) × Nat :=
  (s.m68ki_remaining_cycles, s.cyc_exception, s.cyc_instruction, s.ir)

/-! ## Indexed addressing in the words of the specification -/

/-- The index register of an extension word as the specification describes
it: `dar[ext >> 12]`, sign-extended from 16 bits when bit 11 of the word is
clear. -/
def spec_ea_index (s : m68ki_cpu_core) (ext : Nat) : Int :=
  if ext.testBit 11 then (s.dar (ext >>> 12) : Int) else MAKE_INT_16 (s.dar (ext >>> 12))

/-- The scale 1, 2, 4 or 8 that bits 9-10 of an extension word select. -/
def spec_ea_scale (ext : Nat) : Int := (2 : Int) ^ ((ext >>> 9) % 4)

/-- The brief-format address of the specification:
`An + Xn * scale + sign_extend_8(ext & 0xff)` modulo 2^32. -/
def spec_ea_brief (s : m68ki_cpu_core) (ext An : Nat) (scale : Int) : Nat :=
  to_uint ((An : Int) + spec_ea_index s ext * scale + MAKE_INT_8 (ext &&& 0xff))

/-- A displacement of the full format as the specification describes it:
null (sizes 0 and 1), a sign-extended word (size 2) or a long (size 3), the
latter two fetched from the instruction stream. -/
def spec_ea_displacement (cfg : Config) (s : m68ki_cpu_core) (size : Nat) :
    Nat × m68ki_cpu_core :=
  if size = 2 then
    (to_uint (MAKE_INT_16 (m68ki_read_imm_16 cfg s).1), (m68ki_read_imm_16 cfg s).2)
  else if size = 3 then m68ki_read_imm_32 cfg s
  else (0, s)

/-- The full-format address of the specification, from the state `s1` reached
after the extension word `ext` was fetched: base register unless BS (bit 7),
scaled index unless IS (bit 6), base displacement by bits 5-4; with bits 2-0
zero the address is `base + bd + index`, otherwise the outer displacement is
taken by bits 1-0 and the address is `mem32[base + bd] + index + od` when
bit 2 is set and `mem32[base + bd + index] + od` when it is clear; all sums
modulo 2^32. -/
def spec_ea_full (cfg : Config) (s1 : m68ki_cpu_core) (ext An : Nat) :
    Nat × m68ki_cpu_core :=
  let base : Nat := if ext.testBit 7 then 0 else An
  let index : Int := if ext.testBit 6 then 0 else spec_ea_index s1 ext * spec_ea_scale ext
  let bd := spec_ea_displacement cfg s1 ((ext >>> 4) % 4)
  if ext % 8 = 0 then
    (to_uint ((base : Int) + (bd.1 : Int) + index), bd.2)
  else
    let od := spec_ea_displacement cfg bd.2 (ext % 4)
    if ext.testBit 2 then
      let m := m68ki_read_32 cfg od.2 (to_uint ((base : Int) + (bd.1 : Int)))
      (to_uint ((m.1 : Int) + index + (od.1 : Int)), m.2)
    else
      let m := m68ki_read_32 cfg od.2 (to_uint ((base : Int) + (bd.1 : Int) + index))
      (to_uint ((m.1 : Int) + (od.1 : Int)), m.2)

/-! ## Address register stepping in the words of the specification -/

/-- Post-increment as the specification describes it: the value is the old
content of `dar[i]`, and the register then holds old + size modulo 2^32. -/
def spec_post_increment (s : m68ki_cpu_core) (i size : Nat) : Nat × m68ki_cpu_core :=
  (s.dar i, { s with dar := Function.update s.dar i (to_uint ((s.dar i : Int) + (size : Int))) })

/-- Pre-decrement as the specification describes it: the register first takes
old - size modulo 2^32, and the value is that new content. -/
def spec_pre_decrement (s : m68ki_cpu_core) (i size : Nat) : Nat × m68ki_cpu_core :=
  (to_uint ((s.dar i : Int) - (size : Int)),
    { s with dar := Function.update s.dar i (to_uint ((s.dar i : Int) - (size : Int))) })

/-- The instruction cache: the tags, the data and the valid flags. -/
def ic_view (s : m68ki_cpu_core) : (Nat → Nat) × (Nat → Nat) × (Nat → Nat) :=
  (s.ic_address, s.ic_data, s.ic_valid)

/-- What exception processing changes when it runs: the bus record and the
host memory (where a frame goes), the registers and the stack-pointer bank,
PC, SR and the interrupt mask. -/
def processing_view (s : m68ki_cpu_core) :
    List BusEvent × (Nat → Nat) × (Nat → Nat) × (Nat → Nat) × Nat × Nat × Nat :=
  (s.bus, s.mem, s.dar, s.sp, s.pc, m68ki_get_sr s, s.int_mask)

/-! ## Stack frames in the words of the specification -/

/-- The host writes of a format-0 frame put below the stack pointer `sp`, in
the order they are made: on the 68000 the PC and then the SR, which ends up at
the frame base with the PC two bytes above it; on the other CPUs the word
`vector << 2` before them. -/
def spec_frame_0000 (s : m68ki_cpu_core) (sp pc sr vector : Nat) : List BusEvent :=
  if s.cpu_type = CPU_TYPE_000 then
    [BusEvent.write32 (sub32 sp 4 &&& s.address_mask) pc,
     BusEvent.write16 (sub32 sp 6 &&& s.address_mask) sr]
  else
    [BusEvent.write16 (sub32 sp 2 &&& s.address_mask) (shl32 vector 2),
     BusEvent.write32 (sub32 sp 6 &&& s.address_mask) pc,
     BusEvent.write16 (sub32 sp 8 &&& s.address_mask) sr]

/-- The host writes of a format-2 frame put below the stack pointer `sp`: the
instruction address, the word `0x2000 | vector << 2`, the PC and the SR, which
ends up at the frame base with the PC two bytes above it. -/
def spec_frame_0010 (s : m68ki_cpu_core) (sp address pc sr vector : Nat) : List BusEvent :=
  [BusEvent.write32 (sub32 sp 4 &&& s.address_mask) address,
   BusEvent.write16 (sub32 sp 6 &&& s.address_mask) (0x2000 ||| shl32 vector 2),
   BusEvent.write32 (sub32 sp 10 &&& s.address_mask) pc,
   BusEvent.write16 (sub32 sp 12 &&& s.address_mask) sr]

/-- A frame of `n` bytes built from state `s` into state `F`, with `pc` and
`sr` at its base: A7 is `n` lower (modulo 2^32), the last two host writes of
the frame are the PC at A7 + 2 and the SR at A7, and the host memory holds the
SR word at A7 and the PC long at A7 + 2. -/
def frame_built (s F : m68ki_cpu_core) (n pc sr : Nat) : Prop :=
  F.dar 15 = sub32 (s.dar 15) n ∧
  (∃ pre, F.bus = s.bus ++ pre ++
    [BusEvent.write32 (ADDRESS_68K s (add32 (F.dar 15) 2)) pc,
     BusEvent.write16 (ADDRESS_68K s (F.dar 15)) sr]) ∧
  mem_read_16 F.mem (ADDRESS_68K s (F.dar 15)) = sr % 0x10000 ∧
  mem_read_32 F.mem (ADDRESS_68K s (add32 (F.dar 15) 2)) = pc % 0x100000000

/-! ## Sample states -/

/-- A 68000 in user mode: A7 is the user stack pointer 0x8000, the saved
supervisor stack pointer is 0x1000, interrupt mask 3, interrupt level 5
asserted, PC 0x400, and the autovector of level 5 (address 0x74) holds
0x00002468. -/
def sample_000 : m68ki_cpu_core :=
  { cpu_type := CPU_TYPE_000
    address_mask := 0x00ffffff
    sr_mask := 0xa71f
    dar := fun i => if i = 15 then 0x8000 else 0
    sp := fun i => if i = 4 then 0x1000 else 0
    pc := 0x400
    ppc := 0x3fe
    int_mask := 0x0300
    int_level := 0x0500
    not_z_flag := 1
    mem := fun a => if a = 0x76 then 0x24 else if a = 0x77 then 0x68 else 0 }

/-- The stack pointer that exception processing switches to: A7 after
`m68ki_set_s_flag(SFLAG_SET)`. -/
def supervisor_sp (s : m68ki_cpu_core) : Nat := (m68ki_set_s_flag s SFLAG_SET).dar 15

/-- The state in which m68ki_exception_interrupt starts exception processing
when it is entered in state `s`, is not halted and has acknowledged level `L`:
instruction mode left (68000 with address-error emulation), stopped state off,
NMI latch clear, the acknowledge on the bus record. -/
def interrupt_acknowledged (cfg : Config) (s : m68ki_cpu_core) (L : Nat) : m68ki_cpu_core :=
  { s with
    instr_mode :=
      if cfg.M68K_EMULATE_ADDRESS_ERROR ∧ CPU_TYPE_IS_000 s.cpu_type then INSTRUCTION_NO
      else s.instr_mode
    stopped := 0
    nmi_pending := 0
    bus := s.bus ++ if cfg.M68K_EMULATE_INT_ACK then [BusEvent.int_ack L] else [] }

/-- The options as the comments of the header describe the usual build: the
acknowledge callback is used and answers with the autovector sentinel. -/
def sample_cfg : Config := {}

/-- The state `sample_000` with interrupt mask 7, level 7 asserted and the
NMI latch set, as after the host raised IPL to 7 while SR masks level 7. -/
def nmi_state : m68ki_cpu_core :=
  { sample_000 with nmi_pending := 1, int_level := 0x0700, int_mask := 0x0700 }

/-- The state `sample_000` with level 7 asserted and masked by interrupt
mask 7, the NMI latch clear. -/
def level7_masked : m68ki_cpu_core :=
  { sample_000 with int_level := 0x0700, int_mask := 0x0700 }

/-- The state `sample_000` with a memory image in which the autovector of
level 5 (address 0x74) is zero and the uninitialized-interrupt vector
(address 0x3C) holds 0x00001234. -/
def zero_vector_000 : m68ki_cpu_core :=
  { sample_000 with
    mem := fun a => if a = 0x3E then 0x12 else if a = 0x3F then 0x34 else 0 }

/-- The state `sample_000` at the address error of MOVE.W (A0),D0 with
A0 = 0x1001: IR 0x3010, a data read in user mode at 0x1001 during an
instruction, and an address-error vector (address 0x0C) that holds 0x00001357. -/
def aerr_000 : m68ki_cpu_core :=
  { sample_000 with
    ir := 0x3010
    m68ki_aerr_address := 0x1001
    m68ki_aerr_write_mode := MODE_READ
    m68ki_aerr_fc := FUNCTION_CODE_USER_DATA
    instr_mode := INSTRUCTION_YES
    mem := fun a => if a = 0x0E then 0x13 else if a = 0x0F then 0x57 else 0 }

/-- The state `aerr_000` entered while the frame of an earlier bus or address
error is still being written. -/
def wsf_000 : m68ki_cpu_core :=
  { aerr_000 with run_mode := RUN_MODE_BERR_AERR_RESET_WSF }

/-- The state `sample_000` on a 68020: 32 address lines. -/
def sample_020 : m68ki_cpu_core :=
  { sample_000 with cpu_type := CPU_TYPE_020, address_mask := 0xffffffff, sr_mask := 0xf71f }

/-- A 68010 in user mode about to take TRAP #7: VBR = 0x2000, the saved
supervisor stack pointer is 0x4000, and the long at 0x209C (vector 39) is
0x00000800. -/
def trap7_010 : m68ki_cpu_core :=
  { sample_000 with
    cpu_type := CPU_TYPE_010
    vbr := 0x2000
    sp := fun i => if i = 4 then 0x4000 else 0
    mem := fun a => if a = 0x209E then 0x08 else 0 }

/-- The state `trap7_010` with the memory image that the scenario of the
specification describes: the long at 0x207C is 0x00000800 and every other
byte, the long at 0x209C included, is zero. -/
def trap7_at_207C : m68ki_cpu_core :=
  { trap7_010 with mem := fun a => if a = 0x207E then 0x08 else 0 }

/-- The state `sample_000` with 100 cycles left, IR = 0x4AFC (ILLEGAL), four
cycles charged for every instruction and exception costs of 34 (illegal
instruction), 50 (address error) and 44 (the level 5 autovector). -/
def cycles_000 : m68ki_cpu_core :=
  { sample_000 with
    ir := 0x4AFC
    m68ki_remaining_cycles := 100
    cyc_instruction := fun _ => 4
    cyc_exception := fun v => if v = 4 then 34 else if v = 3 then 50 else if v = 29 then 44 else 0 }

/-- The state `sample_000` in front of an indexed operand: D0 = 0x0000FFFF
(-1 as a word), A0 = 0x2000, and at the PC the extension word 0x0610 (D0.W,
scale bits 11, displacement 0x10). -/
def ea_000 : m68ki_cpu_core :=
  { sample_000 with
    dar := fun i => if i = 0 then 0xFFFF else if i = 8 then 0x2000 else
      if i = 15 then 0x8000 else 0
    mem := fun a => if a = 0x400 then 0x06 else if a = 0x401 then 0x10 else 0 }

/-- The state `ea_000` on a 68020. -/
def ea_020 : m68ki_cpu_core :=
  { ea_000 with cpu_type := CPU_TYPE_020, address_mask := 0xffffffff }

/-- The state `ea_020` in front of a full-format operand: the extension word
0x0161 (bit 8 set, index suppressed, word base displacement, memory indirect
with null outer displacement), the base displacement 0x0004, and the long
0x00003000 at 0x2004. -/
def full_020 : m68ki_cpu_core :=
  { ea_020 with
    mem := fun a =>
      if a = 0x400 then 0x01 else if a = 0x401 then 0x61 else
      if a = 0x403 then 0x04 else if a = 0x2006 then 0x30 else 0 }

/-- The state `ea_020` in front of the extension word 0x0100: full format
with the reserved base-displacement size 00, base A0 and index D0.W present,
no memory indirection. -/
def reserved_020 : m68ki_cpu_core :=
  { ea_020 with mem := fun a => if a = 0x400 then 0x01 else 0 }

/-- The state `sample_020` in front of the operand of
MOVE.L ([8,A0,D0.W*4]),D1: IR 0x2230, A0 = 0x1000, D0 = 2, at the PC the
extension word 0x0521 and the base displacement 0x0008, the long at 0x1010 is
0x00002000 and the long at 0x2000 is 0xDEADBEEF. -/
def indirect_020 : m68ki_cpu_core :=
  { sample_020 with
    ir := 0x2230
    dar := fun i => if i = 0 then 2 else if i = 8 then 0x1000 else
      if i = 15 then 0x8000 else 0
    mem := fun a =>
      if a = 0x400 then 0x05 else if a = 0x401 then 0x21 else
      if a = 0x403 then 0x08 else if a = 0x1012 then 0x20 else
      if a = 0x2000 then 0xDE else if a = 0x2001 then 0xAD else
      if a = 0x2002 then 0xBE else if a = 0x2003 then 0xEF else 0 }

/-- The state `indirect_020` with the memory image that the scenario of the
specification describes: the long at 0x1008 is 0x00002000, the long at 0x2000
is 0xDEADBEEF, and every other byte outside the instruction, the long at
0x1010 included, is zero. -/
def indirect_at_1008 : m68ki_cpu_core :=
  { indirect_020 with
    mem := fun a =>
      if a = 0x400 then 0x05 else if a = 0x401 then 0x21 else
      if a = 0x403 then 0x08 else if a = 0x100A then 0x20 else
      if a = 0x2000 then 0xDE else if a = 0x2001 then 0xAD else
      if a = 0x2002 then 0xBE else if a = 0x2003 then 0xEF else 0 }

/-- The state `sample_000` in front of a displacement word: A0 = 0x2000 and
at the PC (0x400) the word 0xFFFC, -4 as a signed word. -/
def disp_000 : m68ki_cpu_core :=
  { sample_000 with
    dar := fun i => if i = 8 then 0x2000 else if i = 15 then 0x8000 else 0
    mem := fun a => if a = 0x400 then 0xFF else if a = 0x401 then 0xFC else 0 }

/-- The state `trap7_010` with VBR = 0x01002000, a value that MOVEC can load
and that has a bit above the 24 address lines of the 68010. -/
def high_vbr_010 : m68ki_cpu_core :=
  { trap7_010 with vbr := 0x01002000 }

/-- The state `sample_020` with the instruction cache enabled (CACR.EI) and
line 0 valid for the user-mode addresses 0x400..0x403 (tag 4) with the data
0x12345678, every other line invalid; the long at 0x404 in memory is
0xAABBCCDD. -/
def cached_020 : m68ki_cpu_core :=
  { sample_020 with
    cacr := M68K_CACR_EI
    ic_address := fun i => if i = 0 then 4 else 0
    ic_data := fun i => if i = 0 then 0x12345678 else 0
    ic_valid := fun i => if i = 0 then 1 else 0
    mem := fun a =>
      if a = 0x404 then 0xAA else if a = 0x405 then 0xBB else
      if a = 0x406 then 0xCC else if a = 0x407 then 0xDD else 0 }

/-- The state `cached_020` with the cache frozen as well (CACR.FI). -/
def frozen_020 : m68ki_cpu_core :=
  { cached_020 with cacr := M68K_CACR_EI ||| M68K_CACR_FI }

/-- The options `sample_cfg` with an illegal-instruction callback that answers
1 for every opcode: the host handles them all. -/
def handled_cfg : Config := { sample_cfg with m68ki_illg_callback := fun _ => 1 }

/-- The state `nmi_state` stopped and halted: both STOP and HALT are set in
`stopped`, and the NMI latch is set. -/
def halted_nmi : m68ki_cpu_core :=
  { nmi_state with stopped := STOP_LEVEL_STOP ||| STOP_LEVEL_HALT }

/-- The state `sample_020` with M set: user mode, the saved interrupt stack
pointer is 0x1000 and the saved master stack pointer is 0x3000. -/
def master_020 : m68ki_cpu_core :=
  { sample_020 with
    m_flag := MFLAG_SET
    sp := fun i => if i = 4 then 0x1000 else if i = 6 then 0x3000 else 0 }

/-- The state `aerr_000` at a fault of RTS: IR 0x4E75, the instruction at
0x3FE, and a PC that has already left for the return address 0x1234. -/
def rts_000 : m68ki_cpu_core :=
  { aerr_000 with ir := 0x4E75, pc := 0x1234 }

/-- The state `rts_000` at a fault of MOVE.W (A0),D0 (IR 0x3010) instead. -/
def move_000 : m68ki_cpu_core :=
  { rts_000 with ir := 0x3010 }

/-- The state `rts_000` at a fault of JSR (A0): IR 0x4E90. -/
def jsr_an_000 : m68ki_cpu_core :=
  { rts_000 with ir := 0x4E90 }

/-- The state `rts_000` at a fault of the long JSR: IR 0x4EB9. -/
def jsr_long_000 : m68ki_cpu_core :=
  { rts_000 with ir := 0x4EB9 }

/-- The options `sample_cfg` with a table `m68ki_ea_idx_cycle_table` whose
entry 0x21 is 5 and whose other entries are 1. -/
def table_cfg : Config :=
  { sample_cfg with m68ki_ea_idx_cycle_table := fun i => if i = 0x21 then 5 else 1 }

/-- The state `cycles_000` on a 68010 with the memory image of
`zero_vector_000`: the autovector of level 5 (address 0x74) is zero and the
uninitialized-interrupt vector (address 0x3C) holds 0x00001234. -/
def zero_vector_010 : m68ki_cpu_core :=
  { cycles_000 with cpu_type := CPU_TYPE_010, mem := zero_vector_000.mem }

/-- The state `aerr_000` on a 68010. -/
def aerr_010 : m68ki_cpu_core :=
  { aerr_000 with cpu_type := CPU_TYPE_010 }

/-- The state `aerr_000` on a 68020 with 32 address lines; the fault address
recorded in `mmu_tmp_buserror_address` (zero) is not PPC. -/
def aerr_020 : m68ki_cpu_core :=
  { aerr_000 with cpu_type := CPU_TYPE_020, address_mask := 0xffffffff }

/-- The state `aerr_020` with the fault address recorded at PPC. -/
def aerr_020_at_ppc : m68ki_cpu_core :=
  { aerr_020 with mmu_tmp_buserror_address := 0x3FE }

/-! ## Arithmetic and bit lemmas -/

theorem and_two_pow_cases (v k : Nat) : v &&& 2 ^ k = 0 ∨ v &&& 2 ^ k = 2 ^ k := by
  by_cases h : v.testBit k
  · right
    apply Nat.eq_of_testBit_eq
    intro i
    simp only [Nat.testBit_and, Nat.testBit_two_pow]
    by_cases hi : k = i
    · subst hi; simp [h]
    · simp [hi]
  · left
    apply Nat.eq_of_testBit_eq
    intro i
    simp only [Nat.testBit_and, Nat.testBit_two_pow, Nat.zero_testBit]
    by_cases hi : k = i
    · subst hi; simp [h]
    · simp [hi]

theorem shr_and_shl (a j k : Nat) : ((a >>> j) &&& 2 ^ k) <<< j = a &&& 2 ^ (j + k) := by
  apply Nat.eq_of_testBit_eq
  intro i
  simp only [Nat.testBit_shiftLeft, Nat.testBit_and, Nat.testBit_shiftRight,
    Nat.testBit_two_pow]
  by_cases h : j ≤ i
  · have e : j + (i - j) = i := by omega
    by_cases h2 : k = i - j
    · have : j + k = i := by omega
      simp [h, e, h2, this]
    · have : ¬ (j + k = i) := by omega
      simp [h, e, h2, this]
  · have : ¬ (j + k = i) := by omega
    simp [h, this]

theorem sr_piece_s (a : Nat) : shl32 (((a >>> 11) &&& 6) &&& SFLAG_SET) 11 = a &&& 0x2000 := by
  have h1 : ((a >>> 11) &&& 6) &&& SFLAG_SET = (a >>> 11) &&& 2 ^ 2 := by
    rw [Nat.and_assoc]; rfl
  have h2 := shr_and_shl a 11 2
  have h3 : a &&& 2 ^ (11 + 2) < 2 ^ 14 := Nat.and_lt_two_pow a (by norm_num)
  unfold shl32
  rw [h1, h2]
  norm_num at h3 ⊢
  omega

theorem sr_piece_m (a : Nat) : shl32 (((a >>> 11) &&& 6) &&& MFLAG_SET) 11 = a &&& 0x1000 := by
  have h1 : ((a >>> 11) &&& 6) &&& MFLAG_SET = (a >>> 11) &&& 2 ^ 1 := by
    rw [Nat.and_assoc]; rfl
  have h2 := shr_and_shl a 11 1
  have h3 : a &&& 2 ^ (11 + 1) < 2 ^ 13 := Nat.and_lt_two_pow a (by norm_num)
  unfold shl32
  rw [h1, h2]
  norm_num at h3 ⊢
  omega

theorem sr_piece_x (a : Nat) : ((shl32 (BIT_4 a) 4) &&& 0x100) >>> 4 = a &&& 0x10 := by
  unfold BIT_4
  rcases and_two_pow_cases a 4 with h | h <;> norm_num at h <;> rw [h] <;> rfl

theorem sr_piece_n (a : Nat) : ((shl32 (BIT_3 a) 4) &&& 0x80) >>> 4 = a &&& 0x8 := by
  unfold BIT_3
  rcases and_two_pow_cases a 3 with h | h <;> norm_num at h <;> rw [h] <;> rfl

theorem sr_piece_z (a : Nat) : shl32 (lnot (lnot (BIT_2 a))) 2 = a &&& 0x4 := by
  unfold BIT_2
  rcases and_two_pow_cases a 2 with h | h <;> norm_num at h <;> rw [h] <;> rfl

theorem sr_piece_v (a : Nat) : ((shl32 (BIT_1 a) 6) &&& 0x80) >>> 6 = a &&& 0x2 := by
  unfold BIT_1
  rcases and_two_pow_cases a 1 with h | h <;> norm_num at h <;> rw [h] <;> rfl

theorem sr_piece_c (a : Nat) : ((shl32 (BIT_0 a) 8) &&& 0x100) >>> 8 = a &&& 0x1 := by
  unfold BIT_0
  have h0 : a &&& 1 = 0 ∨ a &&& 1 = 1 := and_two_pow_cases a 0
  rcases h0 with h | h <;> rw [h] <;> rfl

/-- Whatever the mask, writing `v` to the status register and reading it back
gives the bits of `v` that the mask lets through and that the status register
has: T1, T0, S, M, I2-I0, X, N, Z, V, C. -/
theorem get_sr_set_sr_noint (s : m68ki_cpu_core) (v : Nat) :
    m68ki_get_sr (m68ki_set_sr_noint s v) = (v &&& s.sr_mask) &&& 0xF71F := by
  simp only [m68ki_get_sr, m68ki_get_ccr, m68ki_set_sr_noint, m68ki_set_sm_flag,
    m68ki_set_ccr, COND_XS, COND_MI, COND_EQ, COND_NE, COND_VS, COND_CS, BIT_F, BIT_E,
    sr_piece_s, sr_piece_m, sr_piece_x, sr_piece_n, sr_piece_z, sr_piece_v, sr_piece_c]
  simp only [← Nat.and_or_distrib_left]
  rfl

/-! ## The primitives as record updates -/

theorem MASK_OUT_ABOVE_32_sub32 (a b : Nat) : MASK_OUT_ABOVE_32 (sub32 a b) = sub32 a b := by
  unfold MASK_OUT_ABOVE_32 sub32
  exact Nat.mod_mod _ _

theorem MASK_OUT_ABOVE_32_add32 (a b : Nat) : MASK_OUT_ABOVE_32 (add32 a b) = add32 a b := by
  unfold MASK_OUT_ABOVE_32 add32
  exact Nat.mod_mod _ _

theorem sub32_sub32 (a b c : Nat) (h : b + c ≤ 0x100000000) :
    sub32 (sub32 a b) c = sub32 a (b + c) := by
  unfold sub32
  omega

theorem add32_sub32 (a b c : Nat) (h : c ≤ b) (hb : b ≤ 0x100000000) :
    add32 (sub32 a b) c = sub32 a (b - c) := by
  unfold sub32 add32
  omega

theorem CPU_TYPE_IS_EC020_PLUS_000 : CPU_TYPE_IS_EC020_PLUS CPU_TYPE_000 = 0 := by decide

theorem m68ki_push_16_eq (cfg : Config) (s : m68ki_cpu_core) (v : Nat)
    (hp : s.pmmu_enabled = 0) :
    m68ki_push_16 cfg s v =
      { s with
        dar := Function.update s.dar 15 (sub32 (s.dar 15) 2)
        mem := mem_write_16 s.mem (sub32 (s.dar 15) 2 &&& s.address_mask) v
        bus := s.bus ++ [BusEvent.write16 (sub32 (s.dar 15) 2 &&& s.address_mask) v] } := by
  simp only [m68ki_push_16, m68ki_write_16, m68ki_write_16_fc, m68k_write_memory_16,
    pmmu_address, hp, ne_eq, not_true_eq_false, and_false, if_false, REG_SP, ADDRESS_68K,
    MASK_OUT_ABOVE_32_sub32, Function.update_same]

theorem m68ki_push_32_eq (cfg : Config) (s : m68ki_cpu_core) (v : Nat)
    (hp : s.pmmu_enabled = 0) :
    m68ki_push_32 cfg s v =
      { s with
        dar := Function.update s.dar 15 (sub32 (s.dar 15) 4)
        mem := mem_write_32 s.mem (sub32 (s.dar 15) 4 &&& s.address_mask) v
        bus := s.bus ++ [BusEvent.write32 (sub32 (s.dar 15) 4 &&& s.address_mask) v] } := by
  simp only [m68ki_push_32, m68ki_write_32, m68ki_write_32_fc, m68k_write_memory_32,
    pmmu_address, hp, ne_eq, not_true_eq_false, and_false, if_false, REG_SP, ADDRESS_68K,
    MASK_OUT_ABOVE_32_sub32, Function.update_same]

theorem m68ki_fake_push_16_eq (s : m68ki_cpu_core) :
    m68ki_fake_push_16 s = { s with dar := Function.update s.dar 15 (sub32 (s.dar 15) 2) } := by
  simp only [m68ki_fake_push_16, REG_SP, MASK_OUT_ABOVE_32_sub32]

theorem m68ki_fake_push_32_eq (s : m68ki_cpu_core) :
    m68ki_fake_push_32 s = { s with dar := Function.update s.dar 15 (sub32 (s.dar 15) 4) } := by
  simp only [m68ki_fake_push_32, REG_SP, MASK_OUT_ABOVE_32_sub32]

theorem m68ki_fake_pull_32_eq (s : m68ki_cpu_core) :
    m68ki_fake_pull_32 s = { s with dar := Function.update s.dar 15 (add32 (s.dar 15) 4) } := by
  simp only [m68ki_fake_pull_32, REG_SP, MASK_OUT_ABOVE_32_add32]

theorem m68ki_read_data_32_eq (cfg : Config) (s : m68ki_cpu_core) (a : Nat)
    (hp : s.pmmu_enabled = 0) :
    m68ki_read_data_32 cfg s a =
      (mem_read_32 s.mem (a &&& s.address_mask),
        { s with bus := s.bus ++ [BusEvent.read32 (a &&& s.address_mask)] }) := by
  simp only [m68ki_read_data_32, m68ki_read_32_fc, m68k_read_memory_32, pmmu_address, hp,
    ne_eq, not_true_eq_false, and_false, if_false, ADDRESS_68K]

theorem m68ki_set_s_flag_eq (s : m68ki_cpu_core) (value : Nat) :
    m68ki_set_s_flag s value =
      { s with
        sp := Function.update s.sp (sp_index s.s_flag s.m_flag) (s.dar 15)
        s_flag := value
        dar := Function.update s.dar 15
          (Function.update s.sp (sp_index s.s_flag s.m_flag) (s.dar 15)
            (sp_index value s.m_flag)) } := by
  simp only [m68ki_set_s_flag, REG_SP]

theorem m68ki_set_sm_flag_eq (s : m68ki_cpu_core) (value : Nat) :
    m68ki_set_sm_flag s value =
      { s with
        sp := Function.update s.sp (sp_index s.s_flag s.m_flag) (s.dar 15)
        s_flag := value &&& SFLAG_SET
        m_flag := value &&& MFLAG_SET
        dar := Function.update s.dar 15
          (Function.update s.sp (sp_index s.s_flag s.m_flag) (s.dar 15)
            (sp_index (value &&& SFLAG_SET) (value &&& MFLAG_SET))) } := by
  simp only [m68ki_set_sm_flag, REG_SP]

theorem m68ki_init_exception_eq (cfg : Config) (s : m68ki_cpu_core) :
    m68ki_init_exception cfg s =
      (m68ki_get_sr s,
        { s with
          t0_flag := 0
          t1_flag := 0
          m68ki_tracing := if cfg.M68K_EMULATE_TRACE then 0 else s.m68ki_tracing
          sp := Function.update s.sp (sp_index s.s_flag s.m_flag) (s.dar 15)
          s_flag := SFLAG_SET
          dar := Function.update s.dar 15
            (Function.update s.sp (sp_index s.s_flag s.m_flag) (s.dar 15)
              (sp_index SFLAG_SET s.m_flag)) }) := by
  unfold m68ki_init_exception m68ki_clear_trace
  by_cases h : cfg.M68K_EMULATE_TRACE
  · simp only [h, ↓reduceIte, m68ki_set_s_flag_eq]
  · simp only [h, Bool.false_eq_true, ↓reduceIte, m68ki_set_s_flag_eq]

theorem m68ki_jump_vector_eq (s : m68ki_cpu_core) (vector : Nat) :
    m68ki_jump_vector s vector =
      { s with
        pc := mem_read_32 s.mem (add32 (shl32 vector 2) s.vbr)
        bus := s.bus ++ [BusEvent.ps_read32 (add32 (shl32 vector 2) s.vbr)] } := by
  simp only [m68ki_jump_vector, ps_read_32]

theorem m68ki_stack_frame_3word_eq (cfg : Config) (s : m68ki_cpu_core) (pc sr : Nat)
    (hp : s.pmmu_enabled = 0) :
    m68ki_stack_frame_3word cfg s pc sr =
      { s with
        dar := Function.update s.dar 15 (sub32 (s.dar 15) 6)
        mem := mem_write_16 (mem_write_32 s.mem (sub32 (s.dar 15) 4 &&& s.address_mask) pc)
                (sub32 (s.dar 15) 6 &&& s.address_mask) sr
        bus := s.bus ++ [BusEvent.write32 (sub32 (s.dar 15) 4 &&& s.address_mask) pc,
                BusEvent.write16 (sub32 (s.dar 15) 6 &&& s.address_mask) sr] } := by
  simp only [m68ki_stack_frame_3word, m68ki_push_32_eq, m68ki_push_16_eq, hp,
    Function.update_same, Function.update_idem, sub32_sub32, List.append_assoc,
    List.singleton_append, Nat.reduceAdd, Nat.reduceLeDiff]

theorem m68ki_stack_frame_0000_eq_000 (cfg : Config) (s : m68ki_cpu_core)
    (pc sr vector : Nat) (hp : s.pmmu_enabled = 0) (hc : s.cpu_type = CPU_TYPE_000) :
    m68ki_stack_frame_0000 cfg s pc sr vector =
      { s with
        dar := Function.update s.dar 15 (sub32 (s.dar 15) 6)
        mem := mem_write_16 (mem_write_32 s.mem (sub32 (s.dar 15) 4 &&& s.address_mask) pc)
                (sub32 (s.dar 15) 6 &&& s.address_mask) sr
        bus := s.bus ++ [BusEvent.write32 (sub32 (s.dar 15) 4 &&& s.address_mask) pc,
                BusEvent.write16 (sub32 (s.dar 15) 6 &&& s.address_mask) sr] } := by
  unfold m68ki_stack_frame_0000
  rw [if_pos hc, m68ki_stack_frame_3word_eq cfg s pc sr hp]

theorem m68ki_stack_frame_0000_eq_010 (cfg : Config) (s : m68ki_cpu_core)
    (pc sr vector : Nat) (hp : s.pmmu_enabled = 0) (hc : s.cpu_type ≠ CPU_TYPE_000) :
    m68ki_stack_frame_0000 cfg s pc sr vector =
      { s with
        dar := Function.update s.dar 15 (sub32 (s.dar 15) 8)
        mem := mem_write_16 (mem_write_32 (mem_write_16 s.mem
                  (sub32 (s.dar 15) 2 &&& s.address_mask) (shl32 vector 2))
                  (sub32 (s.dar 15) 6 &&& s.address_mask) pc)
                (sub32 (s.dar 15) 8 &&& s.address_mask) sr
        bus := s.bus ++
          [BusEvent.write16 (sub32 (s.dar 15) 2 &&& s.address_mask) (shl32 vector 2),
           BusEvent.write32 (sub32 (s.dar 15) 6 &&& s.address_mask) pc,
           BusEvent.write16 (sub32 (s.dar 15) 8 &&& s.address_mask) sr] } := by
  unfold m68ki_stack_frame_0000
  rw [if_neg hc]
  simp only [m68ki_push_32_eq, m68ki_push_16_eq, hp,
    Function.update_same, Function.update_idem, sub32_sub32, List.append_assoc,
    List.singleton_append, List.cons_append, List.nil_append, Nat.reduceAdd, Nat.reduceLeDiff]

theorem m68ki_stack_frame_0001_eq (cfg : Config) (s : m68ki_cpu_core) (pc sr vector : Nat)
    (hp : s.pmmu_enabled = 0) :
    m68ki_stack_frame_0001 cfg s pc sr vector =
      { s with
        dar := Function.update s.dar 15 (sub32 (s.dar 15) 8)
        mem := mem_write_16 (mem_write_32 (mem_write_16 s.mem
                  (sub32 (s.dar 15) 2 &&& s.address_mask) (0x1000 ||| shl32 vector 2))
                  (sub32 (s.dar 15) 6 &&& s.address_mask) pc)
                (sub32 (s.dar 15) 8 &&& s.address_mask) sr
        bus := s.bus ++
          [BusEvent.write16 (sub32 (s.dar 15) 2 &&& s.address_mask) (0x1000 ||| shl32 vector 2),
           BusEvent.write32 (sub32 (s.dar 15) 6 &&& s.address_mask) pc,
           BusEvent.write16 (sub32 (s.dar 15) 8 &&& s.address_mask) sr] } := by
  unfold m68ki_stack_frame_0001
  simp only [m68ki_push_32_eq, m68ki_push_16_eq, hp,
    Function.update_same, Function.update_idem, sub32_sub32, List.append_assoc,
    List.singleton_append, List.cons_append, List.nil_append, Nat.reduceAdd, Nat.reduceLeDiff]

/-! ## Interrupt processing -/

theorem supervisor_sp_eq (s : m68ki_cpu_core) :
    supervisor_sp s =
      Function.update s.sp (sp_index s.s_flag s.m_flag) (s.dar 15) (sp_index SFLAG_SET s.m_flag) := by
  simp only [supervisor_sp, m68ki_set_s_flag_eq, Function.update_same]

/-- The flags, the interrupt mask, the stop state and the cycle counter after
the common part of interrupt processing. -/
theorem interrupt_process_flags (cfg : Config) (t : m68ki_cpu_core) (L X : Nat)
    (hp : t.pmmu_enabled = 0) :
    (interrupt_process cfg t L X).int_mask = shl32 L 8 ∧
    (interrupt_process cfg t L X).s_flag = SFLAG_SET ∧
    (interrupt_process cfg t L X).t1_flag = 0 ∧
    (interrupt_process cfg t L X).t0_flag = 0 ∧
    (interrupt_process cfg t L X).stopped = t.stopped ∧
    (interrupt_process cfg t L X).m68ki_remaining_cycles =
      t.m68ki_remaining_cycles - t.cyc_exception X ∧
    (interrupt_process cfg t L X).pc =
      (if mem_read_32 t.mem (add32 (shl32 X 2) t.vbr &&& t.address_mask) = 0 then
        mem_read_32 t.mem
          (add32 (shl32 EXCEPTION_UNINITIALIZED_INTERRUPT 2) t.vbr &&& t.address_mask)
      else mem_read_32 t.mem (add32 (shl32 X 2) t.vbr &&& t.address_mask)) := by
  unfold interrupt_process
  simp only [m68ki_init_exception_eq, m68ki_read_data_32_eq, hp]
  by_cases hz : mem_read_32 t.mem (add32 (shl32 X 2) t.vbr &&& t.address_mask) = 0 <;>
  by_cases hc : t.cpu_type = CPU_TYPE_000 <;>
  by_cases hm : t.m_flag ≠ 0 ∧ CPU_TYPE_IS_EC020_PLUS t.cpu_type ≠ 0 <;>
  by_cases ha : cfg.M68K_EMULATE_INT_ACK <;>
  simp only [hz, hc, hm, ha, ↓reduceIte, Bool.false_eq_true, m68ki_stack_frame_0000_eq_000,
    m68ki_stack_frame_0000_eq_010, m68ki_stack_frame_0001_eq, m68ki_set_sm_flag_eq,
    m68ki_jump, USE_CYCLES, not_false_eq_true, and_self, SFLAG_SET, Nat.and_self, ne_eq,
    CPU_TYPE_IS_EC020_PLUS_000, not_true_eq_false, and_false]

/-- The bus traffic of interrupt processing: the vector fetch comes first, and
the format-0 frame is written with the PC at frame + 2 and then the saved
status register at the frame base, 6 bytes (68000) or 8 bytes below the
supervisor stack pointer. -/
theorem interrupt_process_bus (cfg : Config) (t : m68ki_cpu_core) (L X : Nat)
    (hp : t.pmmu_enabled = 0) :
    ∃ mid post, (interrupt_process cfg t L X).bus =
      t.bus ++ BusEvent.read32 (add32 (shl32 X 2) t.vbr &&& t.address_mask) :: mid ++
        [BusEvent.write32
            (add32 (sub32 (supervisor_sp t) (if t.cpu_type = CPU_TYPE_000 then 6 else 8)) 2
              &&& t.address_mask) t.pc,
          BusEvent.write16
            (sub32 (supervisor_sp t) (if t.cpu_type = CPU_TYPE_000 then 6 else 8)
              &&& t.address_mask) (m68ki_get_sr t)] ++ post := by
  unfold interrupt_process
  simp only [m68ki_init_exception_eq, m68ki_read_data_32_eq, hp, supervisor_sp_eq]
  by_cases hz : mem_read_32 t.mem (add32 (shl32 X 2) t.vbr &&& t.address_mask) = 0 <;>
  by_cases hc : t.cpu_type = CPU_TYPE_000 <;>
  by_cases hm : t.m_flag ≠ 0 ∧ CPU_TYPE_IS_EC020_PLUS t.cpu_type ≠ 0 <;>
  by_cases ha : cfg.M68K_EMULATE_INT_ACK <;>
  simp only [hz, hc, hm, ha, ↓reduceIte, Bool.false_eq_true, m68ki_stack_frame_0000_eq_000,
    m68ki_stack_frame_0000_eq_010, m68ki_stack_frame_0001_eq, m68ki_set_sm_flag_eq,
    m68ki_jump, USE_CYCLES, not_false_eq_true, and_self, SFLAG_SET, Nat.and_self, ne_eq,
    CPU_TYPE_IS_EC020_PLUS_000, not_true_eq_false, and_false, Function.update_same,
    add32_sub32, Nat.reduceLeDiff, Nat.reduceSub, List.append_assoc, List.cons_append,
    List.nil_append, List.singleton_append]
  all_goals
    first
    | exact ⟨[], [], rfl⟩
    | exact ⟨[_], [], rfl⟩
    | exact ⟨[_, _], [], rfl⟩
    | exact ⟨[_], [_, _, _], rfl⟩
    | exact ⟨[_, _], [_, _, _], rfl⟩

theorem interrupt_entry_eq (cfg : Config) (s : m68ki_cpu_core) :
    interrupt_entry cfg s =
      { s with
        instr_mode :=
          if cfg.M68K_EMULATE_ADDRESS_ERROR ∧ CPU_TYPE_IS_000 s.cpu_type then INSTRUCTION_NO
          else s.instr_mode
        stopped := s.stopped &&& not32 STOP_LEVEL_STOP } := by
  unfold interrupt_entry
  by_cases h : cfg.M68K_EMULATE_ADDRESS_ERROR ∧ CPU_TYPE_IS_000 s.cpu_type
  · simp only [h, and_self, ↓reduceIte]
  · simp only [h, ↓reduceIte]

theorem m68ki_int_ack_eq (cfg : Config) (t : m68ki_cpu_core) (L : Nat) :
    m68ki_int_ack cfg t L =
      ((m68ki_int_ack cfg t L).1,
        { t with bus := t.bus ++ if cfg.M68K_EMULATE_INT_ACK then [BusEvent.int_ack L] else [] }) := by
  unfold m68ki_int_ack
  by_cases h : cfg.M68K_EMULATE_INT_ACK
  · simp only [h, ↓reduceIte]
  · simp only [h, Bool.false_eq_true, ↓reduceIte, List.append_nil]

theorem m68ki_int_ack_value (cfg : Config) (t s : m68ki_cpu_core) (L : Nat) :
    (m68ki_int_ack cfg t L).1 = (m68ki_int_ack cfg s L).1 := by
  unfold m68ki_int_ack
  by_cases h : cfg.M68K_EMULATE_INT_ACK
  · simp only [h, ↓reduceIte]
  · simp only [h, Bool.false_eq_true, ↓reduceIte]

theorem not_halted_stop_cleared (x : Nat) (h : x = 0 ∨ x = STOP_LEVEL_STOP) :
    x &&& not32 STOP_LEVEL_STOP = 0 := by
  rcases h with h | h <;> rw [h] <;> decide

/-- The interrupt that m68ki_exception_interrupt is about to service: level 7
for a latched NMI, else `int_level >> 8` when `int_level` exceeds the mask. -/
theorem interrupt_level_cases (cfg : Config) (s : m68ki_cpu_core) (L : Nat)
    (hL : (s.nmi_pending ≠ 0 ∧ L = 7) ∨
      (s.nmi_pending = 0 ∧ s.int_level > s.int_mask ∧ L = s.int_level >>> 8)) :
    interrupt_level (interrupt_entry cfg s) =
      some (L, { interrupt_entry cfg s with nmi_pending := 0 }) := by
  rw [interrupt_entry_eq]
  unfold interrupt_level
  rcases hL with ⟨h1, h2⟩ | ⟨h1, h2, h3⟩
  · simp only [h1, h2, ne_eq, not_false_eq_true, ↓reduceIte]
  · simp only [h1, h2, h3, ne_eq, not_true_eq_false, ↓reduceIte, gt_iff_lt]

/-- The control flow of m68ki_exception_interrupt when the CPU is not halted
and an interrupt of level `L` is up: acknowledge, then either return (invalid
vector) or process the exception with the vector found. -/
theorem exception_interrupt_eq (cfg : Config) (s : m68ki_cpu_core) (lvl L : Nat)
    (hrun : s.stopped = 0 ∨ s.stopped = STOP_LEVEL_STOP)
    (hL : (s.nmi_pending ≠ 0 ∧ L = 7) ∨
      (s.nmi_pending = 0 ∧ s.int_level > s.int_mask ∧ L = s.int_level >>> 8)) :
    m68ki_exception_interrupt cfg s lvl =
      match interrupt_vector cfg (m68ki_int_ack cfg s L).1 L with
      | none => interrupt_acknowledged cfg s L
      | some X => interrupt_process cfg (interrupt_acknowledged cfg s L) L X := by
  have h0 : (interrupt_entry cfg s).stopped = 0 := by
    rw [interrupt_entry_eq]
    exact not_halted_stop_cleared s.stopped hrun
  unfold m68ki_exception_interrupt interrupt_acknowledged
  simp only [h0, ne_eq, not_true_eq_false, ↓reduceIte, interrupt_level_cases cfg s L hL]
  rw [m68ki_int_ack_eq, m68ki_int_ack_value cfg _ s L]
  simp only [interrupt_entry_eq, not_halted_stop_cleared s.stopped hrun]

theorem m68ki_get_sr_interrupt_acknowledged (cfg : Config) (s : m68ki_cpu_core) (L : Nat) :
    m68ki_get_sr (interrupt_acknowledged cfg s L) = m68ki_get_sr s := rfl

theorem supervisor_sp_interrupt_acknowledged (cfg : Config) (s : m68ki_cpu_core) (L : Nat) :
    supervisor_sp (interrupt_acknowledged cfg s L) = supervisor_sp s := rfl

/-- With a latched NMI cleared first, m68ki_check_interrupts runs
m68ki_exception_interrupt exactly when `int_level` exceeds the mask, and then
the level serviced is `int_level >> 8`. -/
theorem check_interrupts_eq (cfg : Config) (s : m68ki_cpu_core)
    (hrun : s.stopped = 0 ∨ s.stopped = STOP_LEVEL_STOP) (hgt : s.int_level > s.int_mask) :
    m68ki_check_interrupts cfg s =
      match interrupt_vector cfg (m68ki_int_ack cfg s (s.int_level >>> 8)).1
          (s.int_level >>> 8) with
      | none => interrupt_acknowledged cfg s (s.int_level >>> 8)
      | some X =>
        interrupt_process cfg (interrupt_acknowledged cfg s (s.int_level >>> 8))
          (s.int_level >>> 8) X := by
  unfold m68ki_check_interrupts
  by_cases hn : s.nmi_pending = 0
  · simp only [hn, ne_eq, not_true_eq_false, ↓reduceIte, hgt]
    exact exception_interrupt_eq cfg s _ _ hrun (Or.inr ⟨hn, hgt, rfl⟩)
  · simp only [hn, ne_eq, not_false_eq_true, ↓reduceIte]
    have h := exception_interrupt_eq cfg { s with nmi_pending := 0 } 7 (s.int_level >>> 8)
      hrun (Or.inr ⟨rfl, hgt, rfl⟩)
    rw [m68ki_int_ack_value cfg _ s] at h
    exact h

/-! ## Host memory: reading back what was written -/

theorem mem_byte_write_8 (m : Nat → Nat) (a v b : Nat) :
    mem_byte (mem_write_8 m a v) b = if b = a then v % 0x100 else mem_byte m b := by
  unfold mem_byte mem_write_8
  by_cases h : b = a
  · subst h
    simp only [Function.update_same, ↓reduceIte]
    omega
  · simp only [Function.update_noteq h, h, ↓reduceIte]

theorem mem_read_16_write_16_same (m : Nat → Nat) (a v : Nat) :
    mem_read_16 (mem_write_16 m a v) a = v % 0x10000 := by
  unfold mem_read_16 mem_write_16
  simp only [mem_byte_write_8, Nat.shiftRight_eq_div_pow]
  have h1 : ¬ (a = a + 1) := by omega
  simp only [h1, ↓reduceIte]
  omega

theorem mem_read_32_write_32_same (m : Nat → Nat) (a v : Nat) :
    mem_read_32 (mem_write_32 m a v) a = v % 0x100000000 := by
  unfold mem_read_32 mem_write_32 mem_read_16 mem_write_16
  simp only [mem_byte_write_8, Nat.shiftRight_eq_div_pow]
  have h1 : ¬ (a = a + 2 + 1) := by omega
  have h2 : ¬ (a = a + 2) := by omega
  have h3 : ¬ (a = a + 1) := by omega
  have h4 : ¬ (a + 1 = a + 2 + 1) := by omega
  have h5 : ¬ (a + 1 = a + 2) := by omega
  have h6 : ¬ (a + 2 = a + 2 + 1) := by omega
  simp only [h1, h2, h3, h4, h5, h6, ↓reduceIte]
  omega

theorem mem_read_32_write_16_disjoint (m : Nat → Nat) (a b v : Nat)
    (h : b + 1 < a ∨ a + 3 < b) :
    mem_read_32 (mem_write_16 m b v) a = mem_read_32 m a := by
  unfold mem_read_32 mem_read_16 mem_write_16
  simp only [mem_byte_write_8]
  have h1 : ¬ (a = b + 1) := by omega
  have h2 : ¬ (a = b) := by omega
  have h3 : ¬ (a + 1 = b + 1) := by omega
  have h4 : ¬ (a + 1 = b) := by omega
  have h5 : ¬ (a + 2 = b + 1) := by omega
  have h6 : ¬ (a + 2 = b) := by omega
  have h7 : ¬ (a + 2 + 1 = b + 1) := by omega
  have h8 : ¬ (a + 2 + 1 = b) := by omega
  simp only [h1, h2, h3, h4, h5, h6, h7, h8, ↓reduceIte]

theorem mem_byte_write_16_other (m : Nat → Nat) (a v b : Nat) (h : b < a ∨ a + 1 < b) :
    mem_byte (mem_write_16 m a v) b = mem_byte m b := by
  unfold mem_write_16
  have h1 : ¬ (b = a + 1) := by omega
  have h2 : ¬ (b = a) := by omega
  simp only [mem_byte_write_8, h1, h2, ↓reduceIte]

theorem mem_byte_write_32_other (m : Nat → Nat) (a v b : Nat) (h : b < a ∨ a + 3 < b) :
    mem_byte (mem_write_32 m a v) b = mem_byte m b := by
  unfold mem_write_32
  rw [mem_byte_write_16_other _ _ _ _ (by omega), mem_byte_write_16_other _ _ _ _ (by omega)]

theorem mem_read_16_write_16_disjoint (m : Nat → Nat) (a b v : Nat)
    (h : b + 1 < a ∨ a + 1 < b) :
    mem_read_16 (mem_write_16 m b v) a = mem_read_16 m a := by
  unfold mem_read_16
  rw [mem_byte_write_16_other _ _ _ _ (by omega), mem_byte_write_16_other _ _ _ _ (by omega)]

theorem mem_read_16_write_32_disjoint (m : Nat → Nat) (a b v : Nat)
    (h : b + 3 < a ∨ a + 1 < b) :
    mem_read_16 (mem_write_32 m b v) a = mem_read_16 m a := by
  unfold mem_read_16
  rw [mem_byte_write_32_other _ _ _ _ (by omega), mem_byte_write_32_other _ _ _ _ (by omega)]

theorem mem_read_32_write_32_disjoint (m : Nat → Nat) (a b v : Nat)
    (h : b + 3 < a ∨ a + 3 < b) :
    mem_read_32 (mem_write_32 m b v) a = mem_read_32 m a := by
  unfold mem_read_32
  rw [mem_read_16_write_32_disjoint _ _ _ _ (by omega),
    mem_read_16_write_32_disjoint _ _ _ _ (by omega)]

/-- Two slots of a frame below the stack pointer `B` on 24 address lines: the
deeper one (`j` bytes below) and the shallower one (`k` bytes below) do not
overlap when the deeper one is no longer than their distance, also when the
stack wraps around the end of the address space. -/
theorem frame_slots_disjoint (B j k n m : Nat) (hk : k < j) (hj : j ≤ 0x10000)
    (hn : n ≤ j - k) (hm : m ≤ 0x10000) :
    (sub32 B j &&& 0x00ffffff) + n ≤ (sub32 B k &&& 0x00ffffff) ∨
    (sub32 B k &&& 0x00ffffff) + m ≤ (sub32 B j &&& 0x00ffffff) := by
  rw [Nat.and_pow_two_sub_one_eq_mod _ 24, Nat.and_pow_two_sub_one_eq_mod _ 24]
  unfold sub32
  omega

theorem and_ffffff (x : Nat) : x &&& 0x00ffffff = x % 0x1000000 :=
  Nat.and_pow_two_sub_one_eq_mod x 24

/-- The state after interrupt processing on a 68000: a three-word frame. -/
theorem interrupt_process_000 (cfg : Config) (t : m68ki_cpu_core) (L X : Nat)
    (hp : t.pmmu_enabled = 0) (hc : t.cpu_type = CPU_TYPE_000) :
    (interrupt_process cfg t L X).dar 15 = sub32 (supervisor_sp t) 6 ∧
    (interrupt_process cfg t L X).mem =
      mem_write_16
        (mem_write_32 t.mem (sub32 (supervisor_sp t) 4 &&& t.address_mask) t.pc)
        (sub32 (supervisor_sp t) 6 &&& t.address_mask) (m68ki_get_sr t) := by
  unfold interrupt_process
  simp only [m68ki_init_exception_eq, m68ki_read_data_32_eq, hp, supervisor_sp_eq]
  by_cases hz : mem_read_32 t.mem (add32 (shl32 X 2) t.vbr &&& t.address_mask) = 0 <;>
  by_cases ha : cfg.M68K_EMULATE_INT_ACK <;>
  simp only [hz, hc, ha, ↓reduceIte, Bool.false_eq_true, m68ki_stack_frame_0000_eq_000,
    m68ki_jump, USE_CYCLES, and_self, ne_eq,
    CPU_TYPE_IS_EC020_PLUS_000, not_true_eq_false, and_false, Function.update_same]

/-! ## The 68000 bus/address error frame -/

theorem mem_buserr_jmp_reg_opcodes (x : Nat) :
    x ∈ buserr_jmp_reg_opcodes ↔ 0x4ED0 ≤ x ∧ x ≤ 0x4EDF := by
  unfold buserr_jmp_reg_opcodes
  simp only [List.mem_cons, List.mem_singleton, List.not_mem_nil, or_false]
  constructor
  · intro h; omega
  · intro h; omega

theorem buserr_stacked_pc_snd (t : m68ki_cpu_core) (sr : Nat) :
    (buserr_stacked_pc t sr).2 =
      if t.ir = 0x4Eb9 ∨ t.ir = 0x4E90 ∨ t.ir = 0x4Ea8 then
        if sr &&& 0x2000 ≠ 0 then
          { t with dar := Function.update t.dar 15 (add32 (t.dar 15) 4) }
        else { t with sp := Function.update t.sp 0 (add32 (t.sp 0) 4) }
      else t := by
  unfold buserr_stacked_pc
  simp only [mem_buserr_jmp_reg_opcodes]
  split_ifs <;> first
    | rfl
    | exact m68ki_fake_pull_32_eq t
    | (exfalso; omega)

/-- The five pushes of m68ki_stack_frame_buserr, fourteen bytes in all. -/
theorem m68ki_stack_frame_buserr_eq (cfg : Config) (t : m68ki_cpu_core) (sr : Nat)
    (hp : (buserr_stacked_pc t sr).2.pmmu_enabled = 0) :
    m68ki_stack_frame_buserr cfg t sr =
      { (buserr_stacked_pc t sr).2 with
        dar := Function.update (buserr_stacked_pc t sr).2.dar 15
          (sub32 ((buserr_stacked_pc t sr).2.dar 15) 14)
        mem :=
          mem_write_16 (mem_write_32 (mem_write_16 (mem_write_16 (mem_write_32
            (buserr_stacked_pc t sr).2.mem
            (sub32 ((buserr_stacked_pc t sr).2.dar 15) 4 &&&
              (buserr_stacked_pc t sr).2.address_mask) (buserr_stacked_pc t sr).1)
            (sub32 ((buserr_stacked_pc t sr).2.dar 15) 6 &&&
              (buserr_stacked_pc t sr).2.address_mask) sr)
            (sub32 ((buserr_stacked_pc t sr).2.dar 15) 8 &&&
              (buserr_stacked_pc t sr).2.address_mask) (buserr_stacked_pc t sr).2.ir)
            (sub32 ((buserr_stacked_pc t sr).2.dar 15) 12 &&&
              (buserr_stacked_pc t sr).2.address_mask)
              (buserr_stacked_pc t sr).2.m68ki_aerr_address)
            (sub32 ((buserr_stacked_pc t sr).2.dar 15) 14 &&&
              (buserr_stacked_pc t sr).2.address_mask)
              ((buserr_stacked_pc t sr).2.m68ki_aerr_write_mode |||
                (buserr_stacked_pc t sr).2.instr_mode |||
                (buserr_stacked_pc t sr).2.m68ki_aerr_fc)
        bus := (buserr_stacked_pc t sr).2.bus ++
          [BusEvent.write32 (sub32 ((buserr_stacked_pc t sr).2.dar 15) 4 &&&
              (buserr_stacked_pc t sr).2.address_mask) (buserr_stacked_pc t sr).1,
            BusEvent.write16 (sub32 ((buserr_stacked_pc t sr).2.dar 15) 6 &&&
              (buserr_stacked_pc t sr).2.address_mask) sr,
            BusEvent.write16 (sub32 ((buserr_stacked_pc t sr).2.dar 15) 8 &&&
              (buserr_stacked_pc t sr).2.address_mask) (buserr_stacked_pc t sr).2.ir,
            BusEvent.write32 (sub32 ((buserr_stacked_pc t sr).2.dar 15) 12 &&&
              (buserr_stacked_pc t sr).2.address_mask)
              (buserr_stacked_pc t sr).2.m68ki_aerr_address,
            BusEvent.write16 (sub32 ((buserr_stacked_pc t sr).2.dar 15) 14 &&&
              (buserr_stacked_pc t sr).2.address_mask)
              ((buserr_stacked_pc t sr).2.m68ki_aerr_write_mode |||
                (buserr_stacked_pc t sr).2.instr_mode |||
                (buserr_stacked_pc t sr).2.m68ki_aerr_fc)] } := by
  unfold m68ki_stack_frame_buserr
  dsimp only
  generalize (buserr_stacked_pc t sr).1 = spc at *
  generalize (buserr_stacked_pc t sr).2 = u at *
  simp only [m68ki_push_32_eq, m68ki_push_16_eq, hp,
    Function.update_same, Function.update_idem, sub32_sub32, List.append_assoc,
    List.singleton_append, List.cons_append, List.nil_append, Nat.reduceAdd, Nat.reduceLeDiff]

theorem buserr_stacked_pc_fst (t : m68ki_cpu_core) (sr : Nat) :
    (buserr_stacked_pc t sr).1 =
      if t.ir = 0x4E75 ∨ t.ir = 0x4EF9 ∨ (0x4ED0 ≤ t.ir ∧ t.ir ≤ 0x4EDF) ∨ t.ir = 0x4E73 ∨
          t.ir = 0x4Eb9 ∨ t.ir = 0x4E90 ∨ t.ir = 0x4Ea8 ∨ t.ir = 0x4A2F then
        (add32 t.ppc 2) &&& t.address_mask
      else t.pc &&& t.address_mask := by
  unfold buserr_stacked_pc
  simp only [mem_buserr_jmp_reg_opcodes]
  split_ifs <;> first
    | rfl
    | (exfalso; omega)

/-- The state after the address-error exception on a 68000 that is not
already writing a frame. -/
theorem address_error_000 (cfg : Config) (s : m68ki_cpu_core)
    (hc : s.cpu_type = CPU_TYPE_000) (hrun : s.run_mode ≠ RUN_MODE_BERR_AERR_RESET_WSF)
    (hp : s.pmmu_enabled = 0) (B : Nat)
    (hB : B = if (s.ir = 0x4Eb9 ∨ s.ir = 0x4E90 ∨ s.ir = 0x4Ea8) ∧
                m68ki_get_sr s &&& 0x2000 ≠ 0
              then add32 (supervisor_sp s) 4 else supervisor_sp s) :
    (m68ki_exception_address_error cfg s).dar 15 = sub32 B 14 ∧
    (m68ki_exception_address_error cfg s).mem =
      mem_write_16 (mem_write_32 (mem_write_16 (mem_write_16 (mem_write_32 s.mem
        (sub32 B 4 &&& s.address_mask) (buserr_stacked_pc s (m68ki_get_sr s)).1)
        (sub32 B 6 &&& s.address_mask) (m68ki_get_sr s))
        (sub32 B 8 &&& s.address_mask) s.ir)
        (sub32 B 12 &&& s.address_mask) s.m68ki_aerr_address)
        (sub32 B 14 &&& s.address_mask)
        (s.m68ki_aerr_write_mode ||| s.instr_mode ||| s.m68ki_aerr_fc) ∧
    (m68ki_exception_address_error cfg s).bus = s.bus ++
      [BusEvent.write32 (sub32 B 4 &&& s.address_mask) (buserr_stacked_pc s (m68ki_get_sr s)).1,
       BusEvent.write16 (sub32 B 6 &&& s.address_mask) (m68ki_get_sr s),
       BusEvent.write16 (sub32 B 8 &&& s.address_mask) s.ir,
       BusEvent.write32 (sub32 B 12 &&& s.address_mask) s.m68ki_aerr_address,
       BusEvent.write16 (sub32 B 14 &&& s.address_mask)
         (s.m68ki_aerr_write_mode ||| s.instr_mode ||| s.m68ki_aerr_fc),
       BusEvent.ps_read32 (add32 (shl32 EXCEPTION_ADDRESS_ERROR 2) s.vbr)] ∧
    (m68ki_exception_address_error cfg s).pc =
      mem_read_32 (m68ki_exception_address_error cfg s).mem
        (add32 (shl32 EXCEPTION_ADDRESS_ERROR 2) s.vbr) ∧
    (m68ki_exception_address_error cfg s).run_mode = RUN_MODE_BERR_AERR_RESET ∧
    (m68ki_exception_address_error cfg s).stopped = s.stopped ∧
    (m68ki_exception_address_error cfg s).s_flag = SFLAG_SET ∧
    (m68ki_exception_address_error cfg s).m68ki_remaining_cycles =
      s.m68ki_remaining_cycles - (s.cyc_exception EXCEPTION_ADDRESS_ERROR : Int) := by
  have hc0 : CPU_TYPE_IS_000 s.cpu_type = true := by rw [hc]; rfl
  unfold m68ki_exception_address_error
  simp only [m68ki_init_exception_eq, hrun, ↓reduceIte, hc0]
  rw [m68ki_stack_frame_buserr_eq _ _ _ (by rw [buserr_stacked_pc_snd]; split_ifs <;> exact hp)]
  rw [buserr_stacked_pc_snd]
  by_cases hj : s.ir = 0x4Eb9 ∨ s.ir = 0x4E90 ∨ s.ir = 0x4Ea8 <;>
  by_cases hs : m68ki_get_sr s &&& 0x2000 ≠ 0 <;>
  simp only [hj, hs, and_self, and_false, false_and, not_false_eq_true, not_true_eq_false,
    ↓reduceIte, ne_eq, supervisor_sp_eq] at hB <;>
  subst hB <;>
  simp only [hj, hs, ↓reduceIte, ne_eq, not_false_eq_true, not_true_eq_false,
    m68ki_jump_vector_eq, USE_CYCLES, Function.update_same, and_self, buserr_stacked_pc_fst,
    List.append_assoc, List.singleton_append, List.cons_append, List.nil_append, true_and]

/-! ## The bus/address error frames of the later CPUs -/

/-- Format 8: 58 bytes, of which eight host writes. -/
theorem m68ki_stack_frame_1000_eq (cfg : Config) (s : m68ki_cpu_core) (pc sr vector : Nat)
    (hp : s.pmmu_enabled = 0) :
    ∃ M w, m68ki_stack_frame_1000 cfg s pc sr vector =
        { s with
          dar := Function.update s.dar 15 (sub32 (s.dar 15) 58)
          mem := M
          bus := s.bus ++ w } ∧ w.length = 8 := by
  refine ⟨?M, ?w, ?_, ?_⟩
  case refine_1 =>
    unfold m68ki_stack_frame_1000
    simp only [m68ki_push_32_eq, m68ki_push_16_eq, m68ki_fake_push_32_eq, m68ki_fake_push_16_eq,
      hp, Function.update_same, Function.update_idem, sub32_sub32, List.append_assoc,
      List.singleton_append, List.cons_append, List.nil_append, Nat.reduceAdd, Nat.reduceLeDiff]
    exact rfl
  case refine_2 => simp only [List.length_cons, List.length_nil, Nat.reduceAdd]

/-- Format A: 32 bytes, thirteen host writes. -/
theorem m68ki_stack_frame_1010_eq (cfg : Config) (s : m68ki_cpu_core)
    (sr vector pc fault_address : Nat) (hp : s.pmmu_enabled = 0) :
    ∃ M w, m68ki_stack_frame_1010 cfg s sr vector pc fault_address =
        { s with
          dar := Function.update s.dar 15 (sub32 (s.dar 15) 32)
          mem := M
          bus := s.bus ++ w } ∧ w.length = 13 := by
  refine ⟨?M, ?w, ?_, ?_⟩
  case refine_1 =>
    unfold m68ki_stack_frame_1010
    simp only [m68ki_push_32_eq, m68ki_push_16_eq,
      hp, Function.update_same, Function.update_idem, sub32_sub32, List.append_assoc,
      List.singleton_append, List.cons_append, List.nil_append, Nat.reduceAdd, Nat.reduceLeDiff]
    exact rfl
  case refine_2 => simp only [List.length_cons, List.length_nil, Nat.reduceAdd]

/-- Format B: 92 bytes, twenty-eight host writes. -/
theorem m68ki_stack_frame_1011_eq (cfg : Config) (s : m68ki_cpu_core)
    (sr vector pc fault_address : Nat) (hp : s.pmmu_enabled = 0) :
    ∃ M w, m68ki_stack_frame_1011 cfg s sr vector pc fault_address =
        { s with
          dar := Function.update s.dar 15 (sub32 (s.dar 15) 92)
          mem := M
          bus := s.bus ++ w } ∧ w.length = 28 := by
  refine ⟨?M, ?w, ?_, ?_⟩
  case refine_1 =>
    unfold m68ki_stack_frame_1011
    simp only [m68ki_push_32_eq, m68ki_push_16_eq,
      hp, Function.update_same, Function.update_idem, sub32_sub32, List.append_assoc,
      List.singleton_append, List.cons_append, List.nil_append, Nat.reduceAdd, Nat.reduceLeDiff]
    exact rfl
  case refine_2 => simp only [List.length_cons, List.length_nil, Nat.reduceAdd]

/-- The frame that m68ki_exception_address_error selects on a CPU other than
the 68000: its size and the number of host writes. -/
theorem address_error_frame_later (cfg : Config) (t : m68ki_cpu_core) (sr : Nat)
    (hp : t.pmmu_enabled = 0) :
    ∃ M w,
      (if CPU_TYPE_IS_010 t.cpu_type then
          m68ki_stack_frame_1000 cfg t t.ppc sr EXCEPTION_BUS_ERROR
        else if t.mmu_tmp_buserror_address = t.ppc then
          m68ki_stack_frame_1010 cfg t sr EXCEPTION_BUS_ERROR t.ppc t.mmu_tmp_buserror_address
        else
          m68ki_stack_frame_1011 cfg t sr EXCEPTION_BUS_ERROR t.ppc t.mmu_tmp_buserror_address) =
        { t with
          dar := Function.update t.dar 15 (sub32 (t.dar 15)
            (if t.cpu_type = CPU_TYPE_010 then 58
             else if t.mmu_tmp_buserror_address = t.ppc then 32 else 92))
          mem := M
          bus := t.bus ++ w } ∧
      w.length =
        (if t.cpu_type = CPU_TYPE_010 then 8
         else if t.mmu_tmp_buserror_address = t.ppc then 13 else 28) := by
  by_cases h1 : t.cpu_type = CPU_TYPE_010
  · have h10 : CPU_TYPE_IS_010 t.cpu_type = true := by rw [h1]; rfl
    obtain ⟨M, w, hF, hw⟩ := m68ki_stack_frame_1000_eq cfg t t.ppc sr EXCEPTION_BUS_ERROR hp
    refine ⟨M, w, ?_, ?_⟩
    · rw [if_pos h10, if_pos h1]; exact hF
    · rw [if_pos h1]; exact hw
  · have h10 : ¬ (CPU_TYPE_IS_010 t.cpu_type = true) := by
      unfold CPU_TYPE_IS_010
      rw [beq_iff_eq]
      exact h1
    by_cases h2 : t.mmu_tmp_buserror_address = t.ppc
    · obtain ⟨M, w, hF, hw⟩ := m68ki_stack_frame_1010_eq cfg t sr EXCEPTION_BUS_ERROR t.ppc
        t.mmu_tmp_buserror_address hp
      refine ⟨M, w, ?_, ?_⟩
      · rw [if_neg h10, if_pos h2, if_neg h1, if_pos h2]; exact hF
      · rw [if_neg h1, if_pos h2]; exact hw
    · obtain ⟨M, w, hF, hw⟩ := m68ki_stack_frame_1011_eq cfg t sr EXCEPTION_BUS_ERROR t.ppc
        t.mmu_tmp_buserror_address hp
      refine ⟨M, w, ?_, ?_⟩
      · rw [if_neg h10, if_neg h2, if_neg h1, if_neg h2]; exact hF
      · rw [if_neg h1, if_neg h2]; exact hw

/-- The state after the address-error exception on a CPU other than the 68000
that is not already writing a frame. -/
theorem address_error_later (cfg : Config) (s : m68ki_cpu_core)
    (hc : s.cpu_type ≠ CPU_TYPE_000) (hrun : s.run_mode ≠ RUN_MODE_BERR_AERR_RESET_WSF)
    (hp : s.pmmu_enabled = 0) :
    (m68ki_exception_address_error cfg s).dar 15 =
      sub32 (supervisor_sp s)
        (if s.cpu_type = CPU_TYPE_010 then 58
         else if s.mmu_tmp_buserror_address = s.ppc then 32 else 92) ∧
    (∃ w, (m68ki_exception_address_error cfg s).bus =
        s.bus ++ w ++ [BusEvent.ps_read32 (add32 (shl32 EXCEPTION_ADDRESS_ERROR 2) s.vbr)] ∧
      w.length =
        (if s.cpu_type = CPU_TYPE_010 then 8
         else if s.mmu_tmp_buserror_address = s.ppc then 13 else 28)) ∧
    (m68ki_exception_address_error cfg s).pc =
      mem_read_32 (m68ki_exception_address_error cfg s).mem
        (add32 (shl32 EXCEPTION_ADDRESS_ERROR 2) s.vbr) ∧
    (m68ki_exception_address_error cfg s).run_mode = RUN_MODE_BERR_AERR_RESET ∧
    (m68ki_exception_address_error cfg s).stopped = s.stopped ∧
    (m68ki_exception_address_error cfg s).s_flag = SFLAG_SET ∧
    (m68ki_exception_address_error cfg s).m68ki_remaining_cycles =
      s.m68ki_remaining_cycles - (s.cyc_exception EXCEPTION_ADDRESS_ERROR : Int) := by
  have hc0 : ¬ (CPU_TYPE_IS_000 s.cpu_type = true) := by
    unfold CPU_TYPE_IS_000
    rw [beq_iff_eq]
    exact hc
  have e := m68ki_init_exception_eq cfg s
  unfold m68ki_exception_address_error
  generalize m68ki_init_exception cfg s = r at e ⊢
  obtain ⟨sr, t⟩ := r
  simp only [Prod.mk.injEq] at e
  obtain ⟨e1, e2⟩ := e
  have ht1 : t.run_mode = s.run_mode := by rw [e2]
  have ht2 : t.cpu_type = s.cpu_type := by rw [e2]
  have ht3 : t.pmmu_enabled = 0 := by rw [e2]; exact hp
  obtain ⟨M, w, hF, hw⟩ := address_error_frame_later cfg
    { t with run_mode := RUN_MODE_BERR_AERR_RESET_WSF } sr ht3
  simp only [ht1, ht2, hrun, hc0, ↓reduceIte, Bool.false_eq_true] at hF hw ⊢
  rw [hF]
  subst e2
  simp only [m68ki_jump_vector_eq, USE_CYCLES, Function.update_same, supervisor_sp_eq,
    true_and, and_true, List.append_assoc] at hw ⊢
  exact ⟨w, rfl, hw⟩

theorem append_five_one (l : List BusEvent) (a b c d e p : BusEvent) :
    l ++ [a, b, c, d, e, p] = l ++ [a, b, c, d, e] ++ [p] := by
  simp only [List.append_assoc, List.cons_append, List.nil_append]

/-! ## Group 1 and 2 exceptions -/

/-- Format 0 on any CPU type: three words on the 68000, four words with the
vector offset on top otherwise. -/
theorem m68ki_stack_frame_0000_eq (cfg : Config) (s : m68ki_cpu_core)
    (pc sr vector : Nat) (hp : s.pmmu_enabled = 0) :
    m68ki_stack_frame_0000 cfg s pc sr vector =
      { s with
        dar := Function.update s.dar 15
          (sub32 (s.dar 15) (if s.cpu_type = CPU_TYPE_000 then 6 else 8))
        mem :=
          if s.cpu_type = CPU_TYPE_000 then
            mem_write_16 (mem_write_32 s.mem (sub32 (s.dar 15) 4 &&& s.address_mask) pc)
              (sub32 (s.dar 15) 6 &&& s.address_mask) sr
          else
            mem_write_16 (mem_write_32 (mem_write_16 s.mem
              (sub32 (s.dar 15) 2 &&& s.address_mask) (shl32 vector 2))
              (sub32 (s.dar 15) 6 &&& s.address_mask) pc)
              (sub32 (s.dar 15) 8 &&& s.address_mask) sr
        bus := s.bus ++
          if s.cpu_type = CPU_TYPE_000 then
            [BusEvent.write32 (sub32 (s.dar 15) 4 &&& s.address_mask) pc,
             BusEvent.write16 (sub32 (s.dar 15) 6 &&& s.address_mask) sr]
          else
            [BusEvent.write16 (sub32 (s.dar 15) 2 &&& s.address_mask) (shl32 vector 2),
             BusEvent.write32 (sub32 (s.dar 15) 6 &&& s.address_mask) pc,
             BusEvent.write16 (sub32 (s.dar 15) 8 &&& s.address_mask) sr] } := by
  by_cases hc : s.cpu_type = CPU_TYPE_000
  · rw [m68ki_stack_frame_0000_eq_000 cfg s pc sr vector hp hc]
    simp only [hc, ↓reduceIte]
  · rw [m68ki_stack_frame_0000_eq_010 cfg s pc sr vector hp hc]
    simp only [hc, ↓reduceIte]

/-- Format 2: the instruction address, the format word, PC and SR. -/
theorem m68ki_stack_frame_0010_eq (cfg : Config) (s : m68ki_cpu_core) (sr vector : Nat)
    (hp : s.pmmu_enabled = 0) :
    m68ki_stack_frame_0010 cfg s sr vector =
      { s with
        dar := Function.update s.dar 15 (sub32 (s.dar 15) 12)
        mem := mem_write_16 (mem_write_32 (mem_write_16 (mem_write_32 s.mem
                  (sub32 (s.dar 15) 4 &&& s.address_mask) s.ppc)
                  (sub32 (s.dar 15) 6 &&& s.address_mask) (0x2000 ||| shl32 vector 2))
                  (sub32 (s.dar 15) 10 &&& s.address_mask) s.pc)
                (sub32 (s.dar 15) 12 &&& s.address_mask) sr
        bus := s.bus ++
          [BusEvent.write32 (sub32 (s.dar 15) 4 &&& s.address_mask) s.ppc,
           BusEvent.write16 (sub32 (s.dar 15) 6 &&& s.address_mask) (0x2000 ||| shl32 vector 2),
           BusEvent.write32 (sub32 (s.dar 15) 10 &&& s.address_mask) s.pc,
           BusEvent.write16 (sub32 (s.dar 15) 12 &&& s.address_mask) sr] } := by
  unfold m68ki_stack_frame_0010
  simp only [m68ki_push_32_eq, m68ki_push_16_eq, hp,
    Function.update_same, Function.update_idem, sub32_sub32, List.append_assoc,
    List.singleton_append, List.cons_append, List.nil_append, Nat.reduceAdd, Nat.reduceLeDiff]

/-- The state after TRAP #n processing: a format-0 frame with the current PC
on the supervisor stack, then the vector fetch. -/
theorem exception_trapN_obs (cfg : Config) (s : m68ki_cpu_core) (vector : Nat)
    (hp : s.pmmu_enabled = 0) :
    (m68ki_exception_trapN cfg s vector).dar 15 =
      sub32 (supervisor_sp s) (if s.cpu_type = CPU_TYPE_000 then 6 else 8) ∧
    (m68ki_exception_trapN cfg s vector).mem =
      (if s.cpu_type = CPU_TYPE_000 then
        mem_write_16 (mem_write_32 s.mem
          (sub32 (supervisor_sp s) 4 &&& s.address_mask) s.pc)
          (sub32 (supervisor_sp s) 6 &&& s.address_mask) (m68ki_get_sr s)
      else
        mem_write_16 (mem_write_32 (mem_write_16 s.mem
          (sub32 (supervisor_sp s) 2 &&& s.address_mask) (shl32 vector 2))
          (sub32 (supervisor_sp s) 6 &&& s.address_mask) s.pc)
          (sub32 (supervisor_sp s) 8 &&& s.address_mask) (m68ki_get_sr s)) ∧
    (m68ki_exception_trapN cfg s vector).bus =
      s.bus ++
        (if s.cpu_type = CPU_TYPE_000 then
          [BusEvent.write32 (sub32 (supervisor_sp s) 4 &&& s.address_mask) s.pc,
           BusEvent.write16 (sub32 (supervisor_sp s) 6 &&& s.address_mask) (m68ki_get_sr s)]
        else
          [BusEvent.write16 (sub32 (supervisor_sp s) 2 &&& s.address_mask) (shl32 vector 2),
           BusEvent.write32 (sub32 (supervisor_sp s) 6 &&& s.address_mask) s.pc,
           BusEvent.write16 (sub32 (supervisor_sp s) 8 &&& s.address_mask) (m68ki_get_sr s)]) ++
        [BusEvent.ps_read32 (add32 (shl32 vector 2) s.vbr)] ∧
    (m68ki_exception_trapN cfg s vector).pc =
      mem_read_32 (m68ki_exception_trapN cfg s vector).mem (add32 (shl32 vector 2) s.vbr) ∧
    (m68ki_exception_trapN cfg s vector).s_flag = SFLAG_SET := by
  unfold m68ki_exception_trapN
  simp only [m68ki_init_exception_eq, m68ki_stack_frame_0000_eq, hp, m68ki_jump_vector_eq,
    USE_CYCLES, Function.update_same, supervisor_sp_eq, and_self]

/-- Group 2 on a CPU up to the 68010 is processed like TRAP #n. -/
theorem exception_trap_eq_trapN (cfg : Config) (s : m68ki_cpu_core) (vector : Nat)
    (h : CPU_TYPE_IS_010_LESS s.cpu_type ≠ 0) :
    m68ki_exception_trap cfg s vector = m68ki_exception_trapN cfg s vector := by
  unfold m68ki_exception_trap m68ki_exception_trapN
  simp only [m68ki_init_exception_eq, h, ne_eq, not_false_eq_true, ↓reduceIte]

/-- The state after group 2 processing on a later CPU: a format-2 frame. -/
theorem exception_trap_obs_0010 (cfg : Config) (s : m68ki_cpu_core) (vector : Nat)
    (hp : s.pmmu_enabled = 0) (h : CPU_TYPE_IS_010_LESS s.cpu_type = 0) :
    (m68ki_exception_trap cfg s vector).dar 15 = sub32 (supervisor_sp s) 12 ∧
    (m68ki_exception_trap cfg s vector).bus =
      s.bus ++
        [BusEvent.write32 (sub32 (supervisor_sp s) 4 &&& s.address_mask) s.ppc,
         BusEvent.write16 (sub32 (supervisor_sp s) 6 &&& s.address_mask)
           (0x2000 ||| shl32 vector 2),
         BusEvent.write32 (sub32 (supervisor_sp s) 10 &&& s.address_mask) s.pc,
         BusEvent.write16 (sub32 (supervisor_sp s) 12 &&& s.address_mask) (m68ki_get_sr s),
         BusEvent.ps_read32 (add32 (shl32 vector 2) s.vbr)] ∧
    (m68ki_exception_trap cfg s vector).pc =
      mem_read_32 (m68ki_exception_trap cfg s vector).mem (add32 (shl32 vector 2) s.vbr) ∧
    (m68ki_exception_trap cfg s vector).s_flag = SFLAG_SET := by
  unfold m68ki_exception_trap
  simp only [m68ki_init_exception_eq, h, ne_eq, not_true_eq_false, ↓reduceIte,
    m68ki_stack_frame_0010_eq, hp, m68ki_jump_vector_eq,
    USE_CYCLES, Function.update_same, supervisor_sp_eq, and_self, List.append_assoc,
    List.singleton_append, List.cons_append, List.nil_append]

/-! ## Cycle accounting of the exceptions -/

theorem cycle_view_push_16 (cfg : Config) (s : m68ki_cpu_core) (v : Nat) :
    cycle_view (m68ki_push_16 cfg s v) = cycle_view s := rfl

theorem cycle_view_push_32 (cfg : Config) (s : m68ki_cpu_core) (v : Nat) :
    cycle_view (m68ki_push_32 cfg s v) = cycle_view s := rfl

theorem cycle_view_fake_push_16 (s : m68ki_cpu_core) :
    cycle_view (m68ki_fake_push_16 s) = cycle_view s := rfl

theorem cycle_view_fake_push_32 (s : m68ki_cpu_core) :
    cycle_view (m68ki_fake_push_32 s) = cycle_view s := rfl

theorem cycle_view_jump_vector (s : m68ki_cpu_core) (vector : Nat) :
    cycle_view (m68ki_jump_vector s vector) = cycle_view s := rfl

theorem cycle_view_init_exception (cfg : Config) (s : m68ki_cpu_core) :
    cycle_view (m68ki_init_exception cfg s).2 = cycle_view s := by
  rw [m68ki_init_exception_eq]
  rfl

theorem cycle_view_instr_mode (c : Prop) [Decidable c] (s : m68ki_cpu_core) (v : Nat) :
    cycle_view (if c then { s with instr_mode := v } else s) = cycle_view s := by
  split_ifs <;> rfl

theorem cycle_view_stack_frame_0000 (cfg : Config) (s : m68ki_cpu_core) (pc sr vector : Nat) :
    cycle_view (m68ki_stack_frame_0000 cfg s pc sr vector) = cycle_view s := by
  unfold m68ki_stack_frame_0000 m68ki_stack_frame_3word
  split_ifs <;> simp only [cycle_view_push_16, cycle_view_push_32]

theorem cycle_view_stack_frame_0010 (cfg : Config) (s : m68ki_cpu_core) (sr vector : Nat) :
    cycle_view (m68ki_stack_frame_0010 cfg s sr vector) = cycle_view s := by
  unfold m68ki_stack_frame_0010
  simp only [cycle_view_push_16, cycle_view_push_32]

theorem cycle_view_stack_frame_buserr (cfg : Config) (s : m68ki_cpu_core) (sr : Nat) :
    cycle_view (m68ki_stack_frame_buserr cfg s sr) = cycle_view s := by
  unfold m68ki_stack_frame_buserr
  simp only [cycle_view_push_16, cycle_view_push_32]
  rw [buserr_stacked_pc_snd]
  split_ifs <;> rfl

theorem cycle_view_stack_frame_1000 (cfg : Config) (s : m68ki_cpu_core) (pc sr vector : Nat) :
    cycle_view (m68ki_stack_frame_1000 cfg s pc sr vector) = cycle_view s := by
  unfold m68ki_stack_frame_1000
  simp only [cycle_view_push_16, cycle_view_push_32, cycle_view_fake_push_16,
    cycle_view_fake_push_32]

theorem cycle_view_stack_frame_1010 (cfg : Config) (s : m68ki_cpu_core)
    (sr vector pc fault_address : Nat) :
    cycle_view (m68ki_stack_frame_1010 cfg s sr vector pc fault_address) = cycle_view s := by
  unfold m68ki_stack_frame_1010
  simp only [cycle_view_push_16, cycle_view_push_32]

theorem cycle_view_stack_frame_1011 (cfg : Config) (s : m68ki_cpu_core)
    (sr vector pc fault_address : Nat) :
    cycle_view (m68ki_stack_frame_1011 cfg s sr vector pc fault_address) = cycle_view s := by
  unfold m68ki_stack_frame_1011
  simp only [cycle_view_push_16, cycle_view_push_32]

theorem cycle_view_run_mode (s : m68ki_cpu_core) (v : Nat) :
    cycle_view { s with run_mode := v } = cycle_view s := rfl

theorem cycle_view_stopped (s : m68ki_cpu_core) (v : Nat) :
    cycle_view { s with stopped := v } = cycle_view s := rfl

/-- Debiting `cyc_exception[v] - cyc_instruction[ir]`, read in a state that
has the accounting view of `s`. -/
theorem use_cycles_net (x s : m68ki_cpu_core) (v : Nat) (h : cycle_view x = cycle_view s) :
    (USE_CYCLES x ((x.cyc_exception v : Int) - (x.cyc_instruction x.ir : Int))).m68ki_remaining_cycles =
      s.m68ki_remaining_cycles - ((s.cyc_exception v : Int) - (s.cyc_instruction s.ir : Int)) := by
  unfold cycle_view at h
  simp only [Prod.mk.injEq] at h
  obtain ⟨h1, h2, h3, h4⟩ := h
  simp only [USE_CYCLES, h1, h2, h3, h4]

/-- Debiting `cyc_exception[v]` in full. -/
theorem use_cycles_full (x s : m68ki_cpu_core) (v : Nat) (h : cycle_view x = cycle_view s) :
    (USE_CYCLES x (x.cyc_exception v)).m68ki_remaining_cycles =
      s.m68ki_remaining_cycles - (s.cyc_exception v : Int) := by
  unfold cycle_view at h
  simp only [Prod.mk.injEq] at h
  obtain ⟨h1, h2, -, -⟩ := h
  simp only [USE_CYCLES, h1, h2]

/-! ## Flag bits -/

theorem and_two_pow_ne_zero (x k : Nat) : x &&& 2 ^ k ≠ 0 ↔ x.testBit k = true := by
  have hb : (x &&& 2 ^ k).testBit k = x.testBit k := by
    simp only [Nat.testBit_and, Nat.testBit_two_pow_self, Bool.and_true]
  constructor
  · intro h
    rcases and_two_pow_cases x k with h0 | h1
    · exact absurd h0 h
    · rw [← hb, h1]
      exact Nat.testBit_two_pow_self
  · intro h h0
    rw [h0, Nat.zero_testBit, h] at hb
    exact Bool.false_ne_true hb

theorem testBit_iff_div (x k : Nat) : x.testBit k = true ↔ x / 2 ^ k % 2 = 1 := by
  rw [Nat.testBit_to_div_mod, decide_eq_true_iff]

theorem testBit_not32 (x i : Nat) (hi : i < 32) : (not32 x).testBit i = !x.testBit i := by
  unfold not32
  have h : x % 0x100000000 < 2 ^ 32 := Nat.mod_lt _ (by decide)
  have e : 0xFFFFFFFF - x % 0x100000000 = 2 ^ 32 - (x % 0x100000000 + 1) := by omega
  rw [e, Nat.testBit_two_pow_sub_succ h]
  have e2 : (0x100000000 : Nat) = 2 ^ 32 := by decide
  rw [e2, Nat.testBit_mod_two_pow]
  simp [hi]

theorem bit8_iff (x : Nat) : x &&& 0x100 ≠ 0 ↔ x / 0x100 % 2 = 1 := by
  have h := and_two_pow_ne_zero x 8
  have h2 := testBit_iff_div x 8
  exact h.trans h2

theorem cflag_add_32_bit (S D R : Nat) :
    CFLAG_ADD_32 S D R &&& 0x100 ≠ 0 ↔
      ((S / 2 ^ 31 % 2 = 1 ∧ D / 2 ^ 31 % 2 = 1) ∨
        (¬ R / 2 ^ 31 % 2 = 1 ∧ (S / 2 ^ 31 % 2 = 1 ∨ D / 2 ^ 31 % 2 = 1))) := by
  unfold CFLAG_ADD_32
  rw [show (0x100 : Nat) = 2 ^ 8 from rfl, and_two_pow_ne_zero, Nat.testBit_shiftRight]
  simp only [Nat.testBit_or, Nat.testBit_and, testBit_not32 _ _ (show 23 + 8 < 32 by decide),
    Bool.or_eq_true, Bool.and_eq_true, Bool.not_eq_true', ← Bool.not_eq_true, testBit_iff_div]


theorem cflag_sub_32_bit (S D R : Nat) :
    CFLAG_SUB_32 S D R &&& 0x100 ≠ 0 ↔
      ((S / 2 ^ 31 % 2 = 1 ∧ R / 2 ^ 31 % 2 = 1) ∨
        (¬ D / 2 ^ 31 % 2 = 1 ∧ (S / 2 ^ 31 % 2 = 1 ∨ R / 2 ^ 31 % 2 = 1))) := by
  unfold CFLAG_SUB_32
  rw [show (0x100 : Nat) = 2 ^ 8 from rfl, and_two_pow_ne_zero, Nat.testBit_shiftRight]
  simp only [Nat.testBit_or, Nat.testBit_and, testBit_not32 _ _ (show 23 + 8 < 32 by decide),
    Bool.or_eq_true, Bool.and_eq_true, Bool.not_eq_true', ← Bool.not_eq_true, testBit_iff_div]

theorem bne_true_iff (a b : Bool) :
    (a != b) = true ↔ ((a = true ∧ ¬ b = true) ∨ (¬ a = true ∧ b = true)) := by
  cases a <;> cases b <;> decide

/-- Bit `j + 7` of `(a ^ c) & (b ^ c)`, through the shift by `j`. -/
theorem vflag_bit (a b c j : Nat) :
    (((a ^^^ c) &&& (b ^^^ c)) >>> j) &&& 0x80 ≠ 0 ↔
      ((a / 2 ^ (j + 7) % 2 = 1 ∧ ¬ c / 2 ^ (j + 7) % 2 = 1) ∨
        (¬ a / 2 ^ (j + 7) % 2 = 1 ∧ c / 2 ^ (j + 7) % 2 = 1)) ∧
      ((b / 2 ^ (j + 7) % 2 = 1 ∧ ¬ c / 2 ^ (j + 7) % 2 = 1) ∨
        (¬ b / 2 ^ (j + 7) % 2 = 1 ∧ c / 2 ^ (j + 7) % 2 = 1)) := by
  rw [show (0x80 : Nat) = 2 ^ 7 from rfl, and_two_pow_ne_zero, Nat.testBit_shiftRight]
  simp only [Nat.testBit_and, Nat.testBit_xor, Bool.and_eq_true, bne_true_iff, testBit_iff_div]

theorem ccr_bit_z (x n z v c : Nat) :
    (((x &&& 0x100) >>> 4) ||| ((n &&& 0x80) >>> 4) ||| shl32 (lnot z) 2 |||
      ((v &&& 0x80) >>> 6) ||| ((c &&& 0x100) >>> 8)).testBit 2 = decide (z = 0) := by
  have e8 : (0x100 : Nat) = 2 ^ 8 := rfl
  have e7 : (0x80 : Nat) = 2 ^ 7 := rfl
  have hz : (shl32 (lnot z) 2).testBit 2 = decide (z = 0) := by
    unfold shl32 lnot
    by_cases h : z = 0
    · simp only [h, ↓reduceIte, decide_True]; decide
    · simp only [h, ↓reduceIte, decide_False]; decide
  simp only [Nat.testBit_or, Nat.testBit_shiftRight, Nat.testBit_and, e8, e7,
    Nat.testBit_two_pow, hz, Nat.reduceAdd, Nat.reduceEqDiff, decide_False, Bool.and_false,
    Bool.or_false, Bool.false_or]

theorem ccr_bit_n (x n z v c : Nat) :
    (((x &&& 0x100) >>> 4) ||| ((n &&& 0x80) >>> 4) ||| shl32 (lnot z) 2 |||
      ((v &&& 0x80) >>> 6) ||| ((c &&& 0x100) >>> 8)).testBit 3 = n.testBit 7 := by
  have e8 : (0x100 : Nat) = 2 ^ 8 := rfl
  have e7 : (0x80 : Nat) = 2 ^ 7 := rfl
  have hz : (shl32 (lnot z) 2).testBit 3 = false := by
    unfold shl32 lnot
    by_cases h : z = 0
    · simp only [h, ↓reduceIte]; decide
    · simp only [h, ↓reduceIte]; decide
  simp only [Nat.testBit_or, Nat.testBit_shiftRight, Nat.testBit_and, e8, e7,
    Nat.testBit_two_pow, hz, Nat.reduceAdd, Nat.reduceEqDiff, decide_False, decide_True,
    Bool.and_false, Bool.and_true, Bool.or_false, Bool.false_or]

/-! ## Effective address arithmetic -/

theorem add32_eq_to_uint (x y : Nat) : add32 x y = to_uint ((x : Int) + (y : Int)) := by
  unfold add32 to_uint
  omega

theorem to_uint_add_left (a b : Int) : to_uint ((to_uint a : Int) + b) = to_uint (a + b) := by
  unfold to_uint
  omega

theorem to_uint_add_right (a b : Int) : to_uint (a + (to_uint b : Int)) = to_uint (a + b) := by
  unfold to_uint
  omega

theorem shl32_eq_to_uint (x n : Nat) (hn : n ≤ 3) :
    shl32 x n = to_uint ((x : Int) * 2 ^ n) := by
  unfold shl32 to_uint
  rw [Nat.shiftLeft_eq]
  interval_cases n <;> simp only [Nat.reducePow, Int.reducePow] <;> omega

theorem to_uint_mul_pow (a : Int) (n : Nat) (hn : n ≤ 3) :
    to_uint ((to_uint a : Int) * 2 ^ n) = to_uint (a * 2 ^ n) := by
  unfold to_uint
  interval_cases n <;> simp only [Int.reducePow] <;> omega

theorem ea_sum (An X n e : Nat) (hn : n ≤ 3) :
    add32 (add32 An (shl32 X n)) (to_uint (MAKE_INT_8 e)) =
      to_uint ((An : Int) + (X : Int) * 2 ^ n + MAKE_INT_8 e) := by
  simp only [add32_eq_to_uint, shl32_eq_to_uint X n hn, to_uint_add_left, to_uint_add_right]

theorem ea_sum_w (An d n e : Nat) (hn : n ≤ 3) :
    add32 (add32 An (shl32 (to_uint (MAKE_INT_16 d)) n)) (to_uint (MAKE_INT_8 e)) =
      to_uint ((An : Int) + MAKE_INT_16 d * 2 ^ n + MAKE_INT_8 e) := by
  simp only [add32_eq_to_uint, shl32_eq_to_uint _ n hn, to_uint_mul_pow _ n hn,
    to_uint_add_left, to_uint_add_right]
theorem BIT_B_eq_zero (e : Nat) : BIT_B e = 0 ↔ e.testBit 11 = false := by
  have h := and_two_pow_ne_zero e 11
  unfold BIT_B
  rw [show (0x00000800 : Nat) = 2 ^ 11 from rfl]
  constructor
  · intro h0
    by_contra hb
    exact (h.mpr (by simpa using hb)) h0
  · intro hb
    by_contra h0
    rw [h.mp h0] at hb
    exact Bool.noConfusion hb

theorem and_3_le (x : Nat) : x &&& 3 ≤ 3 := Nat.and_le_right

theorem and_3_eq_mod (x : Nat) : x &&& 3 = x % 4 := Nat.and_pow_two_sub_one_eq_mod x 2

theorem MAKE_INT_8_and (e : Nat) : MAKE_INT_8 (e &&& 0xff) = MAKE_INT_8 e := by
  have h : e &&& 0xff = e % 0x100 := Nat.and_pow_two_sub_one_eq_mod e 8
  rw [h]
  unfold MAKE_INT_8
  simp only [Nat.mod_mod]
  split_ifs <;> omega

/-- The index of the code, one of the two forms of `Xn`, in a sum. -/
theorem ea_sum_index (s : m68ki_cpu_core) (An e : Nat) :
    add32 (add32 An
      (if BIT_B e = 0 then to_uint (MAKE_INT_16 (s.dar (e >>> 12))) else s.dar (e >>> 12)))
      (to_uint (MAKE_INT_8 e)) = spec_ea_brief s e An 1 := by
  unfold spec_ea_brief spec_ea_index
  rw [MAKE_INT_8_and]
  by_cases hb : e.testBit 11 = true
  · have h0 : ¬ (BIT_B e = 0) := fun h => by
      rw [(BIT_B_eq_zero e).mp h] at hb; exact Bool.noConfusion hb
    simp only [h0, hb, ↓reduceIte, add32_eq_to_uint, to_uint_add_left, to_uint_add_right,
      mul_one]
  · have hb0 : e.testBit 11 = false := by simpa using hb
    have h0 : BIT_B e = 0 := (BIT_B_eq_zero e).mpr hb0
    simp only [h0, hb0, ↓reduceIte, add32_eq_to_uint, to_uint_add_left, to_uint_add_right,
      mul_one, Bool.false_eq_true]

/-- The scaled index of the code in a sum. -/
theorem ea_sum_scaled (s : m68ki_cpu_core) (An e : Nat) :
    add32 (add32 An
      (shl32 (if BIT_B e = 0 then to_uint (MAKE_INT_16 (s.dar (e >>> 12)))
        else s.dar (e >>> 12)) ((e >>> 9) &&& 3)))
      (to_uint (MAKE_INT_8 e)) = spec_ea_brief s e An (spec_ea_scale e) := by
  unfold spec_ea_brief spec_ea_index spec_ea_scale
  rw [MAKE_INT_8_and, ← and_3_eq_mod]
  have hn := and_3_le (e >>> 9)
  by_cases hb : e.testBit 11 = true
  · have h0 : ¬ (BIT_B e = 0) := fun h => by
      rw [(BIT_B_eq_zero e).mp h] at hb; exact Bool.noConfusion hb
    simp only [h0, hb, ↓reduceIte, add32_eq_to_uint, shl32_eq_to_uint _ _ hn,
      to_uint_add_left, to_uint_add_right]
  · have hb0 : e.testBit 11 = false := by simpa using hb
    have h0 : BIT_B e = 0 := (BIT_B_eq_zero e).mpr hb0
    simp only [h0, hb0, ↓reduceIte, add32_eq_to_uint, shl32_eq_to_uint _ _ hn,
      to_uint_mul_pow _ _ hn, to_uint_add_left, to_uint_add_right, Bool.false_eq_true]

theorem bit_eq_zero_iff (e k : Nat) : e &&& 2 ^ k = 0 ↔ e.testBit k = false := by
  have h := and_two_pow_ne_zero e k
  constructor
  · intro h0
    by_contra hb
    exact (h.mpr (by simpa using hb)) h0
  · intro hb
    by_contra h0
    rw [h.mp h0] at hb
    exact Bool.noConfusion hb

theorem BIT_0_eq_zero (e : Nat) : BIT_0 e = 0 ↔ e.testBit 0 = false := bit_eq_zero_iff e 0

theorem BIT_1_eq_zero (e : Nat) : BIT_1 e = 0 ↔ e.testBit 1 = false := bit_eq_zero_iff e 1

theorem BIT_2_eq_zero (e : Nat) : BIT_2 e = 0 ↔ e.testBit 2 = false := bit_eq_zero_iff e 2

theorem BIT_4_eq_zero (e : Nat) : BIT_4 e = 0 ↔ e.testBit 4 = false := bit_eq_zero_iff e 4

theorem BIT_5_eq_zero (e : Nat) : BIT_5 e = 0 ↔ e.testBit 5 = false := bit_eq_zero_iff e 5

theorem BIT_6_eq_zero (e : Nat) : BIT_6 e = 0 ↔ e.testBit 6 = false := bit_eq_zero_iff e 6

theorem BIT_7_eq_zero (e : Nat) : BIT_7 e = 0 ↔ e.testBit 7 = false := bit_eq_zero_iff e 7

theorem BIT_8_eq_zero (e : Nat) : BIT_8 e = 0 ↔ e.testBit 8 = false := bit_eq_zero_iff e 8

theorem and_7_eq_mod (x : Nat) : x &&& 7 = x % 8 := Nat.and_pow_two_sub_one_eq_mod x 3

/-- The index of the full format, as the code computes it. -/
theorem code_index_eq (s : m68ki_cpu_core) (e : Nat) :
    (if e.testBit 6 = false then
        shl32 (if e.testBit 11 = false then to_uint (MAKE_INT_16 (s.dar (e >>> 12)))
          else s.dar (e >>> 12)) ((e >>> 9) &&& 3)
      else 0) =
      to_uint (if e.testBit 6 then 0 else spec_ea_index s e * spec_ea_scale e) := by
  unfold spec_ea_index spec_ea_scale
  rw [← and_3_eq_mod]
  have hn := and_3_le (e >>> 9)
  by_cases h6 : e.testBit 6 = true
  · simp only [h6, Bool.true_eq_false, ↓reduceIte]
    rfl
  · have h6f : e.testBit 6 = false := by simpa using h6
    by_cases hb : e.testBit 11 = true
    · simp only [h6f, hb, Bool.true_eq_false, Bool.false_eq_true, ↓reduceIte,
        shl32_eq_to_uint _ _ hn]
    · have hbf : e.testBit 11 = false := by simpa using hb
      simp only [h6f, hbf, Bool.false_eq_true, ↓reduceIte, shl32_eq_to_uint _ _ hn,
        to_uint_mul_pow _ _ hn]

/-- A displacement, selected by two bits the way the code tests them. -/
theorem code_displacement_eq (cfg : Config) (s : m68ki_cpu_core) (hi lo : Bool) (size : Nat)
    (hsize : size = (if hi then 2 else 0) + (if lo then 1 else 0)) :
    (if hi = true then
        if lo = true then m68ki_read_imm_32 cfg s
        else (to_uint (MAKE_INT_16 (m68ki_read_imm_16 cfg s).1), (m68ki_read_imm_16 cfg s).2)
      else ((0 : Nat), s)) = spec_ea_displacement cfg s size := by
  unfold spec_ea_displacement
  subst hsize
  cases hi <;> cases lo <;> rfl

theorem two_bits (e k : Nat) :
    (e >>> k) % 4 = (if e.testBit (k + 1) then 2 else 0) + (if e.testBit k then 1 else 0) := by
  have h1 : e.testBit (k + 1) = ((e >>> k) / 2 % 2 != 0) := by
    rw [Nat.testBit, Nat.shiftRight_add, Nat.shiftRight_eq_div_pow (e >>> k) 1,
      Nat.one_and_eq_mod_two, pow_one]
  have h0 : e.testBit k = ((e >>> k) % 2 != 0) := by
    rw [Nat.testBit, Nat.one_and_eq_mod_two]
  rw [h1, h0]
  generalize e >>> k = x
  have hx : x % 4 = (x / 2 % 2) * 2 + x % 2 := by omega
  rcases Nat.mod_two_eq_zero_or_one (x / 2) with a | a <;>
  rcases Nat.mod_two_eq_zero_or_one x with b | b <;>
  simp [hx, a, b]

/-- The full format of the code is the full format of the specification. -/
theorem get_ea_ix_full_eq (cfg : Config) (s s0 : m68ki_cpu_core) (An ext : Nat)
    (hfetch : m68ki_read_imm_16 cfg s = (ext, s0))
    (hl : CPU_TYPE_IS_010_LESS s0.cpu_type = 0) (h8 : ext.testBit 8 = true) :
    m68ki_get_ea_ix cfg s An =
      spec_ea_full cfg (USE_CYCLES s0 (cfg.m68ki_ea_idx_cycle_table (ext &&& 0x3f))) ext An := by
  have hb8 : ¬ (BIT_8 ext = 0) := fun h => by
    rw [(BIT_8_eq_zero ext).mp h] at h8; exact Bool.noConfusion h8
  have hbd := fun t => code_displacement_eq cfg t (ext.testBit 5) (ext.testBit 4)
    ((ext >>> 4) % 4) (two_bits ext 4)
  have hod := fun t => code_displacement_eq cfg t (ext.testBit 1) (ext.testBit 0)
    (ext % 4) (two_bits ext 0)
  unfold m68ki_get_ea_ix spec_ea_full
  rw [hfetch]
  simp only [hl, hb8, ne_eq, not_true_eq_false, ↓reduceIte]
  generalize USE_CYCLES s0 _ = s1
  simp only [BIT_7_eq_zero, BIT_6_eq_zero, BIT_B_eq_zero, BIT_5_eq_zero, BIT_4_eq_zero,
    BIT_2_eq_zero, BIT_1_eq_zero, BIT_0_eq_zero, and_7_eq_mod, Bool.not_eq_false,
    code_index_eq, hbd, hod]
  split_ifs <;>
    simp only [add32_eq_to_uint, to_uint_add_left, to_uint_add_right]

/-! ## Reads of the current address space -/

theorem m68ki_read_32_eq (cfg : Config) (s : m68ki_cpu_core) (a : Nat)
    (hp : s.pmmu_enabled = 0) :
    m68ki_read_32 cfg s a =
      (mem_read_32 s.mem (a &&& s.address_mask),
        { s with bus := s.bus ++ [BusEvent.read32 (a &&& s.address_mask)] }) := by
  simp only [m68ki_read_32, m68ki_read_32_fc, m68k_read_memory_32, pmmu_address, hp, ne_eq,
    not_true_eq_false, and_false, if_false, ADDRESS_68K]

/-! ## Address register stepping -/

theorem sub32_eq_to_uint (x y : Nat) : sub32 x y = to_uint ((x : Int) - (y : Int)) := by
  unfold sub32 to_uint
  omega

theorem sub32_add32_cancel (x k : Nat) (hx : x < 0x100000000) :
    sub32 (add32 x k) k = x := by
  unfold sub32 add32
  omega

theorem post_increment_eq (s : m68ki_cpu_core) (i k : Nat) (hx : s.dar i < 0x100000000) :
    (sub32 (({ s with dar := Function.update s.dar i (add32 (s.dar i) k) } :
        m68ki_cpu_core).dar i) k,
      ({ s with dar := Function.update s.dar i (add32 (s.dar i) k) } : m68ki_cpu_core)) =
    spec_post_increment s i k := by
  unfold spec_post_increment
  simp only [Function.update_same, sub32_add32_cancel _ _ hx]
  simp only [add32_eq_to_uint]

theorem pre_decrement_eq (s : m68ki_cpu_core) (i k : Nat) :
    ((({ s with dar := Function.update s.dar i (sub32 (s.dar i) k) } :
        m68ki_cpu_core).dar i),
      ({ s with dar := Function.update s.dar i (sub32 (s.dar i) k) } : m68ki_cpu_core)) =
    spec_pre_decrement s i k := by
  unfold spec_pre_decrement
  simp only [Function.update_same, sub32_eq_to_uint]

/-! ## The registers across the immediate reads -/

theorem dar_read_imm_16 (cfg : Config)
    (hslow : ∀ t pc, (cfg.m68ki_read_imm16_addr_slowpath t pc).2.dar = t.dar)
    (s : m68ki_cpu_core) : (m68ki_read_imm_16 cfg s).2.dar = s.dar :=
  hslow s s.pc

theorem dar_read_32 (cfg : Config) (s : m68ki_cpu_core) (a : Nat) :
    (m68ki_read_32 cfg s a).2.dar = s.dar := rfl

theorem dar_read_immediate_16 (cfg : Config)
    (hi16 : ∀ t a, (cfg.m68k_read_immediate_16 t a).2.dar = t.dar)
    (s : m68ki_cpu_core) (a : Nat) : (m68k_read_immediate_16 cfg s a).2.dar = s.dar := by
  unfold m68k_read_immediate_16
  split_ifs
  · exact hi16 s a
  · rfl

theorem dar_read_immediate_32 (cfg : Config)
    (hi32 : ∀ t a, (cfg.m68k_read_immediate_32 t a).2.dar = t.dar)
    (s : m68ki_cpu_core) (a : Nat) : (m68k_read_immediate_32 cfg s a).2.dar = s.dar := by
  unfold m68k_read_immediate_32
  split_ifs
  · exact hi32 s a
  · rfl

theorem dar_ic_readimm16 (cfg : Config)
    (hi16 : ∀ t a, (cfg.m68k_read_immediate_16 t a).2.dar = t.dar)
    (s : m68ki_cpu_core) (a : Nat) : (m68ki_ic_readimm16 cfg s a).2.dar = s.dar := by
  unfold m68ki_ic_readimm16
  dsimp only
  split_ifs <;>
    first
    | rfl
    | exact (dar_read_immediate_16 cfg hi16 _ a).trans rfl

theorem dar_pref (cfg : Config)
    (hi16 : ∀ t a, (cfg.m68k_read_immediate_16 t a).2.dar = t.dar)
    (t : m68ki_cpu_core) (a : Nat) :
    ({ (m68ki_ic_readimm16 cfg t a).2 with pref_data := (m68ki_ic_readimm16 cfg t a).1 } :
      m68ki_cpu_core).dar = t.dar :=
  dar_ic_readimm16 cfg hi16 t a

theorem dar_read_imm_32 (cfg : Config)
    (hi16 : ∀ t a, (cfg.m68k_read_immediate_16 t a).2.dar = t.dar)
    (hi32 : ∀ t a, (cfg.m68k_read_immediate_32 t a).2.dar = t.dar)
    (s : m68ki_cpu_core) : (m68ki_read_imm_32 cfg s).2.dar = s.dar := by
  unfold m68ki_read_imm_32
  simp only []
  split
  · rfl
  · by_cases hpre : cfg.M68K_EMULATE_PREFETCH = true
    · rw [if_pos hpre]
      refine (dar_ic_readimm16 cfg hi16 _ _).trans ?_
      refine (dar_ic_readimm16 cfg hi16 _ _).trans ?_
      by_cases hne : s.pc ≠ s.pref_addr
      · rw [if_pos hne]
        exact dar_ic_readimm16 cfg hi16 _ _
      · rw [if_neg hne]
    · rw [if_neg hpre]
      exact (dar_read_immediate_32 cfg hi32 _ _).trans rfl

theorem dar_read_imm_16_word (cfg : Config)
    (hslow : ∀ t pc, (cfg.m68ki_read_imm16_addr_slowpath t pc).2.dar = t.dar)
    (s : m68ki_cpu_core) :
    ((to_uint (MAKE_INT_16 (m68ki_read_imm_16 cfg s).1), (m68ki_read_imm_16 cfg s).2) :
      Nat × m68ki_cpu_core).2.dar = s.dar :=
  hslow s s.pc

theorem dar_get_ea_ix (cfg : Config)
    (hslow : ∀ t pc, (cfg.m68ki_read_imm16_addr_slowpath t pc).2.dar = t.dar)
    (hi16 : ∀ t a, (cfg.m68k_read_immediate_16 t a).2.dar = t.dar)
    (hi32 : ∀ t a, (cfg.m68k_read_immediate_32 t a).2.dar = t.dar)
    (s : m68ki_cpu_core) (An : Nat) : (m68ki_get_ea_ix cfg s An).2.dar = s.dar := by
  have hu : ∀ (t : m68ki_cpu_core) (n : Nat), (USE_CYCLES t n).dar = t.dar := fun t n => rfl
  have h16 := dar_read_imm_16 cfg hslow
  have h32 := dar_read_imm_32 cfg hi16 hi32
  have hd : ∀ (c1 c2 : Prop) [Decidable c1] [Decidable c2] (t : m68ki_cpu_core),
      (if c1 then if c2 then m68ki_read_imm_32 cfg t
        else (to_uint (MAKE_INT_16 (m68ki_read_imm_16 cfg t).1), (m68ki_read_imm_16 cfg t).2)
       else (0, t)).2.dar = t.dar := by
    intro c1 c2 _ _ t
    split_ifs
    · exact h32 t
    · exact h16 t
    · rfl
  unfold m68ki_get_ea_ix
  simp only []
  by_cases hl : CPU_TYPE_IS_010_LESS (m68ki_read_imm_16 cfg s).2.cpu_type ≠ 0
  · rw [if_pos hl]
    exact h16 s
  rw [if_neg hl]
  by_cases h8 : BIT_8 (m68ki_read_imm_16 cfg s).1 = 0
  · rw [if_pos h8]
    exact h16 s
  rw [if_neg h8]
  by_cases h7 : (m68ki_read_imm_16 cfg s).1 &&& 7 = 0
  · rw [if_pos h7]
    exact (hd _ _ _).trans ((hu _ _).trans (h16 s))
  rw [if_neg h7]
  by_cases h2 : BIT_2 (m68ki_read_imm_16 cfg s).1 ≠ 0
  · rw [if_pos h2]
    exact (dar_read_32 _ _ _).trans ((hd _ _ _).trans ((hd _ _ _).trans ((hu _ _).trans (h16 s))))
  · rw [if_neg h2]
    exact (dar_read_32 _ _ _).trans ((hd _ _ _).trans ((hd _ _ _).trans ((hu _ _).trans (h16 s))))

theorem use_program_space_pc (cfg : Config) (s : m68ki_cpu_core) :
    (m68ki_use_program_space cfg s).pc = s.pc := by
  unfold m68ki_use_program_space
  split_ifs <;> rfl

theorem use_program_space_dar (cfg : Config) (s : m68ki_cpu_core) :
    (m68ki_use_program_space cfg s).dar = s.dar := by
  unfold m68ki_use_program_space
  split_ifs <;> rfl

/-! ## The instruction cache -/

theorem ic_enabled_iff (s : m68ki_cpu_core) (hei : s.cacr &&& M68K_CACR_EI ≠ 0)
    (hcpu : s.cpu_type = CPU_TYPE_EC020 ∨ s.cpu_type = CPU_TYPE_020) :
    s.cacr &&& M68K_CACR_EI ≠ 0 ∧ s.cpu_type &&& (CPU_TYPE_EC020 ||| CPU_TYPE_020) ≠ 0 := by
  refine ⟨hei, ?_⟩
  rcases hcpu with h | h <;> rw [h] <;> decide

theorem ic_view_read_immediate_16 (cfg : Config)
    (hhost : ∀ t a, ic_view (cfg.m68k_read_immediate_16 t a).2 = ic_view t)
    (s : m68ki_cpu_core) (a : Nat) :
    ic_view (m68k_read_immediate_16 cfg s a).2 = ic_view s := by
  unfold m68k_read_immediate_16
  split_ifs
  · exact hhost s a
  · rfl

theorem ic_readimm16_hit (cfg : Config) (s : m68ki_cpu_core) (address : Nat)
    (hen : s.cacr &&& M68K_CACR_EI ≠ 0 ∧ s.cpu_type &&& (CPU_TYPE_EC020 ||| CPU_TYPE_020) ≠ 0)
    (hv : s.ic_valid ((address >>> 2) &&& 0x3f) ≠ 0)
    (ht : s.ic_address ((address >>> 2) &&& 0x3f) =
      (address >>> 8) ||| (if s.s_flag ≠ 0 then 0x1000000 else 0)) :
    m68ki_ic_readimm16 cfg s address = (ic_line_word s ((address >>> 2) &&& 0x3f) address, s) := by
  unfold m68ki_ic_readimm16
  simp only []
  rw [if_pos hen, if_neg]
  intro h
  rcases h with h | h
  · exact hv h
  · exact h ht

theorem ic_readimm16_off (cfg : Config) (s : m68ki_cpu_core) (address : Nat)
    (hoff : ¬ (s.cacr &&& M68K_CACR_EI ≠ 0 ∧
      s.cpu_type &&& (CPU_TYPE_EC020 ||| CPU_TYPE_020) ≠ 0)) :
    m68ki_ic_readimm16 cfg s address = m68k_read_immediate_16 cfg s address := by
  unfold m68ki_ic_readimm16
  simp only []
  rw [if_neg hoff]

theorem ic_readimm16_frozen (cfg : Config) (s : m68ki_cpu_core) (address : Nat)
    (hen : s.cacr &&& M68K_CACR_EI ≠ 0 ∧ s.cpu_type &&& (CPU_TYPE_EC020 ||| CPU_TYPE_020) ≠ 0)
    (hmiss : s.ic_valid ((address >>> 2) &&& 0x3f) = 0 ∨
      s.ic_address ((address >>> 2) &&& 0x3f) ≠
        (address >>> 8) ||| (if s.s_flag ≠ 0 then 0x1000000 else 0))
    (hfi : s.cacr &&& M68K_CACR_FI ≠ 0) :
    m68ki_ic_readimm16 cfg s address = m68k_read_immediate_16 cfg s address := by
  unfold m68ki_ic_readimm16
  simp only []
  rw [if_pos hen, if_pos hmiss, if_pos hfi]

theorem ic_readimm16_fill (cfg : Config) (s : m68ki_cpu_core) (address : Nat)
    (hen : s.cacr &&& M68K_CACR_EI ≠ 0 ∧ s.cpu_type &&& (CPU_TYPE_EC020 ||| CPU_TYPE_020) ≠ 0)
    (hmiss : s.ic_valid ((address >>> 2) &&& 0x3f) = 0 ∨
      s.ic_address ((address >>> 2) &&& 0x3f) ≠
        (address >>> 8) ||| (if s.s_flag ≠ 0 then 0x1000000 else 0))
    (hfi : ¬ (s.cacr &&& M68K_CACR_FI ≠ 0))
    (hok : (m68ki_read_32 cfg s (address &&& not32 3)).2.g_buserr = 0) :
    m68ki_ic_readimm16 cfg s address =
      (ic_line_word
        { (m68ki_read_32 cfg s (address &&& not32 3)).2 with
          ic_address := Function.update (m68ki_read_32 cfg s (address &&& not32 3)).2.ic_address
            ((address >>> 2) &&& 0x3f)
            ((address >>> 8) ||| (if s.s_flag ≠ 0 then 0x1000000 else 0))
          ic_data := Function.update (m68ki_read_32 cfg s (address &&& not32 3)).2.ic_data
            ((address >>> 2) &&& 0x3f) (m68ki_read_32 cfg s (address &&& not32 3)).1
          ic_valid := Function.update (m68ki_read_32 cfg s (address &&& not32 3)).2.ic_valid
            ((address >>> 2) &&& 0x3f) 1 }
        ((address >>> 2) &&& 0x3f) address,
       { (m68ki_read_32 cfg s (address &&& not32 3)).2 with
          ic_address := Function.update (m68ki_read_32 cfg s (address &&& not32 3)).2.ic_address
            ((address >>> 2) &&& 0x3f)
            ((address >>> 8) ||| (if s.s_flag ≠ 0 then 0x1000000 else 0))
          ic_data := Function.update (m68ki_read_32 cfg s (address &&& not32 3)).2.ic_data
            ((address >>> 2) &&& 0x3f) (m68ki_read_32 cfg s (address &&& not32 3)).1
          ic_valid := Function.update (m68ki_read_32 cfg s (address &&& not32 3)).2.ic_valid
            ((address >>> 2) &&& 0x3f) 1 }) := by
  unfold m68ki_ic_readimm16
  simp only []
  rw [if_pos hen, if_pos hmiss, if_neg hfi, if_pos hok]

theorem ic_readimm16_fill_error (cfg : Config) (s : m68ki_cpu_core) (address : Nat)
    (hen : s.cacr &&& M68K_CACR_EI ≠ 0 ∧ s.cpu_type &&& (CPU_TYPE_EC020 ||| CPU_TYPE_020) ≠ 0)
    (hmiss : s.ic_valid ((address >>> 2) &&& 0x3f) = 0 ∨
      s.ic_address ((address >>> 2) &&& 0x3f) ≠
        (address >>> 8) ||| (if s.s_flag ≠ 0 then 0x1000000 else 0))
    (hfi : ¬ (s.cacr &&& M68K_CACR_FI ≠ 0))
    (herr : ¬ ((m68ki_read_32 cfg s (address &&& not32 3)).2.g_buserr = 0)) :
    m68ki_ic_readimm16 cfg s address =
      m68k_read_immediate_16 cfg (m68ki_read_32 cfg s (address &&& not32 3)).2 address := by
  unfold m68ki_ic_readimm16
  simp only []
  rw [if_pos hen, if_pos hmiss, if_neg hfi, if_neg herr]

theorem ic_line_word_eq (s : m68ki_cpu_core) (idx address : Nat) :
    ic_line_word s idx address =
      if address &&& 2 = 0 then s.ic_data idx >>> 16 else s.ic_data idx &&& 0xffff := by
  unfold ic_line_word
  by_cases h : address &&& 2 = 0
  · rw [if_neg (not_not.mpr h), if_pos h]
  · rw [if_pos h, if_neg h]

theorem read_immediate_16_program (cfg : Config) (s : m68ki_cpu_core) (a : Nat)
    (hsep : cfg.M68K_SEPARATE_READS = false) :
    m68k_read_immediate_16 cfg s a = m68ki_read_program_16 cfg s a := by
  unfold m68k_read_immediate_16
  rw [hsep]
  rfl

/-! ## Illegal instructions -/

/-- The state after illegal-instruction processing that the callback did not
take over: a format-0 frame with the previous PC on the supervisor stack,
then the fetch of vector 4. -/
theorem exception_illegal_obs (cfg : Config) (s : m68ki_cpu_core)
    (hp : s.pmmu_enabled = 0) (hcb : cfg.m68ki_illg_callback s.ir = 0) :
    (m68ki_exception_illegal cfg s).dar 15 =
      sub32 (supervisor_sp s) (if s.cpu_type = CPU_TYPE_000 then 6 else 8) ∧
    (m68ki_exception_illegal cfg s).mem =
      (if s.cpu_type = CPU_TYPE_000 then
        mem_write_16 (mem_write_32 s.mem
          (sub32 (supervisor_sp s) 4 &&& s.address_mask) s.ppc)
          (sub32 (supervisor_sp s) 6 &&& s.address_mask) (m68ki_get_sr s)
      else
        mem_write_16 (mem_write_32 (mem_write_16 s.mem
          (sub32 (supervisor_sp s) 2 &&& s.address_mask)
            (shl32 EXCEPTION_ILLEGAL_INSTRUCTION 2))
          (sub32 (supervisor_sp s) 6 &&& s.address_mask) s.ppc)
          (sub32 (supervisor_sp s) 8 &&& s.address_mask) (m68ki_get_sr s)) ∧
    (m68ki_exception_illegal cfg s).bus =
      s.bus ++
        (if s.cpu_type = CPU_TYPE_000 then
          [BusEvent.write32 (sub32 (supervisor_sp s) 4 &&& s.address_mask) s.ppc,
           BusEvent.write16 (sub32 (supervisor_sp s) 6 &&& s.address_mask) (m68ki_get_sr s)]
        else
          [BusEvent.write16 (sub32 (supervisor_sp s) 2 &&& s.address_mask)
             (shl32 EXCEPTION_ILLEGAL_INSTRUCTION 2),
           BusEvent.write32 (sub32 (supervisor_sp s) 6 &&& s.address_mask) s.ppc,
           BusEvent.write16 (sub32 (supervisor_sp s) 8 &&& s.address_mask) (m68ki_get_sr s)]) ++
        [BusEvent.ps_read32 (add32 (shl32 EXCEPTION_ILLEGAL_INSTRUCTION 2) s.vbr)] ∧
    (m68ki_exception_illegal cfg s).pc =
      mem_read_32 (m68ki_exception_illegal cfg s).mem
        (add32 (shl32 EXCEPTION_ILLEGAL_INSTRUCTION 2) s.vbr) ∧
    (m68ki_exception_illegal cfg s).s_flag = SFLAG_SET ∧
    (m68ki_exception_illegal cfg s).m68ki_remaining_cycles =
      s.m68ki_remaining_cycles -
        ((s.cyc_exception EXCEPTION_ILLEGAL_INSTRUCTION : Int) - (s.cyc_instruction s.ir : Int)) := by
  unfold m68ki_exception_illegal
  rw [if_neg (not_not.mpr hcb)]
  by_cases ha : cfg.M68K_EMULATE_ADDRESS_ERROR = true ∧ CPU_TYPE_IS_000 s.cpu_type = true
  · simp only [m68ki_init_exception_eq, ha, and_self, ↓reduceIte, m68ki_stack_frame_0000_eq, hp,
      m68ki_jump_vector_eq, USE_CYCLES, Function.update_same, supervisor_sp_eq]
  · simp only [m68ki_init_exception_eq, ha, ↓reduceIte, m68ki_stack_frame_0000_eq, hp,
      m68ki_jump_vector_eq, USE_CYCLES, Function.update_same, supervisor_sp_eq, and_self]

/-! ## The halted CPU -/

theorem halt_bit_kept (x : Nat) :
    (x &&& not32 STOP_LEVEL_STOP) &&& STOP_LEVEL_HALT = x &&& STOP_LEVEL_HALT := by
  rw [Nat.land_assoc]
  have h : not32 STOP_LEVEL_STOP &&& STOP_LEVEL_HALT = STOP_LEVEL_HALT := by decide
  rw [h]

theorem halted_entry_stopped (cfg : Config) (s : m68ki_cpu_core)
    (hhalt : s.stopped &&& STOP_LEVEL_HALT ≠ 0) : (interrupt_entry cfg s).stopped ≠ 0 := by
  rw [interrupt_entry_eq]
  intro h0
  apply hhalt
  rw [← halt_bit_kept]
  show (s.stopped &&& not32 STOP_LEVEL_STOP) &&& STOP_LEVEL_HALT = 0
  have h1 : s.stopped &&& not32 STOP_LEVEL_STOP = 0 := h0
  rw [h1]
  exact Nat.zero_and _

/-- A halted CPU leaves m68ki_exception_interrupt right after the head. -/
theorem exception_interrupt_halted (cfg : Config) (s : m68ki_cpu_core) (lvl : Nat)
    (hhalt : s.stopped &&& STOP_LEVEL_HALT ≠ 0) :
    m68ki_exception_interrupt cfg s lvl = interrupt_entry cfg s := by
  unfold m68ki_exception_interrupt
  simp only []
  rw [if_pos (halted_entry_stopped cfg s hhalt)]

theorem interrupt_entry_halted_obs (cfg : Config) (s : m68ki_cpu_core)
    (hhalt : s.stopped &&& STOP_LEVEL_HALT ≠ 0) :
    (interrupt_entry cfg s).stopped &&& STOP_LEVEL_HALT ≠ 0 ∧
    processing_view (interrupt_entry cfg s) = processing_view s := by
  rw [interrupt_entry_eq]
  refine ⟨?_, rfl⟩
  show (s.stopped &&& not32 STOP_LEVEL_STOP) &&& STOP_LEVEL_HALT ≠ 0
  rw [halt_bit_kept]
  exact hhalt

/-- The stop state after m68ki_exception_interrupt: only STOP is cleared. -/
theorem exception_interrupt_stopped (cfg : Config) (s : m68ki_cpu_core) (lvl : Nat)
    (hp : s.pmmu_enabled = 0) :
    (m68ki_exception_interrupt cfg s lvl).stopped = s.stopped &&& not32 STOP_LEVEL_STOP := by
  have he : (interrupt_entry cfg s).stopped = s.stopped &&& not32 STOP_LEVEL_STOP := by
    rw [interrupt_entry_eq]
  have hpe : (interrupt_entry cfg s).pmmu_enabled = 0 := by
    rw [interrupt_entry_eq]
    exact hp
  rw [← he]
  unfold m68ki_exception_interrupt
  simp only []
  generalize interrupt_entry cfg s = e at hpe
  by_cases h0 : e.stopped ≠ 0
  · rw [if_pos h0]
  · rw [if_neg h0]
    have hproc : ∀ (t : m68ki_cpu_core) (L : Nat), t.pmmu_enabled = 0 → t.stopped = e.stopped →
        (match interrupt_vector cfg (m68ki_int_ack cfg t L).1 L with
          | none => (m68ki_int_ack cfg t L).2
          | some vector => interrupt_process cfg (m68ki_int_ack cfg t L).2 L vector).stopped =
          e.stopped := by
      intro t L hpt hst
      have hp2 : (m68ki_int_ack cfg t L).2.pmmu_enabled = 0 := by
        rw [m68ki_int_ack_eq]
        exact hpt
      have hs2 : (m68ki_int_ack cfg t L).2.stopped = e.stopped := by
        rw [m68ki_int_ack_eq]
        exact hst
      cases interrupt_vector cfg (m68ki_int_ack cfg t L).1 L with
      | none => exact hs2
      | some X => exact (interrupt_process_flags cfg _ L X hp2).2.2.2.2.1.trans hs2
    unfold interrupt_level
    by_cases hn : e.nmi_pending ≠ 0
    · rw [if_pos hn]
      exact hproc _ 7 hpe rfl
    · rw [if_neg hn]
      by_cases hg : e.int_level > e.int_mask
      · rw [if_pos hg]
        exact hproc _ _ hpe rfl
      · rw [if_neg hg]

/-- The stop state after m68ki_exception_trace: only STOP is cleared. -/
theorem exception_trace_stopped (cfg : Config) (s : m68ki_cpu_core)
    (hp : s.pmmu_enabled = 0) :
    (m68ki_exception_trace cfg s).stopped = s.stopped &&& not32 STOP_LEVEL_STOP := by
  unfold m68ki_exception_trace
  by_cases hl : CPU_TYPE_IS_010_LESS s.cpu_type ≠ 0 <;>
  by_cases ha : cfg.M68K_EMULATE_ADDRESS_ERROR = true ∧ CPU_TYPE_IS_000 s.cpu_type = true <;>
  simp only [m68ki_init_exception_eq, hl, ha, and_self, ↓reduceIte, m68ki_stack_frame_0000_eq,
    m68ki_stack_frame_0010_eq, hp, m68ki_jump_vector_eq, USE_CYCLES, not_false_eq_true,
    ne_eq, not_true_eq_false]

/-! ## The throwaway frame of an interrupt -/

theorem isp_after_master (sp : Nat → Nat) (k a v : Nat) (hk : k ≠ 4) :
    Function.update (Function.update sp k a) 6 v 4 = sp 4 := by
  rw [Function.update_noteq (by decide), Function.update_noteq hk.symm]

/-- Interrupt processing with M set on a 68EC020 or later: the format-0 frame
on the master stack, the switch to the interrupt stack, the format-1 frame. -/
theorem interrupt_process_master (cfg : Config) (t : m68ki_cpu_core) (L X : Nat)
    (hp : t.pmmu_enabled = 0)
    (hS : t.s_flag = 0 ∨ t.s_flag = SFLAG_SET) (hM : t.m_flag = MFLAG_SET)
    (hcpu : CPU_TYPE_IS_EC020_PLUS t.cpu_type ≠ 0) :
    (interrupt_process cfg t L X).bus =
      t.bus ++
        (BusEvent.read32 (add32 (shl32 X 2) t.vbr &&& t.address_mask) ::
          (if mem_read_32 t.mem (add32 (shl32 X 2) t.vbr &&& t.address_mask) = 0 then
            [BusEvent.read32
              (add32 (shl32 EXCEPTION_UNINITIALIZED_INTERRUPT 2) t.vbr &&& t.address_mask)]
          else [])) ++
        [BusEvent.write16 (sub32 (supervisor_sp t) 2 &&& t.address_mask) (shl32 X 2),
         BusEvent.write32 (sub32 (supervisor_sp t) 6 &&& t.address_mask) t.pc,
         BusEvent.write16 (sub32 (supervisor_sp t) 8 &&& t.address_mask) (m68ki_get_sr t)] ++
        [BusEvent.write16 (sub32 (t.sp 4) 2 &&& t.address_mask) (0x1000 ||| shl32 X 2),
         BusEvent.write32 (sub32 (t.sp 4) 6 &&& t.address_mask) t.pc,
         BusEvent.write16 (sub32 (t.sp 4) 8 &&& t.address_mask) (m68ki_get_sr t ||| 0x2000)] ∧
    (interrupt_process cfg t L X).m_flag = 0 ∧
    (interrupt_process cfg t L X).s_flag = SFLAG_SET ∧
    (interrupt_process cfg t L X).dar 15 = sub32 (t.sp 4) 8 ∧
    (interrupt_process cfg t L X).sp 6 = sub32 (supervisor_sp t) 8 := by
  have hc : ¬ (t.cpu_type = CPU_TYPE_000) := by
    intro h
    rw [h] at hcpu
    exact hcpu (by decide)
  have hm : t.m_flag ≠ 0 ∧ CPU_TYPE_IS_EC020_PLUS t.cpu_type ≠ 0 := by
    refine ⟨?_, hcpu⟩
    rw [hM]
    decide
  have hk : sp_index t.s_flag MFLAG_SET ≠ 4 := by
    rcases hS with h | h <;> rw [h] <;> decide
  have e6 : sp_index 4 MFLAG_SET = 6 := by decide
  have e4 : sp_index (4 &&& 4) (4 &&& MFLAG_SET) = 4 := by decide
  have e0 : (4 : Nat) &&& MFLAG_SET = 0 := by decide
  unfold interrupt_process
  simp only [m68ki_init_exception_eq, m68ki_read_data_32_eq, hp, supervisor_sp_eq]
  by_cases hz : mem_read_32 t.mem (add32 (shl32 X 2) t.vbr &&& t.address_mask) = 0 <;>
  by_cases ha : cfg.M68K_EMULATE_INT_ACK <;>
  simp only [hz, hc, hm, ha, ↓reduceIte, Bool.false_eq_true, m68ki_stack_frame_0000_eq_000,
    m68ki_stack_frame_0000_eq_010, m68ki_stack_frame_0001_eq, m68ki_set_sm_flag_eq,
    m68ki_jump, USE_CYCLES, not_false_eq_true, and_self, SFLAG_SET, Nat.and_self, ne_eq,
    CPU_TYPE_IS_EC020_PLUS_000, not_true_eq_false, and_false, Function.update_same,
    Nat.reduceLeDiff, Nat.reduceSub, List.append_assoc, List.cons_append,
    List.nil_append, List.singleton_append]
  all_goals rw [hM]
  all_goals rw [e6, e4, isp_after_master _ _ _ _ hk]
  all_goals simp only [Function.update_same, and_self]
  all_goals exact ⟨trivial, e0, trivial⟩

/-- Interrupt processing with M clear, or on a CPU before the 68EC020: the
format-0 frame is the only one, and M stays. -/
theorem interrupt_process_single (cfg : Config) (t : m68ki_cpu_core) (L X : Nat)
    (hp : t.pmmu_enabled = 0)
    (hm : ¬ (t.m_flag ≠ 0 ∧ CPU_TYPE_IS_EC020_PLUS t.cpu_type ≠ 0)) :
    (interrupt_process cfg t L X).bus =
      t.bus ++
        (BusEvent.read32 (add32 (shl32 X 2) t.vbr &&& t.address_mask) ::
          (if mem_read_32 t.mem (add32 (shl32 X 2) t.vbr &&& t.address_mask) = 0 then
            [BusEvent.read32
              (add32 (shl32 EXCEPTION_UNINITIALIZED_INTERRUPT 2) t.vbr &&& t.address_mask)]
          else [])) ++
        (if t.cpu_type = CPU_TYPE_000 then
          [BusEvent.write32 (sub32 (supervisor_sp t) 4 &&& t.address_mask) t.pc,
           BusEvent.write16 (sub32 (supervisor_sp t) 6 &&& t.address_mask) (m68ki_get_sr t)]
        else
          [BusEvent.write16 (sub32 (supervisor_sp t) 2 &&& t.address_mask) (shl32 X 2),
           BusEvent.write32 (sub32 (supervisor_sp t) 6 &&& t.address_mask) t.pc,
           BusEvent.write16 (sub32 (supervisor_sp t) 8 &&& t.address_mask) (m68ki_get_sr t)]) ∧
    (interrupt_process cfg t L X).m_flag = t.m_flag ∧
    (interrupt_process cfg t L X).s_flag = SFLAG_SET ∧
    (interrupt_process cfg t L X).dar 15 =
      sub32 (supervisor_sp t) (if t.cpu_type = CPU_TYPE_000 then 6 else 8) := by
  unfold interrupt_process
  simp only [m68ki_init_exception_eq, m68ki_read_data_32_eq, hp, supervisor_sp_eq]
  by_cases hz : mem_read_32 t.mem (add32 (shl32 X 2) t.vbr &&& t.address_mask) = 0 <;>
  by_cases hc : t.cpu_type = CPU_TYPE_000 <;>
  by_cases ha : cfg.M68K_EMULATE_INT_ACK <;>
  simp only [hz, hc, hm, ha, ↓reduceIte, Bool.false_eq_true, m68ki_stack_frame_0000_eq_000,
    m68ki_stack_frame_0000_eq_010, m68ki_jump, USE_CYCLES, not_false_eq_true, and_self,
    SFLAG_SET, ne_eq, CPU_TYPE_IS_EC020_PLUS_000, not_true_eq_false, and_false,
    Function.update_same, List.append_assoc, List.cons_append, List.nil_append,
    List.singleton_append]

/-! ## The switch of the 68000 bus error frame -/

/-- The frame of m68ki_stack_frame_buserr: the stack correction of the JSR
cases, then five pushes from the corrected A7 `B`. -/
theorem buserr_frame_obs (cfg : Config) (s : m68ki_cpu_core) (sr B : Nat)
    (hp : s.pmmu_enabled = 0)
    (hB : B = if (s.ir = 0x4Eb9 ∨ s.ir = 0x4E90 ∨ s.ir = 0x4Ea8) ∧ sr &&& 0x2000 ≠ 0
              then add32 (s.dar 15) 4 else s.dar 15) :
    (m68ki_stack_frame_buserr cfg s sr).dar 15 = sub32 B 14 ∧
    (m68ki_stack_frame_buserr cfg s sr).sp =
      (if (s.ir = 0x4Eb9 ∨ s.ir = 0x4E90 ∨ s.ir = 0x4Ea8) ∧ sr &&& 0x2000 = 0
        then Function.update s.sp 0 (add32 (s.sp 0) 4) else s.sp) ∧
    (m68ki_stack_frame_buserr cfg s sr).bus = s.bus ++
      [BusEvent.write32 (sub32 B 4 &&& s.address_mask) (buserr_stacked_pc s sr).1,
       BusEvent.write16 (sub32 B 6 &&& s.address_mask) sr,
       BusEvent.write16 (sub32 B 8 &&& s.address_mask) s.ir,
       BusEvent.write32 (sub32 B 12 &&& s.address_mask) s.m68ki_aerr_address,
       BusEvent.write16 (sub32 B 14 &&& s.address_mask)
         (s.m68ki_aerr_write_mode ||| s.instr_mode ||| s.m68ki_aerr_fc)] := by
  rw [m68ki_stack_frame_buserr_eq _ _ _ (by rw [buserr_stacked_pc_snd]; split_ifs <;> exact hp)]
  rw [buserr_stacked_pc_snd]
  by_cases hj : s.ir = 0x4Eb9 ∨ s.ir = 0x4E90 ∨ s.ir = 0x4Ea8 <;>
  by_cases hs : sr &&& 0x2000 = 0 <;>
  simp only [hj, hs, and_self, and_false, false_and, not_false_eq_true, not_true_eq_false,
    ↓reduceIte, ne_eq, true_and, and_true] at hB <;>
  subst hB <;>
  simp only [hj, hs, ↓reduceIte, ne_eq, not_false_eq_true, not_true_eq_false,
    Function.update_same, and_self, List.append_assoc, List.singleton_append,
    List.cons_append, List.nil_append, true_and, and_true, false_and, and_false]

/-! ## The cycle counter across the immediate reads -/

theorem cyc_read_immediate_16 (cfg : Config)
    (hi16 : ∀ t a, (cfg.m68k_read_immediate_16 t a).2.m68ki_remaining_cycles =
      t.m68ki_remaining_cycles)
    (s : m68ki_cpu_core) (a : Nat) :
    (m68k_read_immediate_16 cfg s a).2.m68ki_remaining_cycles = s.m68ki_remaining_cycles := by
  unfold m68k_read_immediate_16
  split_ifs
  · exact hi16 s a
  · rfl

theorem cyc_read_immediate_32 (cfg : Config)
    (hi32 : ∀ t a, (cfg.m68k_read_immediate_32 t a).2.m68ki_remaining_cycles =
      t.m68ki_remaining_cycles)
    (s : m68ki_cpu_core) (a : Nat) :
    (m68k_read_immediate_32 cfg s a).2.m68ki_remaining_cycles = s.m68ki_remaining_cycles := by
  unfold m68k_read_immediate_32
  split_ifs
  · exact hi32 s a
  · rfl

theorem cyc_ic_readimm16 (cfg : Config)
    (hi16 : ∀ t a, (cfg.m68k_read_immediate_16 t a).2.m68ki_remaining_cycles =
      t.m68ki_remaining_cycles)
    (s : m68ki_cpu_core) (a : Nat) :
    (m68ki_ic_readimm16 cfg s a).2.m68ki_remaining_cycles = s.m68ki_remaining_cycles := by
  unfold m68ki_ic_readimm16
  dsimp only
  split_ifs <;>
    first
    | rfl
    | exact (cyc_read_immediate_16 cfg hi16 _ a).trans rfl

theorem cyc_read_imm_32 (cfg : Config)
    (hi16 : ∀ t a, (cfg.m68k_read_immediate_16 t a).2.m68ki_remaining_cycles =
      t.m68ki_remaining_cycles)
    (hi32 : ∀ t a, (cfg.m68k_read_immediate_32 t a).2.m68ki_remaining_cycles =
      t.m68ki_remaining_cycles)
    (s : m68ki_cpu_core) :
    (m68ki_read_imm_32 cfg s).2.m68ki_remaining_cycles = s.m68ki_remaining_cycles := by
  unfold m68ki_read_imm_32
  simp only []
  split
  · rfl
  · by_cases hpre : cfg.M68K_EMULATE_PREFETCH = true
    · rw [if_pos hpre]
      refine (cyc_ic_readimm16 cfg hi16 _ _).trans ?_
      refine (cyc_ic_readimm16 cfg hi16 _ _).trans ?_
      by_cases hne : s.pc ≠ s.pref_addr
      · rw [if_pos hne]
        exact cyc_ic_readimm16 cfg hi16 _ _
      · rw [if_neg hne]
    · rw [if_neg hpre]
      exact (cyc_read_immediate_32 cfg hi32 _ _).trans rfl

/-- The cycle counter after m68ki_get_ea_ix, relative to the counter after
the fetch of the extension word. -/
theorem cyc_get_ea_ix (cfg : Config)
    (hslow : ∀ t pc, (cfg.m68ki_read_imm16_addr_slowpath t pc).2.m68ki_remaining_cycles =
      t.m68ki_remaining_cycles)
    (hi16 : ∀ t a, (cfg.m68k_read_immediate_16 t a).2.m68ki_remaining_cycles =
      t.m68ki_remaining_cycles)
    (hi32 : ∀ t a, (cfg.m68k_read_immediate_32 t a).2.m68ki_remaining_cycles =
      t.m68ki_remaining_cycles)
    (s : m68ki_cpu_core) (An : Nat) :
    (m68ki_get_ea_ix cfg s An).2.m68ki_remaining_cycles =
      if CPU_TYPE_IS_010_LESS (m68ki_read_imm_16 cfg s).2.cpu_type ≠ 0 then
        s.m68ki_remaining_cycles
      else if BIT_8 (m68ki_read_imm_16 cfg s).1 = 0 then s.m68ki_remaining_cycles
      else s.m68ki_remaining_cycles -
        (cfg.m68ki_ea_idx_cycle_table ((m68ki_read_imm_16 cfg s).1 &&& 0x3f) : Int) := by
  have h16 : ∀ t : m68ki_cpu_core,
      (m68ki_read_imm_16 cfg t).2.m68ki_remaining_cycles = t.m68ki_remaining_cycles :=
    fun t => hslow t t.pc
  have h32 := cyc_read_imm_32 cfg hi16 hi32
  have hr : ∀ (t : m68ki_cpu_core) (a : Nat),
      (m68ki_read_32 cfg t a).2.m68ki_remaining_cycles = t.m68ki_remaining_cycles :=
    fun t a => rfl
  have hu : ∀ (t : m68ki_cpu_core) (n : Int),
      (USE_CYCLES t n).m68ki_remaining_cycles = t.m68ki_remaining_cycles - n := fun t n => rfl
  have hd : ∀ (c1 c2 : Prop) [Decidable c1] [Decidable c2] (t : m68ki_cpu_core),
      (if c1 then if c2 then m68ki_read_imm_32 cfg t
        else (to_uint (MAKE_INT_16 (m68ki_read_imm_16 cfg t).1), (m68ki_read_imm_16 cfg t).2)
       else (0, t)).2.m68ki_remaining_cycles = t.m68ki_remaining_cycles := by
    intro c1 c2 _ _ t
    split_ifs
    · exact h32 t
    · exact h16 t
    · rfl
  unfold m68ki_get_ea_ix
  simp only []
  by_cases hl : CPU_TYPE_IS_010_LESS (m68ki_read_imm_16 cfg s).2.cpu_type ≠ 0
  · rw [if_pos hl, if_pos hl]
    exact h16 s
  rw [if_neg hl, if_neg hl]
  by_cases h8 : BIT_8 (m68ki_read_imm_16 cfg s).1 = 0
  · rw [if_pos h8, if_pos h8]
    exact h16 s
  rw [if_neg h8, if_neg h8]
  have hfull : ∀ t : m68ki_cpu_core,
      t.m68ki_remaining_cycles =
        (USE_CYCLES (m68ki_read_imm_16 cfg s).2
          (cfg.m68ki_ea_idx_cycle_table ((m68ki_read_imm_16 cfg s).1 &&& 0x3f))).m68ki_remaining_cycles →
      t.m68ki_remaining_cycles = s.m68ki_remaining_cycles -
        (cfg.m68ki_ea_idx_cycle_table ((m68ki_read_imm_16 cfg s).1 &&& 0x3f) : Int) := by
    intro t ht
    rw [ht, hu, h16]
  by_cases h7 : (m68ki_read_imm_16 cfg s).1 &&& 7 = 0
  · rw [if_pos h7]
    exact hfull _ (hd _ _ _)
  rw [if_neg h7]
  by_cases h2 : BIT_2 (m68ki_read_imm_16 cfg s).1 ≠ 0
  · rw [if_pos h2]
    exact hfull _ ((hr _ _).trans ((hd _ _ _).trans (hd _ _ _)))
  · rw [if_neg h2]
    exact hfull _ ((hr _ _).trans ((hd _ _ _).trans (hd _ _ _)))

/-! ## The base of every stack frame -/

theorem and_ffffffff (x : Nat) : x &&& 0xffffffff = x % 0x100000000 :=
  Nat.and_pow_two_sub_one_eq_mod x 32

/-- The SR word at the frame base does not reach the PC long above it. -/
theorem base_slots_disjoint (A n m : Nat) (hn : 2 ≤ n) (hb : n ≤ 0x10000)
    (hmask : m = 0x00ffffff ∨ m = 0xffffffff) :
    (sub32 A n &&& m) + 1 < (sub32 A (n - 2) &&& m) ∨
    (sub32 A (n - 2) &&& m) + 3 < (sub32 A n &&& m) := by
  rcases hmask with h | h <;> rw [h]
  · rw [and_ffffff, and_ffffff]
    unfold sub32
    omega
  · rw [and_ffffffff, and_ffffffff]
    unfold sub32
    omega

/-- A frame whose last two pushes are the PC and the SR. -/
theorem frame_built_of_eq (s F : m68ki_cpu_core) (n pc sr : Nat) (M : Nat → Nat)
    (w : List BusEvent)
    (hmask : s.address_mask = 0x00ffffff ∨ s.address_mask = 0xffffffff)
    (hn : 2 ≤ n ∧ n ≤ 0x10000)
    (hF : F =
      { s with
        dar := Function.update s.dar 15 (sub32 (s.dar 15) n)
        mem := mem_write_16 (mem_write_32 M (sub32 (s.dar 15) (n - 2) &&& s.address_mask) pc)
          (sub32 (s.dar 15) n &&& s.address_mask) sr
        bus := s.bus ++ w })
    (hw : w.drop (w.length - 2) =
      [BusEvent.write32 (sub32 (s.dar 15) (n - 2) &&& s.address_mask) pc,
       BusEvent.write16 (sub32 (s.dar 15) n &&& s.address_mask) sr]) :
    frame_built s F n pc sr := by
  subst hF
  have e2 : add32 (sub32 (s.dar 15) n) 2 = sub32 (s.dar 15) (n - 2) :=
    add32_sub32 _ n 2 hn.1 (by omega)
  unfold frame_built ADDRESS_68K
  simp only [Function.update_same, e2]
  refine ⟨trivial, ⟨w.take (w.length - 2), ?_⟩, mem_read_16_write_16_same _ _ _, ?_⟩
  · rw [List.append_assoc, ← hw, List.take_append_drop]
  · rw [mem_read_32_write_16_disjoint _ _ _ _
      (base_slots_disjoint (s.dar 15) n s.address_mask hn.1 hn.2 hmask)]
    exact mem_read_32_write_32_same _ _ _

/-- Format 8: the PC and the SR are the last two pushes. -/
theorem m68ki_stack_frame_1000_tail (cfg : Config) (s : m68ki_cpu_core) (pc sr vector : Nat)
    (hp : s.pmmu_enabled = 0) :
    ∃ M w, m68ki_stack_frame_1000 cfg s pc sr vector =
        { s with
          dar := Function.update s.dar 15 (sub32 (s.dar 15) 58)
          mem := mem_write_16 (mem_write_32 M (sub32 (s.dar 15) 56 &&& s.address_mask) pc)
            (sub32 (s.dar 15) 58 &&& s.address_mask) sr
          bus := s.bus ++ w } ∧
      w.drop (w.length - 2) =
        [BusEvent.write32 (sub32 (s.dar 15) 56 &&& s.address_mask) pc,
         BusEvent.write16 (sub32 (s.dar 15) 58 &&& s.address_mask) sr] := by
  refine ⟨?M, ?w, ?_, ?_⟩
  case refine_1 =>
    unfold m68ki_stack_frame_1000
    simp only [m68ki_push_32_eq, m68ki_push_16_eq, m68ki_fake_push_32_eq, m68ki_fake_push_16_eq,
      hp, Function.update_same, Function.update_idem, sub32_sub32, List.append_assoc,
      List.singleton_append, List.cons_append, List.nil_append, Nat.reduceAdd, Nat.reduceLeDiff]
    exact rfl
  case refine_2 => exact rfl

/-- Format A: the PC and the SR are the last two pushes. -/
theorem m68ki_stack_frame_1010_tail (cfg : Config) (s : m68ki_cpu_core)
    (sr vector pc fault_address : Nat) (hp : s.pmmu_enabled = 0) :
    ∃ M w, m68ki_stack_frame_1010 cfg s sr vector pc fault_address =
        { s with
          dar := Function.update s.dar 15 (sub32 (s.dar 15) 32)
          mem := mem_write_16 (mem_write_32 M (sub32 (s.dar 15) 30 &&& s.address_mask) pc)
            (sub32 (s.dar 15) 32 &&& s.address_mask) sr
          bus := s.bus ++ w } ∧
      w.drop (w.length - 2) =
        [BusEvent.write32 (sub32 (s.dar 15) 30 &&& s.address_mask) pc,
         BusEvent.write16 (sub32 (s.dar 15) 32 &&& s.address_mask) sr] := by
  refine ⟨?M, ?w, ?_, ?_⟩
  case refine_1 =>
    unfold m68ki_stack_frame_1010
    simp only [m68ki_push_32_eq, m68ki_push_16_eq,
      hp, Function.update_same, Function.update_idem, sub32_sub32, List.append_assoc,
      List.singleton_append, List.cons_append, List.nil_append, Nat.reduceAdd, Nat.reduceLeDiff]
    exact rfl
  case refine_2 => exact rfl

/-- Format B: the PC and the SR are the last two pushes. -/
theorem m68ki_stack_frame_1011_tail (cfg : Config) (s : m68ki_cpu_core)
    (sr vector pc fault_address : Nat) (hp : s.pmmu_enabled = 0) :
    ∃ M w, m68ki_stack_frame_1011 cfg s sr vector pc fault_address =
        { s with
          dar := Function.update s.dar 15 (sub32 (s.dar 15) 92)
          mem := mem_write_16 (mem_write_32 M (sub32 (s.dar 15) 90 &&& s.address_mask) pc)
            (sub32 (s.dar 15) 92 &&& s.address_mask) sr
          bus := s.bus ++ w } ∧
      w.drop (w.length - 2) =
        [BusEvent.write32 (sub32 (s.dar 15) 90 &&& s.address_mask) pc,
         BusEvent.write16 (sub32 (s.dar 15) 92 &&& s.address_mask) sr] := by
  refine ⟨?M, ?w, ?_, ?_⟩
  case refine_1 =>
    unfold m68ki_stack_frame_1011
    simp only [m68ki_push_32_eq, m68ki_push_16_eq,
      hp, Function.update_same, Function.update_idem, sub32_sub32, List.append_assoc,
      List.singleton_append, List.cons_append, List.nil_append, Nat.reduceAdd, Nat.reduceLeDiff]
    exact rfl
  case refine_2 => exact rfl

/-- Format 7: 60 bytes, and the PC and the SR are the last two pushes. -/
theorem m68ki_stack_frame_0111_tail (cfg : Config) (s : m68ki_cpu_core)
    (sr vector pc fault_address in_mmu : Nat) (hp : s.pmmu_enabled = 0) :
    ∃ M w, m68ki_stack_frame_0111 cfg s sr vector pc fault_address in_mmu =
        { s with
          dar := Function.update s.dar 15 (sub32 (s.dar 15) 60)
          mem := mem_write_16 (mem_write_32 M (sub32 (s.dar 15) 58 &&& s.address_mask) pc)
            (sub32 (s.dar 15) 60 &&& s.address_mask) sr
          bus := s.bus ++ w } ∧
      w.drop (w.length - 2) =
        [BusEvent.write32 (sub32 (s.dar 15) 58 &&& s.address_mask) pc,
         BusEvent.write16 (sub32 (s.dar 15) 60 &&& s.address_mask) sr] := by
  refine ⟨?M, ?w, ?_, ?_⟩
  case refine_1 =>
    unfold m68ki_stack_frame_0111
    simp only [m68ki_push_32_eq, m68ki_push_16_eq,
      hp, Function.update_same, Function.update_idem, sub32_sub32, List.append_assoc,
      List.singleton_append, List.cons_append, List.nil_append, Nat.reduceAdd, Nat.reduceLeDiff]
    exact rfl
  case refine_2 => exact rfl

/-! ## The key of a cache line -/

theorem or_bit24 (x : Nat) (h : x < 0x1000000) : x ||| 0x1000000 = 0x1000000 + x := by
  have e := Nat.mul_add_lt_is_or (show x < 2 ^ 24 from h) 1
  rw [Nat.lor_comm]
  exact e.symm

theorem and_not_3 (a : Nat) (ha : a < 0x100000000) : a &&& not32 3 = (a >>> 2) <<< 2 := by
  show a &&& 0xFFFFFFFC = (a >>> 2) <<< 2
  apply Nat.eq_of_testBit_eq
  intro i
  rw [Nat.testBit_and, Nat.testBit_shiftLeft, Nat.testBit_shiftRight]
  by_cases h2 : 2 ≤ i
  · have e : 2 + (i - 2) = i := by omega
    rw [e]
    by_cases h32 : i < 32
    · have hm : (0xFFFFFFFC : Nat).testBit i = true := by
        interval_cases i <;> decide
      rw [hm]
      simp only [Bool.and_true, ge_iff_le, h2, decide_True, Bool.true_and]
    · have hle : (2 : Nat) ^ 32 ≤ 2 ^ i := Nat.pow_le_pow_right (by decide) (by omega)
      have hz : a.testBit i = false := Nat.testBit_lt_two_pow (Nat.lt_of_lt_of_le ha hle)
      rw [hz]
      simp only [Bool.false_and, Bool.and_false]
  · have hm : (0xFFFFFFFC : Nat).testBit i = false := by
      interval_cases i <;> decide
    rw [hm]
    simp only [Bool.and_false, ge_iff_le, h2, decide_False, Bool.false_and]

/-- The tag of a 32-bit address as a sum: the address without its low byte,
plus 2^24 in supervisor state. -/
theorem ic_tag_eq (s : m68ki_cpu_core) (a : Nat) (ha : a < 0x100000000) :
    ic_tag s a = (if s.s_flag ≠ 0 then 0x1000000 else 0) + a / 0x100 := by
  have h24 : a >>> 8 < 0x1000000 := by
    rw [Nat.shiftRight_eq_div_pow]
    omega
  unfold ic_tag
  by_cases hs : s.s_flag ≠ 0
  · rw [if_pos hs, or_bit24 _ h24, Nat.shiftRight_eq_div_pow]
  · rw [if_neg hs, Nat.or_zero, Nat.shiftRight_eq_div_pow, Nat.zero_add]

theorem ic_idx_eq (a : Nat) : ic_idx a = a / 4 % 64 := by
  unfold ic_idx
  rw [Nat.shiftRight_eq_div_pow]
  exact Nat.and_pow_two_sub_one_eq_mod _ 6

/-- No tag of a 32-bit address is the tag that m68ki_ic_clear stores. -/
theorem ic_tag_ne_cleared (s : m68ki_cpu_core) (a : Nat) (ha : a < 0x100000000) :
    ic_tag s a ≠ 0xffffffff := by
  rw [ic_tag_eq s a ha]
  split_ifs <;> omega

theorem ic_clear_line (s : m68ki_cpu_core) (a : Nat) :
    (m68ki_ic_clear s).ic_address (ic_idx a) = 0xffffffff := by
  have hidx : ic_idx a < M68K_IC_SIZE :=
    Nat.lt_of_le_of_lt Nat.and_le_right (by decide)
  show (if ic_idx a < M68K_IC_SIZE then 0xffffffff else s.ic_address (ic_idx a)) = 0xffffffff
  rw [if_pos hidx]

/-! ## The uninitialized-interrupt vector -/

/-- Interrupt processing when the vector fetched is zero: the two vector
reads, then the format-0 frame, which keeps the vector of the interrupt. -/
theorem interrupt_process_zero_vector (cfg : Config) (t : m68ki_cpu_core) (L X : Nat)
    (hp : t.pmmu_enabled = 0)
    (hz : mem_read_32 t.mem (add32 (shl32 X 2) t.vbr &&& t.address_mask) = 0) :
    ∃ post, (interrupt_process cfg t L X).bus =
      t.bus ++
        [BusEvent.read32 (add32 (shl32 X 2) t.vbr &&& t.address_mask),
         BusEvent.read32
           (add32 (shl32 EXCEPTION_UNINITIALIZED_INTERRUPT 2) t.vbr &&& t.address_mask)] ++
        spec_frame_0000 t (supervisor_sp t) t.pc (m68ki_get_sr t) X ++ post := by
  unfold interrupt_process spec_frame_0000
  simp only [m68ki_init_exception_eq, m68ki_read_data_32_eq, hp, supervisor_sp_eq]
  by_cases hc : t.cpu_type = CPU_TYPE_000 <;>
  by_cases hm : t.m_flag ≠ 0 ∧ CPU_TYPE_IS_EC020_PLUS t.cpu_type ≠ 0 <;>
  by_cases ha : cfg.M68K_EMULATE_INT_ACK <;>
  simp only [hz, hc, hm, ha, ↓reduceIte, Bool.false_eq_true, m68ki_stack_frame_0000_eq_000,
    m68ki_stack_frame_0000_eq_010, m68ki_stack_frame_0001_eq, m68ki_set_sm_flag_eq,
    m68ki_jump, USE_CYCLES, not_false_eq_true, and_self, SFLAG_SET, Nat.and_self, ne_eq,
    CPU_TYPE_IS_EC020_PLUS_000, not_true_eq_false, and_false, Function.update_same,
    List.append_assoc, List.cons_append, List.nil_append, List.singleton_append]
  all_goals
    first
    | exact ⟨[], rfl⟩
    | exact ⟨[_, _, _], rfl⟩

/-! ## Theorems -/

/-- C1: for every CPU state whose `sr_mask` selects implemented status
register bits only (it is declared as "Implemented status register bits", and
the ones the register has are 0xF71F), and every value `v`, the status register
read back by `m68ki_get_sr` after `m68ki_set_sr v` equals `v & sr_mask`. -/
theorem get_sr_set_sr (s : m68ki_cpu_core) (v : Nat)
    (hmask : s.sr_mask &&& 0xF71F = s.sr_mask) :
    m68ki_get_sr (m68ki_set_sr s v) = v &&& s.sr_mask := by
  unfold m68ki_set_sr
  rw [get_sr_set_sr_noint, Nat.and_assoc, hmask]

theorem get_sr_set_sr_witness :
    m68ki_get_sr (m68ki_set_sr sample_000 0xFFFF) = 0xFFFF &&& sample_000.sr_mask :=
  get_sr_set_sr sample_000 0xFFFF (by decide)

/-- C2: for every state with `s_flag` in {0,4} and `m_flag` in {0,2} and every
new (S,M) value in {0,2,4,6}, `m68ki_set_sm_flag` stores the previously live A7
in the bank slot `S | ((S>>1) & M)` of the old flags and then loads A7 from the
slot of the new flags; when the two slots differ the new A7 is what that slot
held before the call; no other slot changes; both slots lie inside `sp[7]`. -/
theorem set_sm_flag_swaps_banks (s : m68ki_cpu_core) (value : Nat)
    (hs : s.s_flag = 0 ∨ s.s_flag = 4) (hm : s.m_flag = 0 ∨ s.m_flag = 2)
    (hv : value = 0 ∨ value = 2 ∨ value = 4 ∨ value = 6) :
    (m68ki_set_sm_flag s value).sp (sp_index s.s_flag s.m_flag) = s.dar 15 ∧
    (m68ki_set_sm_flag s value).dar 15 =
      (m68ki_set_sm_flag s value).sp (sp_index (value &&& SFLAG_SET) (value &&& MFLAG_SET)) ∧
    (sp_index (value &&& SFLAG_SET) (value &&& MFLAG_SET) ≠ sp_index s.s_flag s.m_flag →
      (m68ki_set_sm_flag s value).dar 15 =
        s.sp (sp_index (value &&& SFLAG_SET) (value &&& MFLAG_SET))) ∧
    (∀ i, i ≠ sp_index s.s_flag s.m_flag → (m68ki_set_sm_flag s value).sp i = s.sp i) ∧
    (m68ki_set_sm_flag s value).s_flag = value &&& SFLAG_SET ∧
    (m68ki_set_sm_flag s value).m_flag = value &&& MFLAG_SET ∧
    sp_index s.s_flag s.m_flag < 7 ∧
    sp_index (value &&& SFLAG_SET) (value &&& MFLAG_SET) < 7 := by
  rw [m68ki_set_sm_flag_eq]
  refine ⟨?_, ?_, ?_, ?_, rfl, rfl, ?_, ?_⟩
  · simp only [Function.update_same]
  · simp only [Function.update_same]
  · intro hne
    simp only [Function.update_same, Function.update_noteq hne]
  · intro i hi
    simp only [Function.update_noteq hi]
  · rcases hs with h | h <;> rcases hm with h2 | h2 <;> rw [h, h2] <;> decide
  · rcases hv with h | h | h | h <;> rw [h] <;> decide

theorem set_sm_flag_swaps_banks_witness :
    (m68ki_set_sm_flag sample_000 4).dar 15 = 0x1000 ∧
    (m68ki_set_sm_flag sample_000 4).sp 0 = 0x8000 :=
  have h := set_sm_flag_swaps_banks sample_000 4 (by decide) (by decide) (by decide)
  ⟨(h.2.2.1 (by decide)).trans (by decide), h.1.trans (by decide)⟩

/-- C3, evaluated at the failing input `nmi_state` (NMI latched, level 7
asserted, interrupt mask 7, CPU running): `m68ki_check_interrupts` clears the
latch and then returns without asking the acknowledge callback, without
touching the bus, the stack pointer, PC or the S flag; the mask stays as it was
and no frame is pushed.  Called directly on the same state,
`m68ki_exception_interrupt` does acknowledge level 7. -/
theorem check_interrupts_drops_nmi :
    nmi_state.nmi_pending = 1 ∧ nmi_state.stopped = 0 ∧
    (m68ki_check_interrupts sample_cfg nmi_state).nmi_pending = 0 ∧
    (m68ki_check_interrupts sample_cfg nmi_state).bus = [] ∧
    (m68ki_check_interrupts sample_cfg nmi_state).int_mask = 0x0700 ∧
    (m68ki_check_interrupts sample_cfg nmi_state).pc = 0x400 ∧
    (m68ki_check_interrupts sample_cfg nmi_state).s_flag = 0 ∧
    (m68ki_check_interrupts sample_cfg nmi_state).dar 15 = 0x8000 ∧
    (m68ki_exception_interrupt sample_cfg nmi_state 7).bus.head? =
      some (BusEvent.int_ack 7) := by
  refine ⟨rfl, rfl, ?_, ?_, ?_, ?_, ?_, ?_, ?_⟩ <;> decide

/-- C4: with the NMI latch clear and `int_level` not above `int_mask` (equal
values included), `m68ki_check_interrupts` returns the state, host memory
included, unchanged.  With `int_level` above `int_mask` and the CPU not halted
(PMMU off) it services level `int_level >> 8`: that level is acknowledged, and
when the acknowledge yields a vector `X` the mask becomes that level, S is set,
the stopped state is off, `cyc_exception[X]` is charged, the vector is
fetched and the frame with PC and the old SR is written. -/
theorem check_interrupts_compares_level (cfg : Config) (s : m68ki_cpu_core) :
    (s.nmi_pending = 0 → s.int_level ≤ s.int_mask → m68ki_check_interrupts cfg s = s) ∧
    (s.int_level > s.int_mask → (s.stopped = 0 ∨ s.stopped = STOP_LEVEL_STOP) →
      s.pmmu_enabled = 0 →
      (cfg.M68K_EMULATE_INT_ACK = true →
        ∃ rest, (m68ki_check_interrupts cfg s).bus =
          s.bus ++ BusEvent.int_ack (s.int_level >>> 8) :: rest) ∧
      ∀ X, interrupt_vector cfg (m68ki_int_ack cfg s (s.int_level >>> 8)).1
          (s.int_level >>> 8) = some X →
        (m68ki_check_interrupts cfg s).int_mask = shl32 (s.int_level >>> 8) 8 ∧
        (m68ki_check_interrupts cfg s).s_flag = SFLAG_SET ∧
        (m68ki_check_interrupts cfg s).stopped = 0 ∧
        (m68ki_check_interrupts cfg s).m68ki_remaining_cycles =
          s.m68ki_remaining_cycles - s.cyc_exception X ∧
        ∃ pre post, (m68ki_check_interrupts cfg s).bus =
          s.bus ++ pre ++
            [BusEvent.write32
                (ADDRESS_68K s (add32 (sub32 (supervisor_sp s)
                  (if s.cpu_type = CPU_TYPE_000 then 6 else 8)) 2)) s.pc,
              BusEvent.write16
                (ADDRESS_68K s (sub32 (supervisor_sp s)
                  (if s.cpu_type = CPU_TYPE_000 then 6 else 8))) (m68ki_get_sr s)] ++ post) := by
  constructor
  · intro hn hle
    unfold m68ki_check_interrupts
    simp only [hn, ne_eq, not_true_eq_false, ↓reduceIte, gt_iff_lt, not_lt.mpr hle]
  · intro hgt hrun hp
    rw [check_interrupts_eq cfg s hrun hgt]
    have hpT : (interrupt_acknowledged cfg s (s.int_level >>> 8)).pmmu_enabled = 0 := hp
    constructor
    · intro hack
      cases hv : interrupt_vector cfg (m68ki_int_ack cfg s (s.int_level >>> 8)).1
          (s.int_level >>> 8) with
      | none =>
        refine ⟨[], ?_⟩
        simp only [interrupt_acknowledged, hack, ↓reduceIte]
      | some X =>
        obtain ⟨mid, post, hb⟩ := interrupt_process_bus cfg _ (s.int_level >>> 8) X hpT
        rw [hb]
        refine ⟨BusEvent.read32 (add32 (shl32 X 2) s.vbr &&& s.address_mask) ::
          (mid ++ [BusEvent.write32
                (ADDRESS_68K s (add32 (sub32 (supervisor_sp s)
                  (if s.cpu_type = CPU_TYPE_000 then 6 else 8)) 2)) s.pc,
              BusEvent.write16
                (ADDRESS_68K s (sub32 (supervisor_sp s)
                  (if s.cpu_type = CPU_TYPE_000 then 6 else 8))) (m68ki_get_sr s)] ++ post), ?_⟩
        simp only [interrupt_acknowledged, hack, ↓reduceIte, List.append_assoc,
          List.singleton_append, List.cons_append, List.nil_append]
        rfl
    · intro X hv
      rw [hv]
      obtain ⟨h1, h2, -, -, h5, h6, -⟩ :=
        interrupt_process_flags cfg _ (s.int_level >>> 8) X hpT
      obtain ⟨mid, post, hb⟩ := interrupt_process_bus cfg _ (s.int_level >>> 8) X hpT
      refine ⟨h1, h2, h5, h6, ?_⟩
      rw [hb]
      refine ⟨(if cfg.M68K_EMULATE_INT_ACK then [BusEvent.int_ack (s.int_level >>> 8)] else [])
        ++ BusEvent.read32 (add32 (shl32 X 2) s.vbr &&& s.address_mask) :: mid, post, ?_⟩
      simp only [interrupt_acknowledged, ADDRESS_68K, List.append_assoc, List.singleton_append,
        List.cons_append, List.nil_append]
      rfl

theorem check_interrupts_compares_level_witness :
    m68ki_check_interrupts sample_cfg level7_masked = level7_masked ∧
    (m68ki_check_interrupts sample_cfg sample_000).int_mask = 0x0500 :=
  ⟨(check_interrupts_compares_level sample_cfg level7_masked).1 (by decide) (by decide),
    (((check_interrupts_compares_level sample_cfg sample_000).2 (by decide) (by decide)
      (by decide)).2 29 (by decide)).1.trans (by decide)⟩

theorem shl32_level (L : Nat) (hL : L < 0x1000000) : shl32 L 8 = L <<< 8 := by
  unfold shl32
  rw [Nat.shiftLeft_eq]
  omega

/-- C5: when `m68ki_exception_interrupt` services level `L` (CPU not halted,
NMI latch clear, `int_level = L << 8` above `int_mask`, the acknowledge yields
a vector, PMMU off), afterwards `int_mask = L << 8`, S is set, T1 = T0 = 0, the
STOP bit of `stopped` is clear, and the format-0 frame written at the top of
the supervisor stack carries the PC of the interrupted program at frame + 2
and, at the frame base, the status register as it was on entry. -/
theorem exception_interrupt_services_level (cfg : Config) (s : m68ki_cpu_core)
    (lvl L X : Nat)
    (hrun : s.stopped = 0 ∨ s.stopped = STOP_LEVEL_STOP)
    (hn : s.nmi_pending = 0)
    (hL : L < 0x1000000) (hlevel : s.int_level = L <<< 8) (hgt : s.int_level > s.int_mask)
    (hv : interrupt_vector cfg (m68ki_int_ack cfg s L).1 L = some X)
    (hp : s.pmmu_enabled = 0) :
    (m68ki_exception_interrupt cfg s lvl).int_mask = L <<< 8 ∧
    (m68ki_exception_interrupt cfg s lvl).s_flag = SFLAG_SET ∧
    (m68ki_exception_interrupt cfg s lvl).t1_flag = 0 ∧
    (m68ki_exception_interrupt cfg s lvl).t0_flag = 0 ∧
    (m68ki_exception_interrupt cfg s lvl).stopped &&& STOP_LEVEL_STOP = 0 ∧
    ∃ pre post, (m68ki_exception_interrupt cfg s lvl).bus =
      s.bus ++ pre ++
        [BusEvent.write32
            (ADDRESS_68K s (add32 (sub32 (supervisor_sp s)
              (if s.cpu_type = CPU_TYPE_000 then 6 else 8)) 2)) s.pc,
          BusEvent.write16
            (ADDRESS_68K s (sub32 (supervisor_sp s)
              (if s.cpu_type = CPU_TYPE_000 then 6 else 8))) (m68ki_get_sr s)] ++ post := by
  have hshift : s.int_level >>> 8 = L := by
    rw [hlevel]; exact Nat.shiftLeft_shiftRight L 8
  rw [exception_interrupt_eq cfg s lvl L hrun (Or.inr ⟨hn, hgt, hshift.symm⟩), hv]
  have hpT : (interrupt_acknowledged cfg s L).pmmu_enabled = 0 := hp
  obtain ⟨h1, h2, h3, h4, h5, -, -⟩ := interrupt_process_flags cfg _ L X hpT
  obtain ⟨mid, post, hb⟩ := interrupt_process_bus cfg _ L X hpT
  refine ⟨by rw [← shl32_level L hL]; exact h1, h2, h3, h4, ?_, ?_⟩
  · show (interrupt_process cfg (interrupt_acknowledged cfg s L) L X).stopped &&& _ = 0
    rw [h5]
    exact Nat.zero_and _
  · show ∃ pre post, (interrupt_process cfg (interrupt_acknowledged cfg s L) L X).bus = _
    rw [hb]
    refine ⟨(if cfg.M68K_EMULATE_INT_ACK then [BusEvent.int_ack L] else [])
      ++ BusEvent.read32 (add32 (shl32 X 2) s.vbr &&& s.address_mask) :: mid, post, ?_⟩
    simp only [interrupt_acknowledged, ADDRESS_68K, List.append_assoc, List.singleton_append,
      List.cons_append, List.nil_append]
    rfl

theorem exception_interrupt_services_level_witness :
    (m68ki_exception_interrupt sample_cfg sample_000 0).int_mask = 0x0500 ∧
    (m68ki_exception_interrupt sample_cfg sample_000 0).s_flag = SFLAG_SET :=
  have h := exception_interrupt_services_level sample_cfg sample_000 0 5 29
    (by decide) (by decide) (by decide) (by decide) (by decide) (by decide) (by decide)
  ⟨h.1.trans (by decide), h.2.1⟩

/-- The cycle charge and the vector fetch of interrupt processing with vector
`X`, for m68ki_exception_interrupt entered in state `s`. -/
theorem exception_interrupt_with_vector (cfg : Config) (s : m68ki_cpu_core) (lvl L X : Nat)
    (hrun : s.stopped = 0 ∨ s.stopped = STOP_LEVEL_STOP)
    (hL : (s.nmi_pending ≠ 0 ∧ L = 7) ∨
      (s.nmi_pending = 0 ∧ s.int_level > s.int_mask ∧ L = s.int_level >>> 8))
    (hp : s.pmmu_enabled = 0)
    (hv : interrupt_vector cfg (m68ki_int_ack cfg s L).1 L = some X) :
    (m68ki_exception_interrupt cfg s lvl).m68ki_remaining_cycles =
      s.m68ki_remaining_cycles - s.cyc_exception X ∧
    ∃ rest, (m68ki_exception_interrupt cfg s lvl).bus =
      s.bus ++ (if cfg.M68K_EMULATE_INT_ACK then [BusEvent.int_ack L] else []) ++
        BusEvent.read32 (ADDRESS_68K s (add32 (shl32 X 2) s.vbr)) :: rest := by
  rw [exception_interrupt_eq cfg s lvl L hrun hL, hv]
  have hpT : (interrupt_acknowledged cfg s L).pmmu_enabled = 0 := hp
  obtain ⟨-, -, -, -, -, h6, -⟩ := interrupt_process_flags cfg _ L X hpT
  obtain ⟨mid, post, hb⟩ := interrupt_process_bus cfg _ L X hpT
  refine ⟨h6, ?_⟩
  show ∃ rest, (interrupt_process cfg (interrupt_acknowledged cfg s L) L X).bus = _
  rw [hb]
  refine ⟨mid ++ [BusEvent.write32
        (ADDRESS_68K s (add32 (sub32 (supervisor_sp s)
          (if s.cpu_type = CPU_TYPE_000 then 6 else 8)) 2)) s.pc,
      BusEvent.write16
        (ADDRESS_68K s (sub32 (supervisor_sp s)
          (if s.cpu_type = CPU_TYPE_000 then 6 else 8))) (m68ki_get_sr s)] ++ post, ?_⟩
  simp only [interrupt_acknowledged, ADDRESS_68K, List.append_assoc, List.singleton_append,
    List.cons_append, List.nil_append]
  rfl

/-- C6: in `m68ki_exception_interrupt` servicing level `L` (CPU not halted,
PMMU off), the exception vector (the one whose table entry is fetched and whose
`cyc_exception` entry is charged) is 24 + L when the acknowledge returns the
autovector sentinel, 24 when it returns the spurious sentinel, and the returned
value itself when that is at most 255; any other value makes the routine return
with PC, SR, the interrupt mask, the registers, the stack-pointer bank, the host
memory and the cycle counter unchanged and nothing on the bus but the
acknowledge. -/
theorem exception_interrupt_vector (cfg : Config) (s : m68ki_cpu_core) (lvl L : Nat)
    (hrun : s.stopped = 0 ∨ s.stopped = STOP_LEVEL_STOP)
    (hL : (s.nmi_pending ≠ 0 ∧ L = 7) ∨
      (s.nmi_pending = 0 ∧ s.int_level > s.int_mask ∧ L = s.int_level >>> 8))
    (hp : s.pmmu_enabled = 0) :
    (∀ X,
      ((m68ki_int_ack cfg s L).1 = cfg.M68K_INT_ACK_AUTOVECTOR ∧
          X = add32 EXCEPTION_INTERRUPT_AUTOVECTOR L) ∨
        ((m68ki_int_ack cfg s L).1 ≠ cfg.M68K_INT_ACK_AUTOVECTOR ∧
          (m68ki_int_ack cfg s L).1 = cfg.M68K_INT_ACK_SPURIOUS ∧
          X = EXCEPTION_SPURIOUS_INTERRUPT) ∨
        ((m68ki_int_ack cfg s L).1 ≠ cfg.M68K_INT_ACK_AUTOVECTOR ∧
          (m68ki_int_ack cfg s L).1 ≠ cfg.M68K_INT_ACK_SPURIOUS ∧
          (m68ki_int_ack cfg s L).1 ≤ 255 ∧ X = (m68ki_int_ack cfg s L).1) →
      (m68ki_exception_interrupt cfg s lvl).m68ki_remaining_cycles =
        s.m68ki_remaining_cycles - s.cyc_exception X ∧
      ∃ rest, (m68ki_exception_interrupt cfg s lvl).bus =
        s.bus ++ (if cfg.M68K_EMULATE_INT_ACK then [BusEvent.int_ack L] else []) ++
          BusEvent.read32 (ADDRESS_68K s (add32 (shl32 X 2) s.vbr)) :: rest) ∧
    ((m68ki_int_ack cfg s L).1 ≠ cfg.M68K_INT_ACK_AUTOVECTOR →
      (m68ki_int_ack cfg s L).1 ≠ cfg.M68K_INT_ACK_SPURIOUS →
      255 < (m68ki_int_ack cfg s L).1 →
      (m68ki_exception_interrupt cfg s lvl).pc = s.pc ∧
      m68ki_get_sr (m68ki_exception_interrupt cfg s lvl) = m68ki_get_sr s ∧
      (m68ki_exception_interrupt cfg s lvl).int_mask = s.int_mask ∧
      (m68ki_exception_interrupt cfg s lvl).dar = s.dar ∧
      (m68ki_exception_interrupt cfg s lvl).sp = s.sp ∧
      (m68ki_exception_interrupt cfg s lvl).mem = s.mem ∧
      (m68ki_exception_interrupt cfg s lvl).m68ki_remaining_cycles =
        s.m68ki_remaining_cycles ∧
      (m68ki_exception_interrupt cfg s lvl).bus =
        s.bus ++ (if cfg.M68K_EMULATE_INT_ACK then [BusEvent.int_ack L] else [])) := by
  constructor
  · intro X hX
    apply exception_interrupt_with_vector cfg s lvl L X hrun hL hp
    unfold interrupt_vector
    rcases hX with ⟨h1, h2⟩ | ⟨h1, h2, h3⟩ | ⟨h1, h2, h3, h4⟩
    · simp only [h1, ↓reduceIte, h2]
    · rw [if_neg h1, if_pos h2, h3]
    · rw [if_neg h1, if_neg h2, if_neg (not_lt.mpr h3), h4]
  · intro h1 h2 h3
    have hv : interrupt_vector cfg (m68ki_int_ack cfg s L).1 L = none := by
      unfold interrupt_vector
      simp only [h1, ↓reduceIte, h2, gt_iff_lt, h3]
    rw [exception_interrupt_eq cfg s lvl L hrun hL, hv]
    exact ⟨rfl, rfl, rfl, rfl, rfl, rfl, rfl, rfl⟩

theorem exception_interrupt_vector_witness :
    (m68ki_exception_interrupt sample_cfg sample_000 0).m68ki_remaining_cycles =
      sample_000.m68ki_remaining_cycles - sample_000.cyc_exception 29 :=
  ((exception_interrupt_vector sample_cfg sample_000 0 5 (by decide) (by decide)
    (by decide)).1 29 (by decide)).1

/-- C7 fails as stated: on the 68000 `zero_vector_000` (VBR 0, interrupt mask
3, level 5 asserted, autovector acknowledge) the long at 0x74 is zero, and
after `m68ki_check_interrupts` the PC is 0x1234, the long at 0x3C, not the
value stored at 0x74. -/
theorem interrupt_scenario_zero_vector :
    zero_vector_000.cpu_type = CPU_TYPE_000 ∧ zero_vector_000.vbr = 0 ∧
    zero_vector_000.int_mask = 0x0300 ∧ zero_vector_000.int_level = 0x0500 ∧
    (m68ki_int_ack sample_cfg zero_vector_000 5).1 = sample_cfg.M68K_INT_ACK_AUTOVECTOR ∧
    mem_read_32 zero_vector_000.mem 0x74 = 0 ∧
    (m68ki_check_interrupts sample_cfg zero_vector_000).pc = 0x1234 ∧
    (m68ki_check_interrupts sample_cfg zero_vector_000).pc ≠
      mem_read_32 zero_vector_000.mem 0x74 := by
  refine ⟨rfl, rfl, rfl, rfl, ?_, ?_, ?_, ?_⟩ <;> decide

/-- C7 as amended: on a 68000 (24 address lines) with VBR = 0, interrupt mask
3, level 5 asserted, autovector acknowledge, the CPU not halted and the PMMU
off, after `m68ki_check_interrupts` the PC is the long stored at 0x74 (vector
29) when that long is not zero and the long stored at 0x3C (vector 15) when it
is; the interrupt mask is 5, S is set, A7 is 6 below the supervisor stack
pointer, and the three-word frame there holds the old SR at SP and the return
PC at SP + 2. -/
theorem interrupt_scenario_000 (cfg : Config) (s : m68ki_cpu_core)
    (hc : s.cpu_type = CPU_TYPE_000) (hmask : s.address_mask = 0x00ffffff)
    (hvbr : s.vbr = 0) (him : s.int_mask = 0x0300) (hil : s.int_level = 0x0500)
    (hauto : (m68ki_int_ack cfg s 5).1 = cfg.M68K_INT_ACK_AUTOVECTOR)
    (hrun : s.stopped = 0 ∨ s.stopped = STOP_LEVEL_STOP) (hp : s.pmmu_enabled = 0) :
    (m68ki_check_interrupts cfg s).pc =
      (if mem_read_32 s.mem 0x74 = 0 then mem_read_32 s.mem 0x3C
       else mem_read_32 s.mem 0x74) ∧
    (m68ki_check_interrupts cfg s).int_mask = 0x0500 ∧
    (m68ki_check_interrupts cfg s).s_flag = SFLAG_SET ∧
    (m68ki_check_interrupts cfg s).dar 15 = sub32 (supervisor_sp s) 6 ∧
    mem_read_16 (m68ki_check_interrupts cfg s).mem
        (ADDRESS_68K s ((m68ki_check_interrupts cfg s).dar 15)) =
      m68ki_get_sr s % 0x10000 ∧
    mem_read_32 (m68ki_check_interrupts cfg s).mem
        (ADDRESS_68K s (add32 ((m68ki_check_interrupts cfg s).dar 15) 2)) =
      s.pc % 0x100000000 := by
  have hgt : s.int_level > s.int_mask := by rw [hil, him]; decide
  have hlev : s.int_level >>> 8 = 5 := by rw [hil]; decide
  have hv : interrupt_vector cfg (m68ki_int_ack cfg s 5).1 5 = some 29 := by
    unfold interrupt_vector
    rw [if_pos hauto]
    rfl
  rw [check_interrupts_eq cfg s hrun hgt, hlev, hv]
  have hpT : (interrupt_acknowledged cfg s 5).pmmu_enabled = 0 := hp
  have hcT : (interrupt_acknowledged cfg s 5).cpu_type = CPU_TYPE_000 := hc
  obtain ⟨h1, h2, -, -, -, -, h7⟩ := interrupt_process_flags cfg _ 5 29 hpT
  obtain ⟨h8, h9⟩ := interrupt_process_000 cfg _ 5 29 hpT hcT
  have e1 : (interrupt_acknowledged cfg s 5).vbr = 0 := hvbr
  have e2 : (interrupt_acknowledged cfg s 5).address_mask = 0x00ffffff := hmask
  have e3 : (interrupt_acknowledged cfg s 5).mem = s.mem := rfl
  have e4 : supervisor_sp (interrupt_acknowledged cfg s 5) = supervisor_sp s := rfl
  have e5 : (interrupt_acknowledged cfg s 5).pc = s.pc := rfl
  have e6 : m68ki_get_sr (interrupt_acknowledged cfg s 5) = m68ki_get_sr s := rfl
  have a1 : add32 (shl32 29 2) 0 &&& 0x00ffffff = 0x74 := by decide
  have a2 : add32 (shl32 EXCEPTION_UNINITIALIZED_INTERRUPT 2) 0 &&& 0x00ffffff = 0x3C := by
    decide
  rw [e1, e2, e3, a1, a2] at h7
  rw [e2, e3, e4, e5, e6] at h9
  rw [e4] at h8
  refine ⟨h7, h1.trans (by decide), h2, h8, ?_, ?_⟩
  · show mem_read_16 (interrupt_process cfg (interrupt_acknowledged cfg s 5) 5 29).mem
      (ADDRESS_68K s ((interrupt_process cfg (interrupt_acknowledged cfg s 5) 5 29).dar 15)) = _
    rw [h8, h9]
    unfold ADDRESS_68K
    rw [hmask]
    exact mem_read_16_write_16_same _ _ _
  · show mem_read_32 (interrupt_process cfg (interrupt_acknowledged cfg s 5) 5 29).mem
      (ADDRESS_68K s (add32 ((interrupt_process cfg (interrupt_acknowledged cfg s 5) 5 29).dar 15)
        2)) = _
    rw [h8, h9]
    unfold ADDRESS_68K
    rw [hmask, add32_sub32 _ 6 2 (by decide) (by decide)]
    rw [mem_read_32_write_16_disjoint, mem_read_32_write_32_same]
    simp only [and_ffffff]
    unfold sub32
    omega

theorem interrupt_scenario_000_witness :
    (m68ki_check_interrupts sample_cfg sample_000).pc = 0x2468 ∧
    (m68ki_check_interrupts sample_cfg sample_000).int_mask = 0x0500 :=
  have h := interrupt_scenario_000 sample_cfg sample_000 (by decide) (by decide) (by decide)
    (by decide) (by decide) (by decide) (by decide) (by decide)
  ⟨h.1.trans (by decide), h.2.1⟩

/-- C8: on a 68000 (24 address lines, PMMU off) whose run_mode is not
RUN_MODE_BERR_AERR_RESET_WSF, `m68ki_exception_address_error` switches to the
supervisor stack and pushes seven words: A7 ends 14 below the frame base `B`,
which is the supervisor stack pointer (4 above it when IR is one of the JSR
opcodes 0x4EB9, 0x4E90, 0x4EA8 and the old SR had S set).  The host writes are,
in order, the stacked PC at SP+10, the pre-exception SR at SP+8, IR at SP+6,
the access address at SP+2 and the special status word
`aerr_write_mode | instr_mode | aerr_fc` at SP, followed by the fetch of
vector 3, whose long becomes PC; read back from the host memory relative to
the final SP the frame holds these five values. -/
theorem address_error_frame_000 (cfg : Config) (s E : m68ki_cpu_core) (B : Nat)
    (hc : s.cpu_type = CPU_TYPE_000) (hmask : s.address_mask = 0x00ffffff)
    (hrun : s.run_mode ≠ RUN_MODE_BERR_AERR_RESET_WSF) (hp : s.pmmu_enabled = 0)
    (hB : B = if (s.ir = 0x4Eb9 ∨ s.ir = 0x4E90 ∨ s.ir = 0x4Ea8) ∧
                m68ki_get_sr s &&& 0x2000 ≠ 0
              then add32 (supervisor_sp s) 4 else supervisor_sp s)
    (hE : E = m68ki_exception_address_error cfg s) :
    E.s_flag = SFLAG_SET ∧
    E.dar 15 = sub32 B 14 ∧
    E.bus = s.bus ++
      [BusEvent.write32 (ADDRESS_68K s (add32 (E.dar 15) 10))
         (buserr_stacked_pc s (m68ki_get_sr s)).1,
       BusEvent.write16 (ADDRESS_68K s (add32 (E.dar 15) 8)) (m68ki_get_sr s),
       BusEvent.write16 (ADDRESS_68K s (add32 (E.dar 15) 6)) s.ir,
       BusEvent.write32 (ADDRESS_68K s (add32 (E.dar 15) 2)) s.m68ki_aerr_address,
       BusEvent.write16 (ADDRESS_68K s (E.dar 15))
         (s.m68ki_aerr_write_mode ||| s.instr_mode ||| s.m68ki_aerr_fc),
       BusEvent.ps_read32 (add32 (shl32 EXCEPTION_ADDRESS_ERROR 2) s.vbr)] ∧
    E.pc = mem_read_32 E.mem (add32 (shl32 EXCEPTION_ADDRESS_ERROR 2) s.vbr) ∧
    mem_read_16 E.mem (ADDRESS_68K s (E.dar 15)) =
      (s.m68ki_aerr_write_mode ||| s.instr_mode ||| s.m68ki_aerr_fc) % 0x10000 ∧
    mem_read_32 E.mem (ADDRESS_68K s (add32 (E.dar 15) 2)) =
      s.m68ki_aerr_address % 0x100000000 ∧
    mem_read_16 E.mem (ADDRESS_68K s (add32 (E.dar 15) 6)) = s.ir % 0x10000 ∧
    mem_read_16 E.mem (ADDRESS_68K s (add32 (E.dar 15) 8)) = m68ki_get_sr s % 0x10000 ∧
    mem_read_32 E.mem (ADDRESS_68K s (add32 (E.dar 15) 10)) =
      (buserr_stacked_pc s (m68ki_get_sr s)).1 % 0x100000000 := by
  obtain ⟨h1, h2, h3, h4, -, -, h7, -⟩ := address_error_000 cfg s hc hrun hp B hB
  subst hE
  have e10 : add32 (sub32 B 14) 10 = sub32 B 4 := add32_sub32 B 14 10 (by decide) (by decide)
  have e8 : add32 (sub32 B 14) 8 = sub32 B 6 := add32_sub32 B 14 8 (by decide) (by decide)
  have e6 : add32 (sub32 B 14) 6 = sub32 B 8 := add32_sub32 B 14 6 (by decide) (by decide)
  have e2 : add32 (sub32 B 14) 2 = sub32 B 12 := add32_sub32 B 14 2 (by decide) (by decide)
  have d := fun j k n m hk hj hn hm => frame_slots_disjoint B j k n m hk hj hn hm
  rw [h1, e10, e8, e6, e2]
  unfold ADDRESS_68K
  refine ⟨h7, rfl, h3, h4, ?_, ?_, ?_, ?_, ?_⟩
  · rw [h2, hmask]
    exact mem_read_16_write_16_same _ _ _
  · rw [h2, hmask]
    rw [mem_read_32_write_16_disjoint _ _ _ _
        (by have := d 14 12 2 4 (by decide) (by decide) (by decide) (by decide); omega),
      mem_read_32_write_32_same]
  · rw [h2, hmask]
    rw [mem_read_16_write_16_disjoint _ _ _ _
        (by have := d 14 8 2 2 (by decide) (by decide) (by decide) (by decide); omega),
      mem_read_16_write_32_disjoint _ _ _ _
        (by have := d 12 8 4 2 (by decide) (by decide) (by decide) (by decide); omega),
      mem_read_16_write_16_same]
  · rw [h2, hmask]
    rw [mem_read_16_write_16_disjoint _ _ _ _
        (by have := d 14 6 2 2 (by decide) (by decide) (by decide) (by decide); omega),
      mem_read_16_write_32_disjoint _ _ _ _
        (by have := d 12 6 4 2 (by decide) (by decide) (by decide) (by decide); omega),
      mem_read_16_write_16_disjoint _ _ _ _
        (by have := d 8 6 2 2 (by decide) (by decide) (by decide) (by decide); omega),
      mem_read_16_write_16_same]
  · rw [h2, hmask]
    rw [mem_read_32_write_16_disjoint _ _ _ _
        (by have := d 14 4 2 4 (by decide) (by decide) (by decide) (by decide); omega),
      mem_read_32_write_32_disjoint _ _ _ _
        (by have := d 12 4 4 4 (by decide) (by decide) (by decide) (by decide); omega),
      mem_read_32_write_16_disjoint _ _ _ _
        (by have := d 8 4 2 4 (by decide) (by decide) (by decide) (by decide); omega),
      mem_read_32_write_16_disjoint _ _ _ _
        (by have := d 6 4 2 4 (by decide) (by decide) (by decide) (by decide); omega),
      mem_read_32_write_32_same]

theorem address_error_frame_000_witness :
    (m68ki_exception_address_error sample_cfg aerr_000).dar 15 = 0xFF2 ∧
    mem_read_16 (m68ki_exception_address_error sample_cfg aerr_000).mem 0xFF2 = 0x11 ∧
    mem_read_32 (m68ki_exception_address_error sample_cfg aerr_000).mem 0xFF4 = 0x1001 ∧
    mem_read_16 (m68ki_exception_address_error sample_cfg aerr_000).mem 0xFF8 = 0x3010 ∧
    (m68ki_exception_address_error sample_cfg aerr_000).pc = 0x1357 :=
  have h := address_error_frame_000 sample_cfg aerr_000 _ _ (by decide) (by decide) (by decide)
    (by decide) rfl rfl
  ⟨h.2.1.trans (by decide), (by decide), (by decide), (by decide), (by decide)⟩

/-- C9, evaluated: on the 68000 `sample_000` (a 010-or-older CPU) the word
read `m68ki_read_16_fc` at the odd address 0x1001 with function code user
data makes the host call `m68k_read_memory_16(0x1001)`, and the
address-error record is not written: afterwards `m68ki_aerr_address` is not
0x1001, `m68ki_aerr_write_mode` is not MODE_READ and `m68ki_aerr_fc` is not
the function code of the access. The call of
`m68ki_check_address_error_010_less` is commented out in the function, while
the comment above the top level read/write functions still says that they
check for address error. -/
theorem odd_word_read_000_reaches_host :
    CPU_TYPE_IS_010_LESS sample_000.cpu_type ≠ 0 ∧ 0x1001 % 2 = 1 ∧
    (m68ki_read_16_fc sample_cfg sample_000 0x1001 FUNCTION_CODE_USER_DATA).2.bus =
      sample_000.bus ++ [BusEvent.read16 0x1001] ∧
    (m68ki_read_16_fc sample_cfg sample_000 0x1001
      FUNCTION_CODE_USER_DATA).2.m68ki_aerr_address ≠ 0x1001 ∧
    (m68ki_read_16_fc sample_cfg sample_000 0x1001
      FUNCTION_CODE_USER_DATA).2.m68ki_aerr_write_mode ≠ MODE_READ ∧
    (m68ki_read_16_fc sample_cfg sample_000 0x1001
      FUNCTION_CODE_USER_DATA).2.m68ki_aerr_fc ≠ FUNCTION_CODE_USER_DATA := by
  refine ⟨?_, ?_, ?_, ?_, ?_, ?_⟩ <;> decide

/-- C10: `m68ki_exception_address_error` entered while run_mode is
RUN_MODE_BERR_AERR_RESET_WSF halts the CPU: stopped becomes STOP_LEVEL_HALT,
the host memory is unchanged and the only host call is the byte read at
0x00ffff01 (no frame is written), A7 stays at the supervisor stack pointer,
PC and the cycle counter are unchanged.  Entered in any other run_mode (PMMU
off) it completes the frame: A7 ends below the frame base by the size of the
frame of the CPU type (14, 58, 32 or 92 bytes), the host calls are the 5, 8,
13 or 28 writes of that frame followed by the fetch of vector 3, whose long
becomes PC, the exception cycles are debited, run_mode is left at
RUN_MODE_BERR_AERR_RESET and stopped is what it was on entry. -/
theorem address_error_double_fault (cfg : Config) (s : m68ki_cpu_core) :
    (s.run_mode = RUN_MODE_BERR_AERR_RESET_WSF →
      (m68ki_exception_address_error cfg s).stopped = STOP_LEVEL_HALT ∧
      (m68ki_exception_address_error cfg s).mem = s.mem ∧
      (m68ki_exception_address_error cfg s).bus = s.bus ++ [BusEvent.read8 0x00ffff01] ∧
      (m68ki_exception_address_error cfg s).dar 15 = supervisor_sp s ∧
      (m68ki_exception_address_error cfg s).pc = s.pc ∧
      (m68ki_exception_address_error cfg s).m68ki_remaining_cycles =
        s.m68ki_remaining_cycles ∧
      (m68ki_exception_address_error cfg s).run_mode = RUN_MODE_BERR_AERR_RESET_WSF) ∧
    (s.run_mode ≠ RUN_MODE_BERR_AERR_RESET_WSF → s.pmmu_enabled = 0 →
      (m68ki_exception_address_error cfg s).run_mode = RUN_MODE_BERR_AERR_RESET ∧
      (m68ki_exception_address_error cfg s).stopped = s.stopped ∧
      (m68ki_exception_address_error cfg s).dar 15 =
        sub32
          (if s.cpu_type = CPU_TYPE_000 ∧ (s.ir = 0x4Eb9 ∨ s.ir = 0x4E90 ∨ s.ir = 0x4Ea8) ∧
              m68ki_get_sr s &&& 0x2000 ≠ 0
            then add32 (supervisor_sp s) 4 else supervisor_sp s)
          (if s.cpu_type = CPU_TYPE_000 then 14
           else if s.cpu_type = CPU_TYPE_010 then 58
           else if s.mmu_tmp_buserror_address = s.ppc then 32 else 92) ∧
      (∃ w, (m68ki_exception_address_error cfg s).bus =
          s.bus ++ w ++ [BusEvent.ps_read32 (add32 (shl32 EXCEPTION_ADDRESS_ERROR 2) s.vbr)] ∧
        w.length =
          (if s.cpu_type = CPU_TYPE_000 then 5
           else if s.cpu_type = CPU_TYPE_010 then 8
           else if s.mmu_tmp_buserror_address = s.ppc then 13 else 28)) ∧
      (m68ki_exception_address_error cfg s).pc =
        mem_read_32 (m68ki_exception_address_error cfg s).mem
          (add32 (shl32 EXCEPTION_ADDRESS_ERROR 2) s.vbr) ∧
      (m68ki_exception_address_error cfg s).m68ki_remaining_cycles =
        s.m68ki_remaining_cycles - (s.cyc_exception EXCEPTION_ADDRESS_ERROR : Int)) := by
  constructor
  · intro h
    unfold m68ki_exception_address_error
    simp only [m68ki_init_exception_eq, h, ↓reduceIte, m68k_read_memory_8, supervisor_sp_eq,
      Function.update_same, and_self]
  · intro hrun hp
    by_cases hc : s.cpu_type = CPU_TYPE_000
    · obtain ⟨h1, -, h3, h4, h5, h6, -, h8⟩ := address_error_000 cfg s hc hrun hp _ rfl
      simp only [hc, true_and, ↓reduceIte]
      exact ⟨h5, h6, h1, ⟨_, h3.trans (append_five_one _ _ _ _ _ _ _), rfl⟩, h4, h8⟩
    · obtain ⟨h1, h2, h3, h4, h5, -, h7⟩ := address_error_later cfg s hc hrun hp
      simp only [hc, false_and, ↓reduceIte]
      exact ⟨h4, h5, h1, h2, h3, h7⟩

theorem address_error_double_fault_witness :
    (m68ki_exception_address_error sample_cfg wsf_000).stopped = STOP_LEVEL_HALT ∧
    (m68ki_exception_address_error sample_cfg wsf_000).bus = [BusEvent.read8 0x00ffff01] ∧
    (m68ki_exception_address_error sample_cfg wsf_000).pc = 0x400 ∧
    (m68ki_exception_address_error sample_cfg aerr_000).run_mode = RUN_MODE_BERR_AERR_RESET ∧
    (m68ki_exception_address_error sample_cfg aerr_000).stopped = 0 ∧
    (m68ki_exception_address_error sample_cfg aerr_000).dar 15 = 0xFF2 :=
  have h1 := (address_error_double_fault sample_cfg wsf_000).1 (by decide)
  have h2 := (address_error_double_fault sample_cfg aerr_000).2 (by decide) (by decide)
  ⟨h1.1, h1.2.2.1, h1.2.2.2.2.1, h2.1, h2.2.1, h2.2.2.1.trans (by decide)⟩

/-- C11, evaluated: the 68000 state `wsf_000` has run_mode
RUN_MODE_BERR_AERR_RESET_WSF (a bus/address error frame is being written);
`m68ki_exception_bus_error` entered there does not halt: stopped stays 0, and
a further seven-word frame is pushed (A7 goes from the supervisor stack
pointer 0x1000 to 0xFF2 through five host writes) before vector 2 is fetched. -/
theorem bus_error_in_wsf_pushes_frame :
    wsf_000.run_mode = RUN_MODE_BERR_AERR_RESET_WSF ∧
    supervisor_sp wsf_000 = 0x1000 ∧
    (m68ki_exception_bus_error sample_cfg wsf_000).stopped = 0 ∧
    (m68ki_exception_bus_error sample_cfg wsf_000).stopped ≠ STOP_LEVEL_HALT ∧
    (m68ki_exception_bus_error sample_cfg wsf_000).dar 15 = 0xFF2 ∧
    (m68ki_exception_bus_error sample_cfg wsf_000).bus =
      [BusEvent.write32 0xFFC 0x400, BusEvent.write16 0xFFA 0x0300,
       BusEvent.write16 0xFF8 0x3010, BusEvent.write32 0xFF4 0x1001,
       BusEvent.write16 0xFF2 0x11, BusEvent.ps_read32 0x08] := by
  refine ⟨?_, ?_, ?_, ?_, ?_, ?_⟩ <;> decide

/-- C12: with the PMMU off, `m68ki_exception_trap` on a 68000, 68008 or 68010
pushes the format-0 frame with the current PC (on the 68000 the three words
SR, PC; on the other two the four words SR, PC, vector << 2), and on a 68EC020
or later CPU the format-2 frame of 12 bytes: SR at SP, PC at SP+2, the word
0x2000 | vector << 2 at SP+6 and PPC at SP+8.  `m68ki_exception_trapN` pushes
the format-0 frame on every CPU type.  Both then fetch the long at
VBR + (vector << 2) and load PC with it. -/
theorem exception_trap_frame_formats (cfg : Config) (s : m68ki_cpu_core) (vector : Nat)
    (hp : s.pmmu_enabled = 0) :
    (s.cpu_type = CPU_TYPE_000 ∨ s.cpu_type = CPU_TYPE_008 ∨ s.cpu_type = CPU_TYPE_010 →
      (m68ki_exception_trap cfg s vector).dar 15 =
        sub32 (supervisor_sp s) (if s.cpu_type = CPU_TYPE_000 then 6 else 8) ∧
      (m68ki_exception_trap cfg s vector).bus =
        s.bus ++
          (if s.cpu_type = CPU_TYPE_000 then
            [BusEvent.write32 (ADDRESS_68K s (sub32 (supervisor_sp s) 4)) s.pc,
             BusEvent.write16 (ADDRESS_68K s (sub32 (supervisor_sp s) 6)) (m68ki_get_sr s)]
          else
            [BusEvent.write16 (ADDRESS_68K s (sub32 (supervisor_sp s) 2)) (shl32 vector 2),
             BusEvent.write32 (ADDRESS_68K s (sub32 (supervisor_sp s) 6)) s.pc,
             BusEvent.write16 (ADDRESS_68K s (sub32 (supervisor_sp s) 8)) (m68ki_get_sr s)]) ++
          [BusEvent.ps_read32 (add32 (shl32 vector 2) s.vbr)]) ∧
    (s.cpu_type = CPU_TYPE_EC020 ∨ s.cpu_type = CPU_TYPE_020 ∨ s.cpu_type = CPU_TYPE_EC030 ∨
        s.cpu_type = CPU_TYPE_030 ∨ s.cpu_type = CPU_TYPE_EC040 ∨
        s.cpu_type = CPU_TYPE_LC040 ∨ s.cpu_type = CPU_TYPE_040 →
      (m68ki_exception_trap cfg s vector).dar 15 = sub32 (supervisor_sp s) 12 ∧
      (m68ki_exception_trap cfg s vector).bus =
        s.bus ++
          [BusEvent.write32 (ADDRESS_68K s (sub32 (supervisor_sp s) 4)) s.ppc,
           BusEvent.write16 (ADDRESS_68K s (sub32 (supervisor_sp s) 6))
             (0x2000 ||| shl32 vector 2),
           BusEvent.write32 (ADDRESS_68K s (sub32 (supervisor_sp s) 10)) s.pc,
           BusEvent.write16 (ADDRESS_68K s (sub32 (supervisor_sp s) 12)) (m68ki_get_sr s),
           BusEvent.ps_read32 (add32 (shl32 vector 2) s.vbr)]) ∧
    (m68ki_exception_trapN cfg s vector).dar 15 =
      sub32 (supervisor_sp s) (if s.cpu_type = CPU_TYPE_000 then 6 else 8) ∧
    (m68ki_exception_trapN cfg s vector).bus =
      s.bus ++
        (if s.cpu_type = CPU_TYPE_000 then
          [BusEvent.write32 (ADDRESS_68K s (sub32 (supervisor_sp s) 4)) s.pc,
           BusEvent.write16 (ADDRESS_68K s (sub32 (supervisor_sp s) 6)) (m68ki_get_sr s)]
        else
          [BusEvent.write16 (ADDRESS_68K s (sub32 (supervisor_sp s) 2)) (shl32 vector 2),
           BusEvent.write32 (ADDRESS_68K s (sub32 (supervisor_sp s) 6)) s.pc,
           BusEvent.write16 (ADDRESS_68K s (sub32 (supervisor_sp s) 8)) (m68ki_get_sr s)]) ++
        [BusEvent.ps_read32 (add32 (shl32 vector 2) s.vbr)] ∧
    (m68ki_exception_trap cfg s vector).pc =
      mem_read_32 (m68ki_exception_trap cfg s vector).mem (add32 (shl32 vector 2) s.vbr) ∧
    (m68ki_exception_trapN cfg s vector).pc =
      mem_read_32 (m68ki_exception_trapN cfg s vector).mem (add32 (shl32 vector 2) s.vbr) := by
  obtain ⟨n1, -, n3, n4, -⟩ := exception_trapN_obs cfg s vector hp
  refine ⟨?_, ?_, n1, n3, ?_, n4⟩
  · intro h
    have hl : CPU_TYPE_IS_010_LESS s.cpu_type ≠ 0 := by
      rcases h with h | h | h <;> rw [h] <;> decide
    rw [exception_trap_eq_trapN cfg s vector hl]
    exact ⟨n1, n3⟩
  · intro h
    have hl : CPU_TYPE_IS_010_LESS s.cpu_type = 0 := by
      rcases h with h | h | h | h | h | h | h <;> rw [h] <;> decide
    obtain ⟨t1, t2, -, -⟩ := exception_trap_obs_0010 cfg s vector hp hl
    exact ⟨t1, t2⟩
  · by_cases hl : CPU_TYPE_IS_010_LESS s.cpu_type = 0
    · exact (exception_trap_obs_0010 cfg s vector hp hl).2.2.1
    · rw [exception_trap_eq_trapN cfg s vector hl]
      exact n4

theorem exception_trap_frame_formats_witness :
    (m68ki_exception_trap sample_cfg sample_000 EXCEPTION_TRAPV).dar 15 = 0xFFA ∧
    (m68ki_exception_trap sample_cfg sample_020 EXCEPTION_TRAPV).dar 15 = 0xFF4 ∧
    (m68ki_exception_trap sample_cfg sample_020 EXCEPTION_TRAPV).bus =
      [BusEvent.write32 0xFFC 0x3fe, BusEvent.write16 0xFFA 0x201C,
       BusEvent.write32 0xFF6 0x400, BusEvent.write16 0xFF4 0x0300,
       BusEvent.ps_read32 0x1C] :=
  have h0 := (exception_trap_frame_formats sample_cfg sample_000 EXCEPTION_TRAPV
    (by decide)).1 (by decide)
  have h2 := (exception_trap_frame_formats sample_cfg sample_020 EXCEPTION_TRAPV
    (by decide)).2.1 (by decide)
  ⟨h0.1.trans (by decide), h2.1.trans (by decide), h2.2.trans (by decide)⟩

/-- C13, the claim refuted: on the 68010 state `trap7_at_207C` (VBR = 0x2000,
the long at 0x207C equal to 0x00000800) the TRAP #7 exception does not set PC
to 0x800: it fetches the long at 0x209C = VBR + (39 << 2), which is zero
there. -/
theorem trap7_vector_not_at_207C :
    trap7_at_207C.cpu_type = CPU_TYPE_010 ∧ trap7_at_207C.vbr = 0x2000 ∧
    mem_read_32 trap7_at_207C.mem 0x207C = 0x00000800 ∧
    (m68ki_exception_trapN sample_cfg trap7_at_207C (EXCEPTION_TRAP_BASE + 7)).pc ≠ 0x800 ∧
    (m68ki_exception_trapN sample_cfg trap7_at_207C (EXCEPTION_TRAP_BASE + 7)).pc =
      mem_read_32 trap7_at_207C.mem 0x209C := by
  refine ⟨?_, ?_, ?_, ?_, ?_⟩ <;> decide

/-- C13 as amended: on a 68010 (24 address lines, PMMU off) with VBR = 0x2000,
the long at 0x209C equal to 0x00000800 and a supervisor stack pointer whose
frame stays clear of that vector, the TRAP #7 exception
(`m68ki_exception_trapN` with vector EXCEPTION_TRAP_BASE + 7) sets PC to 0x800
and writes the format-0 frame of four words: the vector-offset word 0x009C at
(supervisor SP before the push) - 2, then PC and SR below it. -/
theorem trap7_scenario_010 (cfg : Config) (s : m68ki_cpu_core)
    (hc : s.cpu_type = CPU_TYPE_010) (hmask : s.address_mask = 0x00ffffff)
    (hvbr : s.vbr = 0x2000) (hvec : mem_read_32 s.mem 0x209C = 0x00000800)
    (hsp : 0x20A8 ≤ supervisor_sp s % 0x1000000) (hp : s.pmmu_enabled = 0) :
    (m68ki_exception_trapN cfg s (EXCEPTION_TRAP_BASE + 7)).pc = 0x800 ∧
    (m68ki_exception_trapN cfg s (EXCEPTION_TRAP_BASE + 7)).dar 15 =
      sub32 (supervisor_sp s) 8 ∧
    (m68ki_exception_trapN cfg s (EXCEPTION_TRAP_BASE + 7)).bus =
      s.bus ++
        [BusEvent.write16 (ADDRESS_68K s (sub32 (supervisor_sp s) 2)) 0x009C,
         BusEvent.write32 (ADDRESS_68K s (sub32 (supervisor_sp s) 6)) s.pc,
         BusEvent.write16 (ADDRESS_68K s (sub32 (supervisor_sp s) 8)) (m68ki_get_sr s),
         BusEvent.ps_read32 0x209C] ∧
    mem_read_16 (m68ki_exception_trapN cfg s (EXCEPTION_TRAP_BASE + 7)).mem
      (ADDRESS_68K s (sub32 (supervisor_sp s) 2)) = 0x009C := by
  obtain ⟨n1, n2, n3, n4, -⟩ := exception_trapN_obs cfg s (EXCEPTION_TRAP_BASE + 7) hp
  have hne : ¬ (s.cpu_type = CPU_TYPE_000) := by rw [hc]; decide
  have hv : add32 (shl32 (EXCEPTION_TRAP_BASE + 7) 2) s.vbr = 0x209C := by rw [hvbr]; decide
  have hw : shl32 (EXCEPTION_TRAP_BASE + 7) 2 = 0x009C := by decide
  rw [if_neg hne] at n1 n2 n3
  rw [hv] at n3 n4
  rw [hw] at n2 n3
  have d := fun j k n m hk hj hn hm => frame_slots_disjoint (supervisor_sp s) j k n m hk hj hn hm
  have a2 : sub32 (supervisor_sp s) 2 &&& 0x00ffffff = supervisor_sp s % 0x1000000 - 2 := by
    rw [and_ffffff]; unfold sub32; omega
  have a6 : sub32 (supervisor_sp s) 6 &&& 0x00ffffff = supervisor_sp s % 0x1000000 - 6 := by
    rw [and_ffffff]; unfold sub32; omega
  have a8 : sub32 (supervisor_sp s) 8 &&& 0x00ffffff = supervisor_sp s % 0x1000000 - 8 := by
    rw [and_ffffff]; unfold sub32; omega
  refine ⟨?_, n1, ?_, ?_⟩
  · rw [n4, n2, hmask, a2, a6, a8]
    rw [mem_read_32_write_16_disjoint _ _ _ _ (by omega),
      mem_read_32_write_32_disjoint _ _ _ _ (by omega),
      mem_read_32_write_16_disjoint _ _ _ _ (by omega)]
    exact hvec
  · rw [n3]
    simp only [ADDRESS_68K, List.append_assoc, List.cons_append, List.nil_append]
  · rw [n2]
    unfold ADDRESS_68K
    rw [hmask, a2, a6, a8]
    rw [mem_read_16_write_16_disjoint _ _ _ _ (by omega),
      mem_read_16_write_32_disjoint _ _ _ _ (by omega),
      mem_read_16_write_16_same]

theorem trap7_scenario_010_witness :
    (m68ki_exception_trapN sample_cfg trap7_010 (EXCEPTION_TRAP_BASE + 7)).pc = 0x800 ∧
    (m68ki_exception_trapN sample_cfg trap7_010 (EXCEPTION_TRAP_BASE + 7)).dar 15 = 0x3FF8 ∧
    mem_read_16 (m68ki_exception_trapN sample_cfg trap7_010 (EXCEPTION_TRAP_BASE + 7)).mem
      0x3FFE = 0x009C :=
  have h := trap7_scenario_010 sample_cfg trap7_010 (by decide) (by decide) (by decide)
    (by decide) (by decide) (by decide)
  ⟨h.1, h.2.1.trans (by decide), h.2.2.2.trans (by decide)⟩

/-- C14: the remaining-cycle counter after each exception.  `m68ki_exception_trap`,
`m68ki_exception_trapN`, the privilege violation, the A-line and F-line
exceptions, the illegal instruction exception (when the callback does not
suppress it), the format error and the bus error change it by exactly
`-(cyc_exception[vector] - cyc_instruction[ir])`, in integers; the address
error (outside a frame write), the trace exception and a serviced interrupt
(PMMU off, CPU not halted, level `L` settled, vector `X` chosen) debit
`cyc_exception[vector]` in full. -/
theorem exception_cycle_accounting (cfg : Config) (s : m68ki_cpu_core) (vector lvl L X : Nat) :
    (m68ki_exception_trap cfg s vector).m68ki_remaining_cycles =
      s.m68ki_remaining_cycles -
        ((s.cyc_exception vector : Int) - (s.cyc_instruction s.ir : Int)) ∧
    (m68ki_exception_trapN cfg s vector).m68ki_remaining_cycles =
      s.m68ki_remaining_cycles -
        ((s.cyc_exception vector : Int) - (s.cyc_instruction s.ir : Int)) ∧
    (m68ki_exception_privilege_violation cfg s).m68ki_remaining_cycles =
      s.m68ki_remaining_cycles -
        ((s.cyc_exception EXCEPTION_PRIVILEGE_VIOLATION : Int) -
          (s.cyc_instruction s.ir : Int)) ∧
    (m68ki_exception_1010 cfg s).m68ki_remaining_cycles =
      s.m68ki_remaining_cycles -
        ((s.cyc_exception EXCEPTION_1010 : Int) - (s.cyc_instruction s.ir : Int)) ∧
    (m68ki_exception_1111 cfg s).m68ki_remaining_cycles =
      s.m68ki_remaining_cycles -
        ((s.cyc_exception EXCEPTION_1111 : Int) - (s.cyc_instruction s.ir : Int)) ∧
    (cfg.m68ki_illg_callback s.ir = 0 →
      (m68ki_exception_illegal cfg s).m68ki_remaining_cycles =
        s.m68ki_remaining_cycles -
          ((s.cyc_exception EXCEPTION_ILLEGAL_INSTRUCTION : Int) -
            (s.cyc_instruction s.ir : Int))) ∧
    (m68ki_exception_format_error cfg s).m68ki_remaining_cycles =
      s.m68ki_remaining_cycles -
        ((s.cyc_exception EXCEPTION_FORMAT_ERROR : Int) - (s.cyc_instruction s.ir : Int)) ∧
    (m68ki_exception_bus_error cfg s).m68ki_remaining_cycles =
      s.m68ki_remaining_cycles -
        ((s.cyc_exception EXCEPTION_BUS_ERROR : Int) - (s.cyc_instruction s.ir : Int)) ∧
    (s.run_mode ≠ RUN_MODE_BERR_AERR_RESET_WSF →
      (m68ki_exception_address_error cfg s).m68ki_remaining_cycles =
        s.m68ki_remaining_cycles - (s.cyc_exception EXCEPTION_ADDRESS_ERROR : Int)) ∧
    (m68ki_exception_trace cfg s).m68ki_remaining_cycles =
      s.m68ki_remaining_cycles - (s.cyc_exception EXCEPTION_TRACE : Int) ∧
    (s.pmmu_enabled = 0 → (s.stopped = 0 ∨ s.stopped = STOP_LEVEL_STOP) →
      ((s.nmi_pending ≠ 0 ∧ L = 7) ∨
        (s.nmi_pending = 0 ∧ s.int_level > s.int_mask ∧ L = s.int_level >>> 8)) →
      interrupt_vector cfg (m68ki_int_ack cfg s L).1 L = some X →
      (m68ki_exception_interrupt cfg s lvl).m68ki_remaining_cycles =
        s.m68ki_remaining_cycles - (s.cyc_exception X : Int)) := by
  refine ⟨?_, ?_, ?_, ?_, ?_, ?_, ?_, ?_, ?_, ?_, ?_⟩
  · unfold m68ki_exception_trap
    dsimp only
    apply use_cycles_net
    rw [cycle_view_jump_vector]
    split_ifs <;>
      simp only [cycle_view_stack_frame_0000, cycle_view_stack_frame_0010,
        cycle_view_init_exception]
  · unfold m68ki_exception_trapN
    dsimp only
    apply use_cycles_net
    simp only [cycle_view_jump_vector, cycle_view_stack_frame_0000, cycle_view_init_exception]
  · unfold m68ki_exception_privilege_violation
    dsimp only
    apply use_cycles_net
    simp only [cycle_view_jump_vector, cycle_view_stack_frame_0000, cycle_view_instr_mode,
      cycle_view_init_exception]
  · unfold m68ki_exception_1010
    dsimp only
    apply use_cycles_net
    simp only [cycle_view_jump_vector, cycle_view_stack_frame_0000, cycle_view_init_exception]
  · unfold m68ki_exception_1111
    dsimp only
    apply use_cycles_net
    simp only [cycle_view_jump_vector, cycle_view_stack_frame_0000, cycle_view_init_exception]
  · intro h
    unfold m68ki_exception_illegal
    rw [if_neg (not_not.mpr h)]
    dsimp only
    apply use_cycles_net
    simp only [cycle_view_jump_vector, cycle_view_stack_frame_0000, cycle_view_instr_mode,
      cycle_view_init_exception]
  · unfold m68ki_exception_format_error
    dsimp only
    apply use_cycles_net
    simp only [cycle_view_jump_vector, cycle_view_stack_frame_0000, cycle_view_init_exception]
  · unfold m68ki_exception_bus_error
    dsimp only
    have h : cycle_view (m68ki_jump_vector (m68ki_stack_frame_buserr cfg
        (m68ki_init_exception cfg (USE_CYCLES s ((s.cyc_exception EXCEPTION_BUS_ERROR : Int) -
          (s.cyc_instruction s.ir : Int)))).2
        (m68ki_init_exception cfg (USE_CYCLES s ((s.cyc_exception EXCEPTION_BUS_ERROR : Int) -
          (s.cyc_instruction s.ir : Int)))).1) EXCEPTION_BUS_ERROR) =
        cycle_view (USE_CYCLES s ((s.cyc_exception EXCEPTION_BUS_ERROR : Int) -
          (s.cyc_instruction s.ir : Int))) := by
      simp only [cycle_view_jump_vector, cycle_view_stack_frame_buserr,
        cycle_view_init_exception]
    exact congrArg Prod.fst h
  · intro hrun
    unfold m68ki_exception_address_error
    have hr : (m68ki_init_exception cfg s).2.run_mode = s.run_mode := by
      rw [m68ki_init_exception_eq]
    dsimp only
    rw [hr, if_neg hrun]
    apply use_cycles_full
    refine (cycle_view_run_mode _ _).trans ?_
    rw [cycle_view_jump_vector]
    have hw : cycle_view { (m68ki_init_exception cfg s).2 with
        run_mode := RUN_MODE_BERR_AERR_RESET_WSF } = cycle_view s :=
      (cycle_view_run_mode _ _).trans (cycle_view_init_exception cfg s)
    split_ifs
    · exact (cycle_view_stack_frame_buserr _ _ _).trans hw
    · exact (cycle_view_stack_frame_1000 _ _ _ _ _).trans hw
    · exact (cycle_view_stack_frame_1010 _ _ _ _ _ _).trans hw
    · exact (cycle_view_stack_frame_1011 _ _ _ _ _ _).trans hw
  · unfold m68ki_exception_trace
    dsimp only
    apply use_cycles_full
    refine (cycle_view_stopped _ _).trans ?_
    rw [cycle_view_jump_vector]
    split_ifs
    · exact (cycle_view_stack_frame_0000 _ _ _ _ _).trans (cycle_view_init_exception cfg s)
    · exact (cycle_view_stack_frame_0000 _ _ _ _ _).trans (cycle_view_init_exception cfg s)
    · exact (cycle_view_stack_frame_0010 _ _ _ _).trans (cycle_view_init_exception cfg s)
  · intro hp hrun hL hX
    rw [exception_interrupt_eq cfg s lvl L hrun hL, hX]
    exact (interrupt_process_flags cfg (interrupt_acknowledged cfg s L) L X hp).2.2.2.2.2.1

theorem exception_cycle_accounting_witness :
    (m68ki_exception_illegal sample_cfg cycles_000).m68ki_remaining_cycles = 70 ∧
    (m68ki_exception_address_error sample_cfg cycles_000).m68ki_remaining_cycles = 50 ∧
    (m68ki_exception_interrupt sample_cfg cycles_000 5).m68ki_remaining_cycles = 56 :=
  have h := exception_cycle_accounting sample_cfg cycles_000 29 5 5 29
  ⟨(h.2.2.2.2.2.1 (by decide)).trans (by decide),
   (h.2.2.2.2.2.2.2.2.1 (by decide)).trans (by decide),
   (h.2.2.2.2.2.2.2.2.2.2 (by decide) (by decide) (by decide) (by decide)).trans (by decide)⟩

/-- C15: ADD (`R = S + D`) and SUB (`R = D - S`) in `uint` arithmetic on
operands that fit the width: bit 8 of the stored carry (`CFLAG_8(R)`,
`CFLAG_16(R)`, `CFLAG_ADD_32(S,D,R)`, `CFLAG_SUB_32(S,D,R)`) is set exactly
when the addition carries out of the width, respectively when the subtraction
borrows (`D < S`). -/
theorem carry_flag_add_sub (S D : Nat) :
    (S < 2 ^ 8 → D < 2 ^ 8 →
      (CFLAG_8 (add32 S D) &&& 0x100 ≠ 0 ↔ 2 ^ 8 ≤ S + D) ∧
      (CFLAG_8 (sub32 D S) &&& 0x100 ≠ 0 ↔ D < S)) ∧
    (S < 2 ^ 16 → D < 2 ^ 16 →
      (CFLAG_16 (add32 S D) &&& 0x100 ≠ 0 ↔ 2 ^ 16 ≤ S + D) ∧
      (CFLAG_16 (sub32 D S) &&& 0x100 ≠ 0 ↔ D < S)) ∧
    (S < 2 ^ 32 → D < 2 ^ 32 →
      (CFLAG_ADD_32 S D (add32 S D) &&& 0x100 ≠ 0 ↔ 2 ^ 32 ≤ S + D) ∧
      (CFLAG_SUB_32 S D (sub32 D S) &&& 0x100 ≠ 0 ↔ D < S)) := by
  refine ⟨?_, ?_, ?_⟩
  · intro hS hD
    simp only [Nat.reducePow] at hS hD ⊢
    constructor
    · rw [bit8_iff]; unfold CFLAG_8 add32; omega
    · rw [bit8_iff]; unfold CFLAG_8 sub32; omega
  · intro hS hD
    simp only [Nat.reducePow] at hS hD ⊢
    constructor
    · rw [bit8_iff]; unfold CFLAG_16 add32; rw [Nat.shiftRight_eq_div_pow]
      simp only [Nat.reducePow]; omega
    · rw [bit8_iff]; unfold CFLAG_16 sub32; rw [Nat.shiftRight_eq_div_pow]
      simp only [Nat.reducePow]; omega
  · intro hS hD
    constructor
    · rw [cflag_add_32_bit]; unfold add32
      simp only [Nat.reducePow] at hS hD ⊢; omega
    · rw [cflag_sub_32_bit]; unfold sub32
      simp only [Nat.reducePow] at hS hD ⊢; omega

theorem carry_flag_add_sub_witness :
    CFLAG_8 (add32 1 0xFF) &&& 0x100 ≠ 0 ∧
    CFLAG_16 (sub32 1 0xFFFF) &&& 0x100 ≠ 0 ∧
    add32 1 0xFFFFFFFF = 0 ∧
    CFLAG_ADD_32 1 0xFFFFFFFF (add32 1 0xFFFFFFFF) &&& 0x100 ≠ 0 ∧
    m68ki_get_ccr { sample_000 with
      c_flag := CFLAG_ADD_32 1 0xFFFFFFFF (add32 1 0xFFFFFFFF)
      x_flag := CFLAG_ADD_32 1 0xFFFFFFFF (add32 1 0xFFFFFFFF) } &&& 0x11 = 0x11 :=
  ⟨(((carry_flag_add_sub 1 0xFF).1 (by decide) (by decide)).1).2 (by decide),
   (((carry_flag_add_sub 0xFFFF 1).2.1 (by decide) (by decide)).2).2 (by decide),
   by decide,
   (((carry_flag_add_sub 1 0xFFFFFFFF).2.2 (by decide) (by decide)).1).2 (by decide),
   by decide⟩

/-- C16: for every `S` and `D`, at each width w in 8, 16, 32, bit 7 of
`VFLAG_ADD_w(S,D,R)` with `R = S + D`, respectively of `VFLAG_SUB_w(S,D,R)`
with `R = D - S`, is set exactly when the sum, respectively the difference,
of the operands read as signed w-bit values leaves the signed w-bit range. -/
theorem overflow_flag_add_sub (S D : Nat) :
    (VFLAG_ADD_8 S D (add32 S D) &&& 0x80 ≠ 0 ↔
      (MAKE_INT_8 S + MAKE_INT_8 D < -0x80 ∨ 0x7F < MAKE_INT_8 S + MAKE_INT_8 D)) ∧
    (VFLAG_SUB_8 S D (sub32 D S) &&& 0x80 ≠ 0 ↔
      (MAKE_INT_8 D - MAKE_INT_8 S < -0x80 ∨ 0x7F < MAKE_INT_8 D - MAKE_INT_8 S)) ∧
    (VFLAG_ADD_16 S D (add32 S D) &&& 0x80 ≠ 0 ↔
      (MAKE_INT_16 S + MAKE_INT_16 D < -0x8000 ∨ 0x7FFF < MAKE_INT_16 S + MAKE_INT_16 D)) ∧
    (VFLAG_SUB_16 S D (sub32 D S) &&& 0x80 ≠ 0 ↔
      (MAKE_INT_16 D - MAKE_INT_16 S < -0x8000 ∨ 0x7FFF < MAKE_INT_16 D - MAKE_INT_16 S)) ∧
    (VFLAG_ADD_32 S D (add32 S D) &&& 0x80 ≠ 0 ↔
      (MAKE_INT_32 S + MAKE_INT_32 D < -0x80000000 ∨
        0x7FFFFFFF < MAKE_INT_32 S + MAKE_INT_32 D)) ∧
    (VFLAG_SUB_32 S D (sub32 D S) &&& 0x80 ≠ 0 ↔
      (MAKE_INT_32 D - MAKE_INT_32 S < -0x80000000 ∨
        0x7FFFFFFF < MAKE_INT_32 D - MAKE_INT_32 S)) := by
  refine ⟨?_, ?_, ?_, ?_, ?_, ?_⟩
  · have h := vflag_bit S D (add32 S D) 0
    rw [Nat.shiftRight_zero] at h
    unfold VFLAG_ADD_8
    rw [h]
    unfold add32 MAKE_INT_8
    simp only [Nat.reduceAdd, Nat.reducePow]
    split_ifs <;> omega
  · have h := vflag_bit S (sub32 D S) D 0
    rw [Nat.shiftRight_zero] at h
    unfold VFLAG_SUB_8
    rw [h]
    unfold sub32 MAKE_INT_8
    simp only [Nat.reduceAdd, Nat.reducePow]
    split_ifs <;> omega
  · unfold VFLAG_ADD_16
    rw [vflag_bit S D (add32 S D) 8]
    unfold add32 MAKE_INT_16
    simp only [Nat.reduceAdd, Nat.reducePow]
    split_ifs <;> omega
  · unfold VFLAG_SUB_16
    rw [vflag_bit S (sub32 D S) D 8]
    unfold sub32 MAKE_INT_16
    simp only [Nat.reduceAdd, Nat.reducePow]
    split_ifs <;> omega
  · unfold VFLAG_ADD_32
    rw [vflag_bit S D (add32 S D) 24]
    unfold add32 MAKE_INT_32
    simp only [Nat.reduceAdd, Nat.reducePow]
    split_ifs <;> omega
  · unfold VFLAG_SUB_32
    rw [vflag_bit S (sub32 D S) D 24]
    unfold sub32 MAKE_INT_32
    simp only [Nat.reduceAdd, Nat.reducePow]
    split_ifs <;> omega

/-- C17: for every result `r` and each width w in 8, 16, 32, after
`not_z_flag = ZFLAG_w(r)` and `n_flag = NFLAG_w(r)` the condition code
register has Z (bit 2) set exactly when `r mod 2^w = 0`, and N (bit 3) equal
to bit w-1 of `r`. -/
theorem ccr_zero_negative (s : m68ki_cpu_core) (r : Nat) :
    ((m68ki_get_ccr { s with not_z_flag := ZFLAG_8 r, n_flag := NFLAG_8 r }).testBit 2 = true ↔
      r % 2 ^ 8 = 0) ∧
    (m68ki_get_ccr { s with not_z_flag := ZFLAG_8 r, n_flag := NFLAG_8 r }).testBit 3 =
      r.testBit 7 ∧
    ((m68ki_get_ccr { s with not_z_flag := ZFLAG_16 r, n_flag := NFLAG_16 r }).testBit 2 = true ↔
      r % 2 ^ 16 = 0) ∧
    (m68ki_get_ccr { s with not_z_flag := ZFLAG_16 r, n_flag := NFLAG_16 r }).testBit 3 =
      r.testBit 15 ∧
    ((m68ki_get_ccr { s with not_z_flag := ZFLAG_32 r, n_flag := NFLAG_32 r }).testBit 2 = true ↔
      r % 2 ^ 32 = 0) ∧
    (m68ki_get_ccr { s with not_z_flag := ZFLAG_32 r, n_flag := NFLAG_32 r }).testBit 3 =
      r.testBit 31 := by
  have z8 : ZFLAG_8 r = r % 2 ^ 8 := Nat.and_pow_two_sub_one_eq_mod r 8
  have z16 : ZFLAG_16 r = r % 2 ^ 16 := Nat.and_pow_two_sub_one_eq_mod r 16
  have z32 : ZFLAG_32 r = r % 2 ^ 32 := rfl
  simp only [m68ki_get_ccr, COND_XS, COND_MI, COND_EQ, COND_NE, COND_VS, COND_CS, ccr_bit_z,
    ccr_bit_n, decide_eq_true_iff, z8, z16, z32, NFLAG_8, NFLAG_16, NFLAG_32,
    Nat.testBit_shiftRight, Nat.reduceAdd, and_self]

/-- C18: let `ext` be the extension word that `m68ki_get_ea_ix` fetches and
`s1` the state after the fetch.  On a 68000, 68008 or 68010 every extension
word gives `An + Xn + sign_extend_8(ext & 0xff)` modulo 2^32 (scale 1, bit 8
and bits 9-10 ignored), and on a 68EC020 or later a word with bit 8 clear gives
`An + Xn * scale + sign_extend_8(ext & 0xff)` with the scale 1, 2, 4 or 8 of
bits 9-10; `Xn` is `dar[ext >> 12]`, sign-extended from 16 bits when bit 11
is clear.  The state returned is `s1`. -/
theorem get_ea_ix_brief (cfg : Config) (s s1 : m68ki_cpu_core) (An ext : Nat)
    (hfetch : m68ki_read_imm_16 cfg s = (ext, s1)) :
    (s1.cpu_type = CPU_TYPE_000 ∨ s1.cpu_type = CPU_TYPE_008 ∨ s1.cpu_type = CPU_TYPE_010 →
      m68ki_get_ea_ix cfg s An = (spec_ea_brief s1 ext An 1, s1)) ∧
    (s1.cpu_type = CPU_TYPE_EC020 ∨ s1.cpu_type = CPU_TYPE_020 ∨
        s1.cpu_type = CPU_TYPE_EC030 ∨ s1.cpu_type = CPU_TYPE_030 ∨
        s1.cpu_type = CPU_TYPE_EC040 ∨ s1.cpu_type = CPU_TYPE_LC040 ∨
        s1.cpu_type = CPU_TYPE_040 →
      ext.testBit 8 = false →
      m68ki_get_ea_ix cfg s An = (spec_ea_brief s1 ext An (spec_ea_scale ext), s1)) := by
  constructor
  · intro h
    have hl : CPU_TYPE_IS_010_LESS s1.cpu_type ≠ 0 := by
      rcases h with h | h | h <;> rw [h] <;> decide
    unfold m68ki_get_ea_ix
    rw [hfetch]
    simp only [hl, ne_eq, not_false_eq_true, ↓reduceIte, ea_sum_index]
  · intro h h8
    have hl : CPU_TYPE_IS_010_LESS s1.cpu_type = 0 := by
      rcases h with h | h | h | h | h | h | h <;> rw [h] <;> decide
    have hp : CPU_TYPE_IS_EC020_PLUS s1.cpu_type ≠ 0 := by
      rcases h with h | h | h | h | h | h | h <;> rw [h] <;> decide
    have hb8 : BIT_8 ext = 0 := by
      by_contra h0
      have := (and_two_pow_ne_zero ext 8).mp h0
      rw [h8] at this
      exact Bool.noConfusion this
    unfold m68ki_get_ea_ix
    rw [hfetch]
    simp only [hl, hp, hb8, ne_eq, not_true_eq_false, not_false_eq_true, ↓reduceIte,
      ea_sum_scaled]

theorem get_ea_ix_brief_witness :
    (m68ki_get_ea_ix sample_cfg ea_000 0x2000).1 = 0x200F ∧
    (m68ki_get_ea_ix sample_cfg ea_020 0x2000).1 = 0x2008 :=
  ⟨(congrArg Prod.fst ((get_ea_ix_brief sample_cfg ea_000 _ 0x2000 _ rfl).1
      (by decide))).trans (by decide),
   (congrArg Prod.fst ((get_ea_ix_brief sample_cfg ea_020 _ 0x2000 _ rfl).2
      (by decide) (by decide))).trans (by decide)⟩

/-- C19: let `ext` be the extension word that `m68ki_get_ea_ix` fetches and
`s0` the state after the fetch.  On a 68EC020 or later, a word with bit 8 set
is decoded as the full format of the specification (`spec_ea_full`), from the
state in which the cycles of `m68ki_ea_idx_cycle_table[ext & 0x3f]` have been
debited: base 0 if bit 7 else An; index 0 if bit 6 else Xn (sign-extended from
16 bits when bit 11 is clear) times the scale of bits 9-10; bd null, a
sign-extended word or a long by bits 5-4; with bits 2-0 zero the address is
base + bd + index, otherwise od is null, a sign-extended word or a long by
bits 1-0 and the address is mem32[base + bd] + index + od when bit 2 is set
and mem32[base + bd + index] + od when it is clear, all modulo 2^32. -/
theorem get_ea_ix_full (cfg : Config) (s s0 : m68ki_cpu_core) (An ext : Nat)
    (hfetch : m68ki_read_imm_16 cfg s = (ext, s0))
    (hcpu : s0.cpu_type = CPU_TYPE_EC020 ∨ s0.cpu_type = CPU_TYPE_020 ∨
      s0.cpu_type = CPU_TYPE_EC030 ∨ s0.cpu_type = CPU_TYPE_030 ∨
      s0.cpu_type = CPU_TYPE_EC040 ∨ s0.cpu_type = CPU_TYPE_LC040 ∨
      s0.cpu_type = CPU_TYPE_040)
    (h8 : ext.testBit 8 = true) :
    m68ki_get_ea_ix cfg s An =
      spec_ea_full cfg (USE_CYCLES s0 (cfg.m68ki_ea_idx_cycle_table (ext &&& 0x3f))) ext An := by
  have hl : CPU_TYPE_IS_010_LESS s0.cpu_type = 0 := by
    rcases hcpu with h | h | h | h | h | h | h <;> rw [h] <;> decide
  exact get_ea_ix_full_eq cfg s s0 An ext hfetch hl h8

theorem get_ea_ix_full_witness :
    (m68ki_read_imm_16 sample_cfg full_020).1 = 0x0161 ∧
    (m68ki_get_ea_ix sample_cfg full_020 0x2000).1 = 0x3000 :=
  ⟨by decide,
   (congrArg Prod.fst (get_ea_ix_full sample_cfg full_020 _ 0x2000 _ rfl (by decide)
      (by decide))).trans (by decide)⟩

/-- C20, the claim refuted: on the 68020 state `reserved_020` the extension
word fetched is 0x0100, full format with the reserved base-displacement size
00, and `m68ki_get_ea_ix` returns the effective address 0x1FFF =
A0 + D0.W with the state of a plain fetch: PC advanced by 2, the one host read
of the extension word, still in user mode, whereas the illegal-instruction
exception enters supervisor mode. -/
theorem reserved_extension_returns_address :
    reserved_020.cpu_type = CPU_TYPE_020 ∧
    (m68ki_read_imm_16 sample_cfg reserved_020).1 = 0x0100 ∧
    ((0x0100 : Nat).testBit 8 = true ∧ (0x0100 >>> 4) % 4 = 0) ∧
    (m68ki_get_ea_ix sample_cfg reserved_020 0x2000).1 = 0x1FFF ∧
    (m68ki_get_ea_ix sample_cfg reserved_020 0x2000).2.pc = 0x402 ∧
    (m68ki_get_ea_ix sample_cfg reserved_020 0x2000).2.bus = [BusEvent.read16 0x400] ∧
    (m68ki_get_ea_ix sample_cfg reserved_020 0x2000).2.s_flag = 0 ∧
    (m68ki_exception_illegal sample_cfg reserved_020).s_flag = SFLAG_SET := by
  refine ⟨?_, ?_, ?_, ?_, ?_, ?_, ?_, ?_⟩ <;> decide

/-- C20 as amended: on a 68EC020 or later a full-format extension word with a
reserved encoding (base-displacement size 00, I/IS = 100, or I/IS above 100
with the index suppressed) is decoded by the rules of every other full-format
word and an effective address is returned: size 00 gives a null base
displacement, and I/IS = 100 gives mem32[base + bd] + index with a null outer
displacement. -/
theorem get_ea_ix_reserved (cfg : Config) (s s0 s1 : m68ki_cpu_core) (An ext base : Nat)
    (index : Int) (bd m : Nat × m68ki_cpu_core)
    (hfetch : m68ki_read_imm_16 cfg s = (ext, s0))
    (hcpu : s0.cpu_type = CPU_TYPE_EC020 ∨ s0.cpu_type = CPU_TYPE_020 ∨
      s0.cpu_type = CPU_TYPE_EC030 ∨ s0.cpu_type = CPU_TYPE_030 ∨
      s0.cpu_type = CPU_TYPE_EC040 ∨ s0.cpu_type = CPU_TYPE_LC040 ∨
      s0.cpu_type = CPU_TYPE_040)
    (h8 : ext.testBit 8 = true)
    (hres : (ext >>> 4) % 4 = 0 ∨ ext % 8 = 4 ∨ (ext.testBit 6 = true ∧ 4 < ext % 8))
    (hs1 : s1 = USE_CYCLES s0 (cfg.m68ki_ea_idx_cycle_table (ext &&& 0x3f)))
    (hbase : base = if ext.testBit 7 then 0 else An)
    (hindex : index = if ext.testBit 6 then 0 else spec_ea_index s1 ext * spec_ea_scale ext)
    (hbd : bd = spec_ea_displacement cfg s1 ((ext >>> 4) % 4))
    (hm : m = m68ki_read_32 cfg bd.2 (to_uint ((base : Int) + (bd.1 : Int)))) :
    m68ki_get_ea_ix cfg s An = spec_ea_full cfg s1 ext An ∧
    ((ext >>> 4) % 4 = 0 → bd = (0, s1)) ∧
    (ext % 8 = 4 → m68ki_get_ea_ix cfg s An = (to_uint ((m.1 : Int) + index), m.2)) := by
  have hl : CPU_TYPE_IS_010_LESS s0.cpu_type = 0 := by
    rcases hcpu with h | h | h | h | h | h | h <;> rw [h] <;> decide
  have hfull := get_ea_ix_full_eq cfg s s0 An ext hfetch hl h8
  rw [← hs1] at hfull
  refine ⟨hfull, ?_, ?_⟩
  · intro h0
    rw [hbd, h0]
    rfl
  · intro h4
    rw [hfull]
    have h2 : ext.testBit 2 = true := by
      rw [testBit_iff_div]
      simp only [Nat.reducePow]
      omega
    have hod : ext % 4 = 0 := by omega
    have hne : ¬ (ext % 8 = 0) := by omega
    have hd : ∀ t : m68ki_cpu_core, spec_ea_displacement cfg t 0 = (0, t) := fun t => rfl
    unfold spec_ea_full
    simp only [hne, h2, hod, ↓reduceIte, hd, Nat.cast_zero, add_zero, ← hbase, ← hindex,
      ← hbd, ← hm]

theorem get_ea_ix_reserved_witness :
    (m68ki_read_imm_16 sample_cfg reserved_020).1 = 0x0100 ∧
    (m68ki_get_ea_ix sample_cfg reserved_020 0x2000).1 = 0x1FFF :=
  ⟨by decide,
   (congrArg Prod.fst (get_ea_ix_reserved sample_cfg reserved_020 _ _ 0x2000 _ _ _ _ _ rfl
      (by decide) (by decide) (by decide) rfl rfl rfl rfl rfl).1).trans (by decide)⟩

/-- C21, the claim refuted: the 68020 state `indirect_at_1008` has A0 = 0x1000,
D0 = 2, the long 0x00002000 at 0x1008, the long 0xDEADBEEF at 0x2000, and the
extension word 0x0521 with the base displacement 8 at the PC.  The word
0x0521 selects memory indirection with the index added before the fetch, so
`m68ki_get_ea_ix` reads the pointer at 0x1000 + 8 + 2 * 4 = 0x1010, which
holds zero: the effective address is 0, not 0x2000, and the operand is the
long at 0, not 0xDEADBEEF. -/
theorem indirect_scenario_reads_1010 :
    indirect_at_1008.cpu_type = CPU_TYPE_020 ∧
    AY indirect_at_1008 = 0x1000 ∧ indirect_at_1008.dar 0 = 2 ∧
    mem_read_32 indirect_at_1008.mem 0x1008 = 0x00002000 ∧
    mem_read_32 indirect_at_1008.mem 0x2000 = 0xDEADBEEF ∧
    (m68ki_read_imm_16 sample_cfg indirect_at_1008).1 = 0x0521 ∧
    (m68ki_read_imm_16 sample_cfg (m68ki_read_imm_16 sample_cfg indirect_at_1008).2).1 = 8 ∧
    (m68ki_get_ea_ix sample_cfg indirect_at_1008 (AY indirect_at_1008)).1 = 0 ∧
    (OPER_AY_IX_32 sample_cfg indirect_at_1008).1 = 0 ∧
    (OPER_AY_IX_32 sample_cfg indirect_at_1008).2.bus =
      [BusEvent.read16 0x400, BusEvent.read16 0x402, BusEvent.read32 0x1010,
        BusEvent.read32 0] := by
  refine ⟨?_, ?_, ?_, ?_, ?_, ?_, ?_, ?_, ?_, ?_⟩ <;> decide

/-- C21 as amended: on a 68020 with A0 = 0x1000 and D0 = 2, where
`m68ki_get_ea_ix` fetches the extension word 0x0521 and then the word base
displacement 8, and with the long at 0x1010 equal to 0x00002000 and the long
at 0x2000 equal to 0xDEADBEEF, the effective address of
MOVE.L ([8,A0,D0.W*4]),D1 is 0x2000 and its operand (`OPER_AY_IX_32`) is
0xDEADBEEF.  The PMMU is off and all 32 address lines are in use. -/
theorem indirect_scenario_020 (cfg : Config) (s s0 s1 : m68ki_cpu_core)
    (hfetch : m68ki_read_imm_16 cfg s = (0x0521, s0))
    (hbd : m68ki_read_imm_16 cfg (USE_CYCLES s0 (cfg.m68ki_ea_idx_cycle_table 0x21)) = (8, s1))
    (hcpu : s0.cpu_type = CPU_TYPE_020)
    (hA0 : AY s = 0x1000) (hD0 : s0.dar 0 = 2)
    (hp : s1.pmmu_enabled = 0) (hmask : s1.address_mask = 0xffffffff)
    (h1010 : mem_read_32 s1.mem 0x1010 = 0x00002000)
    (h2000 : mem_read_32 s1.mem 0x2000 = 0xDEADBEEF) :
    (m68ki_get_ea_ix cfg s (AY s)).1 = 0x2000 ∧ (OPER_AY_IX_32 cfg s).1 = 0xDEADBEEF := by
  have hl : CPU_TYPE_IS_010_LESS s0.cpu_type = 0 := by rw [hcpu]; decide
  have hea : m68ki_get_ea_ix cfg s 0x1000 =
      (0x2000, { s1 with bus := s1.bus ++ [BusEvent.read32 0x1010] }) := by
    rw [get_ea_ix_full_eq cfg s s0 0x1000 0x0521 hfetch hl (by decide)]
    have e21 : (0x0521 : Nat) &&& 0x3f = 0x21 := by decide
    rw [e21]
    have hidx : spec_ea_index (USE_CYCLES s0 (cfg.m68ki_ea_idx_cycle_table 0x21)) 0x0521 = 2 := by
      have hd : (USE_CYCLES s0 (cfg.m68ki_ea_idx_cycle_table 0x21)).dar (0x0521 >>> 12) = 2 := hD0
      unfold spec_ea_index
      rw [hd]
      decide
    have hdisp : spec_ea_displacement cfg (USE_CYCLES s0 (cfg.m68ki_ea_idx_cycle_table 0x21))
        ((0x0521 >>> 4) % 4) = (8, s1) := by
      have e2 : (0x0521 >>> 4) % 4 = 2 := by decide
      rw [e2]
      have e8 : to_uint (MAKE_INT_16 8) = 8 := by decide
      unfold spec_ea_displacement
      rw [hbd, if_pos rfl]
      exact Prod.ext e8 rfl
    have hod : ∀ t : m68ki_cpu_core, spec_ea_displacement cfg t (0x0521 % 4) = (0, t) :=
      fun t => rfl
    have hsc : spec_ea_scale 0x0521 = 4 := by decide
    have ha : to_uint (((0x1000 : Nat) : Int) + ((8 : Nat) : Int) + 2 * 4) = 0x1010 := by decide
    have hb : to_uint (((0x2000 : Nat) : Int) + ((0 : Nat) : Int)) = 0x2000 := by decide
    have h7 : (0x0521 : Nat).testBit 7 = false := by decide
    have h6 : (0x0521 : Nat).testBit 6 = false := by decide
    have h2 : (0x0521 : Nat).testBit 2 = false := by decide
    have h0 : ¬ ((0x0521 : Nat) % 8 = 0) := by decide
    have hand : (0x1010 : Nat) &&& 0xffffffff = 0x1010 := by decide
    unfold spec_ea_full
    simp only [h7, h6, h2, h0, hidx, hdisp, hod, hsc, ha, ↓reduceIte, Bool.false_eq_true,
      m68ki_read_32_eq cfg s1 _ hp, hmask, hand, h1010, hb]
  refine ⟨by rw [hA0, hea], ?_⟩
  unfold OPER_AY_IX_32
  simp only [hA0, hea]
  have hand : (0x2000 : Nat) &&& 0xffffffff = 0x2000 := by decide
  rw [m68ki_read_32_eq cfg { s1 with bus := s1.bus ++ [BusEvent.read32 0x1010] } 0x2000 hp]
  simp only [hmask, hand, h2000]

theorem indirect_scenario_020_witness :
    (m68ki_read_imm_16 sample_cfg indirect_020).1 = 0x0521 ∧
    mem_read_32 indirect_020.mem 0x1010 = 0x00002000 ∧
    (OPER_AY_IX_32 sample_cfg indirect_020).1 = 0xDEADBEEF :=
  ⟨by decide, by decide,
   (indirect_scenario_020 sample_cfg indirect_020 _ _ rfl rfl (by decide) (by decide)
      (by decide) (by decide) (by decide) (by decide) (by decide)).2⟩

/-- C22: with the address registers holding `uint` values (below 2^32), each
post-increment macro yields the old value of its register and leaves
old + size modulo 2^32 in it, and each pre-decrement macro first stores
old - size modulo 2^32 and yields that new value.  The size is 1, 2 and 4 for
the byte, word and long forms on AY and AX, and 2 for the A7 byte forms
EA_A7_PI_8 and EA_A7_PD_8. -/
theorem ea_post_increment_pre_decrement (s : m68ki_cpu_core)
    (hy : AY s < 0x100000000) (hx : AX s < 0x100000000) (h7 : s.dar 15 < 0x100000000) :
    (EA_AY_PI_8 s = spec_post_increment s (AY_index s) 1 ∧
     EA_AY_PI_16 s = spec_post_increment s (AY_index s) 2 ∧
     EA_AY_PI_32 s = spec_post_increment s (AY_index s) 4) ∧
    (EA_AY_PD_8 s = spec_pre_decrement s (AY_index s) 1 ∧
     EA_AY_PD_16 s = spec_pre_decrement s (AY_index s) 2 ∧
     EA_AY_PD_32 s = spec_pre_decrement s (AY_index s) 4) ∧
    (EA_AX_PI_8 s = spec_post_increment s (AX_index s) 1 ∧
     EA_AX_PI_16 s = spec_post_increment s (AX_index s) 2 ∧
     EA_AX_PI_32 s = spec_post_increment s (AX_index s) 4) ∧
    (EA_AX_PD_8 s = spec_pre_decrement s (AX_index s) 1 ∧
     EA_AX_PD_16 s = spec_pre_decrement s (AX_index s) 2 ∧
     EA_AX_PD_32 s = spec_pre_decrement s (AX_index s) 4) ∧
    EA_A7_PI_8 s = spec_post_increment s 15 2 ∧
    EA_A7_PD_8 s = spec_pre_decrement s 15 2 := by
  have p8 : ∀ i, (s.dar i, ({ s with dar := Function.update s.dar i (add32 (s.dar i) 1) } :
      m68ki_cpu_core)) = spec_post_increment s i 1 := fun i => by
    unfold spec_post_increment
    simp only [add32_eq_to_uint]
  exact ⟨⟨p8 _, post_increment_eq s _ 2 hy, post_increment_eq s _ 4 hy⟩,
    ⟨pre_decrement_eq s _ 1, pre_decrement_eq s _ 2, pre_decrement_eq s _ 4⟩,
    ⟨p8 _, post_increment_eq s _ 2 hx, post_increment_eq s _ 4 hx⟩,
    ⟨pre_decrement_eq s _ 1, pre_decrement_eq s _ 2, pre_decrement_eq s _ 4⟩,
    post_increment_eq s 15 2 h7, pre_decrement_eq s 15 2⟩

theorem ea_post_increment_pre_decrement_witness :
    (EA_AY_PI_32 indirect_020).1 = 0x1000 ∧ (EA_AY_PI_32 indirect_020).2.dar 8 = 0x1004 ∧
    (EA_AX_PD_16 indirect_020).1 = 0xFFFFFFFE ∧
    (EA_AX_PD_16 indirect_020).2.dar 9 = 0xFFFFFFFE ∧
    (EA_A7_PI_8 indirect_020).1 = 0x8000 ∧ (EA_A7_PI_8 indirect_020).2.dar 15 = 0x8002 ∧
    (EA_A7_PD_8 indirect_020).1 = 0x7FFE ∧ (EA_A7_PD_8 indirect_020).2.dar 15 = 0x7FFE := by
  have h := ea_post_increment_pre_decrement indirect_020 (by decide) (by decide) (by decide)
  refine ⟨?_, ?_, ?_, ?_, ?_, ?_, ?_, ?_⟩
  · rw [h.1.2.2]; decide
  · rw [h.1.2.2]; decide
  · rw [h.2.2.2.1.2.1]; decide
  · rw [h.2.2.2.1.2.1]; decide
  · rw [h.2.2.2.2.1]; decide
  · rw [h.2.2.2.2.1]; decide
  · rw [h.2.2.2.2.2]; decide
  · rw [h.2.2.2.2.2]; decide

/-- C23: `m68ki_get_ea_pcdi` fetches its extension word at the PC it is
entered with and returns that PC plus the word sign-extended from 16 bits,
modulo 2^32; `m68ki_get_ea_pcix` is `m68ki_get_ea_ix` with that PC as the base
register, in program space; after either of them `dar` is what it was.  The
value of EA_AW is its word sign-extended, and the value of EA_AY_DI is AY
plus its word sign-extended.  The fetch functions that are parameters of the
model (`m68ki_read_imm16_addr_slowpath` and the host immediate reads) are
taken to leave `dar` alone. -/
theorem pc_relative_modes_keep_registers (cfg : Config) (s : m68ki_cpu_core)
    (hslow : ∀ t pc, (cfg.m68ki_read_imm16_addr_slowpath t pc).2.dar = t.dar)
    (hi16 : ∀ t a, (cfg.m68k_read_immediate_16 t a).2.dar = t.dar)
    (hi32 : ∀ t a, (cfg.m68k_read_immediate_32 t a).2.dar = t.dar) :
    (m68ki_read_imm_16 cfg (m68ki_use_program_space cfg s) =
        cfg.m68ki_read_imm16_addr_slowpath (m68ki_use_program_space cfg s) s.pc ∧
     (m68ki_get_ea_pcdi cfg s).1 =
        to_uint ((s.pc : Int) +
          MAKE_INT_16 (m68ki_read_imm_16 cfg (m68ki_use_program_space cfg s)).1)) ∧
    m68ki_get_ea_pcix cfg s = m68ki_get_ea_ix cfg (m68ki_use_program_space cfg s) s.pc ∧
    ((m68ki_get_ea_pcdi cfg s).2.dar = s.dar ∧ (m68ki_get_ea_pcix cfg s).2.dar = s.dar) ∧
    (EA_AW cfg s).1 = to_uint (MAKE_INT_16 (m68ki_read_imm_16 cfg s).1) ∧
    (EA_AY_DI cfg s).1 = to_uint ((AY s : Int) + MAKE_INT_16 (m68ki_read_imm_16 cfg s).1) := by
  have hix : m68ki_get_ea_pcix cfg s =
      m68ki_get_ea_ix cfg (m68ki_use_program_space cfg s) s.pc := by
    unfold m68ki_get_ea_pcix
    simp only [use_program_space_pc]
  refine ⟨⟨?_, ?_⟩, hix, ⟨?_, ?_⟩, rfl, ?_⟩
  · unfold m68ki_read_imm_16
    rw [use_program_space_pc]
  · show add32 s.pc (to_uint (MAKE_INT_16 (m68ki_read_imm_16 cfg
      (m68ki_use_program_space cfg s)).1)) = _
    rw [add32_eq_to_uint, to_uint_add_right]
  · exact (dar_read_imm_16 cfg hslow _).trans (use_program_space_dar cfg s)
  · rw [hix]
    exact (dar_get_ea_ix cfg hslow hi16 hi32 _ _).trans (use_program_space_dar cfg s)
  · show add32 (AY s) (to_uint (MAKE_INT_16 (m68ki_read_imm_16 cfg s).1)) = _
    rw [add32_eq_to_uint, to_uint_add_right]

theorem pc_relative_modes_keep_registers_witness :
    (m68ki_read_imm_16 sample_cfg disp_000).1 = 0xFFFC ∧
    (m68ki_get_ea_pcdi sample_cfg disp_000).1 = 0x3FC ∧
    (m68ki_get_ea_pcix sample_cfg disp_000).2.dar = disp_000.dar ∧
    (EA_AW sample_cfg disp_000).1 = 0xFFFFFFFC ∧
    (EA_AY_DI sample_cfg disp_000).1 = 0x1FFC :=
  have h := pc_relative_modes_keep_registers sample_cfg disp_000
    (fun _ _ => rfl) (fun _ _ => rfl) (fun _ _ => rfl)
  ⟨by decide, h.1.2.trans (by decide), h.2.2.1.2, h.2.2.2.1.trans (by decide),
    h.2.2.2.2.trans (by decide)⟩

/-- C24, the vector fetch at an input on which it is not masked: the 68010
state `high_vbr_010` has the address mask 0x00FFFFFF and VBR = 0x01002000.
`m68ki_jump_vector` for vector 39 hands the address 0x0100209C to `ps_read_32`
as it is, and the new PC is the long found there (zero), whereas the masked
address is 0x0000209C, where the vector 0x00000800 lies and where the data
read `m68ki_read_data_32`, which the fetch replaced, goes for the same
address. -/
theorem jump_vector_address_unmasked :
    high_vbr_010.cpu_type = CPU_TYPE_010 ∧
    high_vbr_010.address_mask = 0x00ffffff ∧ high_vbr_010.vbr = 0x01002000 ∧
    high_vbr_010.pmmu_enabled = 0 ∧
    add32 high_vbr_010.vbr (shl32 39 2) &&& high_vbr_010.address_mask = 0x0000209C ∧
    (m68ki_jump_vector high_vbr_010 39).bus = [BusEvent.ps_read32 0x0100209C] ∧
    (m68ki_jump_vector high_vbr_010 39).pc = 0 ∧
    (m68ki_read_data_32 sample_cfg high_vbr_010 0x0100209C).1 = 0x00000800 ∧
    (m68ki_read_data_32 sample_cfg high_vbr_010 0x0100209C).2.bus =
      [BusEvent.read32 0x0000209C] := by
  refine ⟨?_, ?_, ?_, ?_, ?_, ?_, ?_, ?_, ?_⟩ <;> decide

/-- C25: let idx = (address >> 2) & 63 and tag = (address >> 8), OR-ed with
0x1000000 when S is set.  With CACR.EI set on a 68EC020 or 68020, a valid line
idx whose tag matches makes `m68ki_ic_readimm16` return the high half of
ic_data[idx] when address & 2 is 0 and the low half otherwise, in the state it
was called in: no host access, no change of the cache.  With CACR.EI clear, or
on any other CPU type, the result is that of `m68k_read_immediate_16`, which
is the program read `m68ki_read_program_16` unless M68K_SEPARATE_READS gives
the read to the host, and the cache is as before (the host's immediate read
being taken to leave the cache alone). -/
theorem ic_readimm16_lookup (cfg : Config) (s : m68ki_cpu_core) (address idx tag : Nat)
    (hidx : idx = (address >>> 2) &&& 63)
    (htag : tag = (address >>> 8) ||| (if s.s_flag ≠ 0 then 0x1000000 else 0))
    (hhost : ∀ t a, ic_view (cfg.m68k_read_immediate_16 t a).2 = ic_view t) :
    (s.cacr &&& M68K_CACR_EI ≠ 0 →
      (s.cpu_type = CPU_TYPE_EC020 ∨ s.cpu_type = CPU_TYPE_020) →
      s.ic_valid idx ≠ 0 → s.ic_address idx = tag →
      m68ki_ic_readimm16 cfg s address =
        (if address &&& 2 = 0 then s.ic_data idx >>> 16 else s.ic_data idx &&& 0xffff, s)) ∧
    ((s.cacr &&& M68K_CACR_EI = 0 ∨ s.cpu_type = CPU_TYPE_000 ∨ s.cpu_type = CPU_TYPE_008 ∨
        s.cpu_type = CPU_TYPE_010 ∨ s.cpu_type = CPU_TYPE_EC030 ∨ s.cpu_type = CPU_TYPE_030 ∨
        s.cpu_type = CPU_TYPE_EC040 ∨ s.cpu_type = CPU_TYPE_LC040 ∨
        s.cpu_type = CPU_TYPE_040 ∨ s.cpu_type = CPU_TYPE_SCC070) →
      m68ki_ic_readimm16 cfg s address = m68k_read_immediate_16 cfg s address ∧
      (cfg.M68K_SEPARATE_READS = false →
        m68ki_ic_readimm16 cfg s address = m68ki_read_program_16 cfg s address) ∧
      ic_view (m68ki_ic_readimm16 cfg s address).2 = ic_view s) := by
  subst hidx htag
  constructor
  · intro hei hcpu hv ht
    rw [ic_readimm16_hit cfg s address (ic_enabled_iff s hei hcpu) hv ht, ic_line_word_eq]
  · intro hoff
    have hno : ¬ (s.cacr &&& M68K_CACR_EI ≠ 0 ∧
        s.cpu_type &&& (CPU_TYPE_EC020 ||| CPU_TYPE_020) ≠ 0) := by
      rintro ⟨h1, h2⟩
      rcases hoff with h | h | h | h | h | h | h | h | h | h
      · exact h1 h
      all_goals exact h2 (by rw [h]; decide)
    have hq := ic_readimm16_off cfg s address hno
    refine ⟨hq, fun hsep => hq.trans (read_immediate_16_program cfg s address hsep), ?_⟩
    rw [hq]
    exact ic_view_read_immediate_16 cfg hhost s address

theorem ic_readimm16_lookup_witness :
    (m68ki_ic_readimm16 sample_cfg cached_020 0x400 = (0x1234, cached_020) ∧
     m68ki_ic_readimm16 sample_cfg cached_020 0x402 = (0x5678, cached_020)) ∧
    (m68ki_ic_readimm16 sample_cfg sample_020 0x76).1 = 0x2468 ∧
    (m68ki_ic_readimm16 sample_cfg sample_020 0x76).2.bus = [BusEvent.read16 0x76] :=
  ⟨⟨((ic_readimm16_lookup sample_cfg cached_020 0x400 _ _ rfl rfl (fun _ _ => rfl)).1
      (by decide) (by decide) (by decide) (by decide)).trans (Prod.ext (by decide) rfl),
    ((ic_readimm16_lookup sample_cfg cached_020 0x402 _ _ rfl rfl (fun _ _ => rfl)).1
      (by decide) (by decide) (by decide) (by decide)).trans (Prod.ext (by decide) rfl)⟩,
   by decide, by decide⟩

/-- C26: let idx and tag be the line and tag of `address` as in the lookup,
and let the line miss with CACR.EI set on a 68EC020 or 68020.  With CACR.FI
clear, `m68ki_ic_readimm16` makes the read `m68ki_read_32` at address & ~3
(one 32-bit host read at that address, masked, when the PMMU is off); if
`g_buserr` is clear after it, the line takes the tag, the long read and
valid = 1, and the half of that long which address & 2 selects is returned;
if `g_buserr` is set, the word is read with `m68k_read_immediate_16` and the
cache is as before.  With CACR.FI set the word is read with
`m68k_read_immediate_16` and the cache is as before.  The host's immediate
read is taken to leave the cache alone. -/
theorem ic_readimm16_miss (cfg : Config) (s : m68ki_cpu_core) (address idx tag : Nat)
    (r : Nat × m68ki_cpu_core)
    (hei : s.cacr &&& M68K_CACR_EI ≠ 0)
    (hcpu : s.cpu_type = CPU_TYPE_EC020 ∨ s.cpu_type = CPU_TYPE_020)
    (hidx : idx = (address >>> 2) &&& 63)
    (htag : tag = (address >>> 8) ||| (if s.s_flag ≠ 0 then 0x1000000 else 0))
    (hmiss : s.ic_valid idx = 0 ∨ s.ic_address idx ≠ tag)
    (hr : r = m68ki_read_32 cfg s (address &&& not32 3))
    (hhost : ∀ t a, ic_view (cfg.m68k_read_immediate_16 t a).2 = ic_view t) :
    (s.cacr &&& M68K_CACR_FI = 0 →
      (s.pmmu_enabled = 0 →
        r = (mem_read_32 s.mem ((address &&& not32 3) &&& s.address_mask),
          { s with bus := s.bus ++ [BusEvent.read32 ((address &&& not32 3) &&& s.address_mask)] })) ∧
      (r.2.g_buserr = 0 →
        m68ki_ic_readimm16 cfg s address =
          (if address &&& 2 = 0 then r.1 >>> 16 else r.1 &&& 0xffff,
           { r.2 with
             ic_address := Function.update r.2.ic_address idx tag
             ic_data := Function.update r.2.ic_data idx r.1
             ic_valid := Function.update r.2.ic_valid idx 1 })) ∧
      (r.2.g_buserr ≠ 0 →
        m68ki_ic_readimm16 cfg s address = m68k_read_immediate_16 cfg r.2 address ∧
        ic_view (m68ki_ic_readimm16 cfg s address).2 = ic_view s)) ∧
    (s.cacr &&& M68K_CACR_FI ≠ 0 →
      m68ki_ic_readimm16 cfg s address = m68k_read_immediate_16 cfg s address ∧
      ic_view (m68ki_ic_readimm16 cfg s address).2 = ic_view s) := by
  subst hidx htag hr
  have hen := ic_enabled_iff s hei hcpu
  constructor
  · intro hfi
    have hfi0 : ¬ (s.cacr &&& M68K_CACR_FI ≠ 0) := not_not.mpr hfi
    refine ⟨fun hp => m68ki_read_32_eq cfg s _ hp, ?_, ?_⟩
    · intro hok
      rw [ic_readimm16_fill cfg s address hen hmiss hfi0 hok, ic_line_word_eq]
      simp only [Function.update_same]
    · intro herr
      have hq := ic_readimm16_fill_error cfg s address hen hmiss hfi0 herr
      refine ⟨hq, ?_⟩
      rw [hq]
      exact (ic_view_read_immediate_16 cfg hhost _ address).trans rfl
  · intro hfi
    have hq := ic_readimm16_frozen cfg s address hen hmiss hfi
    refine ⟨hq, ?_⟩
    rw [hq]
    exact ic_view_read_immediate_16 cfg hhost s address

theorem ic_readimm16_miss_witness :
    ((m68ki_ic_readimm16 sample_cfg cached_020 0x406).1 = 0xCCDD ∧
     (m68ki_ic_readimm16 sample_cfg cached_020 0x406).2.bus = [BusEvent.read32 0x404] ∧
     (m68ki_ic_readimm16 sample_cfg cached_020 0x406).2.ic_address 1 = 4 ∧
     (m68ki_ic_readimm16 sample_cfg cached_020 0x406).2.ic_data 1 = 0xAABBCCDD ∧
     (m68ki_ic_readimm16 sample_cfg cached_020 0x406).2.ic_valid 1 = 1) ∧
    ((m68ki_ic_readimm16 sample_cfg frozen_020 0x406).1 = 0xCCDD ∧
     (m68ki_ic_readimm16 sample_cfg frozen_020 0x406).2.bus = [BusEvent.read16 0x406] ∧
     ic_view (m68ki_ic_readimm16 sample_cfg frozen_020 0x406).2 = ic_view frozen_020) :=
  have h := ((ic_readimm16_miss sample_cfg cached_020 0x406 _ _ _ (by decide) (by decide)
    rfl rfl (by decide) rfl (fun _ _ => rfl)).1 (by decide)).2.1 (by decide)
  have f := (ic_readimm16_miss sample_cfg frozen_020 0x406 _ _ _ (by decide) (by decide)
    rfl rfl (by decide) rfl (fun _ _ => rfl)).2 (by decide)
  ⟨⟨(congrArg Prod.fst h).trans (by decide),
    (congrArg (fun p => p.2.bus) h).trans (by decide),
    (congrArg (fun p => p.2.ic_address 1) h).trans (by decide),
    (congrArg (fun p => p.2.ic_data 1) h).trans (by decide),
    (congrArg (fun p => p.2.ic_valid 1) h).trans (by decide)⟩,
   ⟨(congrArg Prod.fst f.1).trans (by decide),
    (congrArg (fun p => p.2.bus) f.1).trans (by decide), f.2⟩⟩

/-- C27, the claim refuted: line 0 of the state `cached_020` is valid, and
after `m68ki_ic_clear` its valid flag is still 1. -/
theorem ic_clear_keeps_valid :
    cached_020.ic_valid 0 = 1 ∧ (m68ki_ic_clear cached_020).ic_valid 0 = 1 := by
  refine ⟨?_, ?_⟩ <;> decide

/-- C27 as amended: `m68ki_ic_clear` stores the tag 0xFFFFFFFF in every one of
the M68K_IC_SIZE lines and leaves the valid flags and the data alone.  The tag
of a lookup, (address >> 8) with 0x1000000 OR-ed in when S is set, has at most
25 bits, so after the clear no line's tag matches: every lookup misses. -/
theorem ic_clear_poisons_tags (s : m68ki_cpu_core) :
    (∀ i, i < M68K_IC_SIZE → (m68ki_ic_clear s).ic_address i = 0xffffffff) ∧
    (m68ki_ic_clear s).ic_valid = s.ic_valid ∧
    (m68ki_ic_clear s).ic_data = s.ic_data ∧
    (∀ address, address < 0x100000000 →
      (m68ki_ic_clear s).ic_address ((address >>> 2) &&& 63) ≠
        (address >>> 8) ||| (if (m68ki_ic_clear s).s_flag ≠ 0 then 0x1000000 else 0)) := by
  have hall : ∀ i, i < M68K_IC_SIZE → (m68ki_ic_clear s).ic_address i = 0xffffffff := by
    intro i hi
    show (if i < M68K_IC_SIZE then 0xffffffff else s.ic_address i) = 0xffffffff
    rw [if_pos hi]
  refine ⟨hall, rfl, rfl, ?_⟩
  intro address ha
  have hidx : (address >>> 2) &&& 63 < M68K_IC_SIZE :=
    Nat.lt_of_le_of_lt Nat.and_le_right (by decide)
  rw [hall _ hidx]
  have h1 : address >>> 8 < 2 ^ 25 := by
    rw [Nat.shiftRight_eq_div_pow]
    simp only [Nat.reducePow]
    omega
  have h2 : (if (m68ki_ic_clear s).s_flag ≠ 0 then 0x1000000 else 0) < 2 ^ 25 := by
    split_ifs <;> decide
  have h3 := Nat.or_lt_two_pow h1 h2
  simp only [Nat.reducePow] at h3
  omega

theorem ic_clear_poisons_tags_witness :
    (m68ki_ic_readimm16 sample_cfg cached_020 0x400).2.bus = [] ∧
    (m68ki_ic_clear cached_020).ic_address 0 = 0xffffffff ∧
    (m68ki_ic_clear cached_020).ic_address ((0x400 >>> 2) &&& 63) ≠ 0x400 >>> 8 ∧
    (m68ki_ic_readimm16 sample_cfg (m68ki_ic_clear cached_020) 0x400).2.bus =
      [BusEvent.read32 0x400] :=
  ⟨by decide, (ic_clear_poisons_tags cached_020).1 0 (by decide),
   (ic_clear_poisons_tags cached_020).2.2.2 0x400 (by decide), by decide⟩

/-- C28: when the callback `m68ki_illg_callback` answers non-zero for IR,
`m68ki_exception_illegal` returns the state it was entered with: nothing is
pushed, and PC, SR, the stack pointers and the cycle counter are as before.
When it answers zero (PMMU off), illegal-instruction processing runs: a
format-0 frame that holds the previous PC (PPC) and the old SR goes on the
supervisor stack, three words on the 68000 and four words with the format
word 4 << 2 on the others, the new PC is fetched from vector 4 at
VBR + (4 << 2), S is set, and the exception's cycles less the instruction's
are debited. -/
theorem exception_illegal_callback (cfg : Config) (s : m68ki_cpu_core)
    (hp : s.pmmu_enabled = 0) :
    (cfg.m68ki_illg_callback s.ir ≠ 0 → m68ki_exception_illegal cfg s = s) ∧
    (cfg.m68ki_illg_callback s.ir = 0 →
      (m68ki_exception_illegal cfg s).dar 15 =
        sub32 (supervisor_sp s) (if s.cpu_type = CPU_TYPE_000 then 6 else 8) ∧
      (m68ki_exception_illegal cfg s).mem =
        (if s.cpu_type = CPU_TYPE_000 then
          mem_write_16 (mem_write_32 s.mem
            (sub32 (supervisor_sp s) 4 &&& s.address_mask) s.ppc)
            (sub32 (supervisor_sp s) 6 &&& s.address_mask) (m68ki_get_sr s)
        else
          mem_write_16 (mem_write_32 (mem_write_16 s.mem
            (sub32 (supervisor_sp s) 2 &&& s.address_mask)
              (shl32 EXCEPTION_ILLEGAL_INSTRUCTION 2))
            (sub32 (supervisor_sp s) 6 &&& s.address_mask) s.ppc)
            (sub32 (supervisor_sp s) 8 &&& s.address_mask) (m68ki_get_sr s)) ∧
      (m68ki_exception_illegal cfg s).bus =
        s.bus ++
          (if s.cpu_type = CPU_TYPE_000 then
            [BusEvent.write32 (sub32 (supervisor_sp s) 4 &&& s.address_mask) s.ppc,
             BusEvent.write16 (sub32 (supervisor_sp s) 6 &&& s.address_mask) (m68ki_get_sr s)]
          else
            [BusEvent.write16 (sub32 (supervisor_sp s) 2 &&& s.address_mask)
               (shl32 EXCEPTION_ILLEGAL_INSTRUCTION 2),
             BusEvent.write32 (sub32 (supervisor_sp s) 6 &&& s.address_mask) s.ppc,
             BusEvent.write16 (sub32 (supervisor_sp s) 8 &&& s.address_mask) (m68ki_get_sr s)]) ++
          [BusEvent.ps_read32 (add32 (shl32 EXCEPTION_ILLEGAL_INSTRUCTION 2) s.vbr)] ∧
      (m68ki_exception_illegal cfg s).pc =
        mem_read_32 (m68ki_exception_illegal cfg s).mem
          (add32 (shl32 EXCEPTION_ILLEGAL_INSTRUCTION 2) s.vbr) ∧
      (m68ki_exception_illegal cfg s).s_flag = SFLAG_SET ∧
      (m68ki_exception_illegal cfg s).m68ki_remaining_cycles =
        s.m68ki_remaining_cycles -
          ((s.cyc_exception EXCEPTION_ILLEGAL_INSTRUCTION : Int) -
            (s.cyc_instruction s.ir : Int))) := by
  constructor
  · intro hcb
    unfold m68ki_exception_illegal
    rw [if_pos hcb]
  · intro hcb
    exact exception_illegal_obs cfg s hp hcb

theorem exception_illegal_callback_witness :
    m68ki_exception_illegal handled_cfg cycles_000 = cycles_000 ∧
    (m68ki_exception_illegal sample_cfg cycles_000).bus =
      [BusEvent.write32 0xFFC 0x3FE, BusEvent.write16 0xFFA 0x0300, BusEvent.ps_read32 0x10] ∧
    (m68ki_exception_illegal sample_cfg cycles_000).m68ki_remaining_cycles = 70 :=
  ⟨(exception_illegal_callback handled_cfg cycles_000 (by decide)).1 (by decide),
   ((exception_illegal_callback sample_cfg cycles_000 (by decide)).2 (by decide)).2.2.1.trans
     (by decide),
   ((exception_illegal_callback sample_cfg cycles_000 (by decide)).2
     (by decide)).2.2.2.2.2.trans (by decide)⟩

/-- C29: with HALT set in `stopped`, whether or not an NMI is latched, HALT
is still set after `m68ki_exception_interrupt` and after
`m68ki_check_interrupts`, and the bus record, the host memory, the registers,
the stack-pointer bank, PC, SR and the interrupt mask are what they were: no
frame is pushed.  In every state (PMMU off) `m68ki_exception_interrupt` and
`m68ki_exception_trace` leave `stopped` with the STOP bit cleared and every
other bit as it was. -/
theorem halt_survives_interrupts (cfg : Config) (s : m68ki_cpu_core) (lvl : Nat)
    (hp : s.pmmu_enabled = 0) :
    (s.stopped &&& STOP_LEVEL_HALT ≠ 0 →
      ((m68ki_exception_interrupt cfg s lvl).stopped &&& STOP_LEVEL_HALT ≠ 0 ∧
        processing_view (m68ki_exception_interrupt cfg s lvl) = processing_view s) ∧
      ((m68ki_check_interrupts cfg s).stopped &&& STOP_LEVEL_HALT ≠ 0 ∧
        processing_view (m68ki_check_interrupts cfg s) = processing_view s)) ∧
    (m68ki_exception_interrupt cfg s lvl).stopped = s.stopped &&& not32 STOP_LEVEL_STOP ∧
    (m68ki_exception_trace cfg s).stopped = s.stopped &&& not32 STOP_LEVEL_STOP := by
  refine ⟨?_, exception_interrupt_stopped cfg s lvl hp, exception_trace_stopped cfg s hp⟩
  intro hhalt
  constructor
  · rw [exception_interrupt_halted cfg s lvl hhalt]
    exact interrupt_entry_halted_obs cfg s hhalt
  · unfold m68ki_check_interrupts
    by_cases hn : s.nmi_pending ≠ 0
    · rw [if_pos hn]
      have hh : ({ s with nmi_pending := 0 } : m68ki_cpu_core).stopped &&& STOP_LEVEL_HALT ≠ 0 :=
        hhalt
      simp only []
      rw [exception_interrupt_halted cfg _ 7 hh]
      exact interrupt_entry_halted_obs cfg _ hh
    · rw [if_neg hn]
      by_cases hg : s.int_level > s.int_mask
      · rw [if_pos hg, exception_interrupt_halted cfg s _ hhalt]
        exact interrupt_entry_halted_obs cfg s hhalt
      · rw [if_neg hg]
        exact ⟨hhalt, rfl⟩

theorem halt_survives_interrupts_witness :
    halted_nmi.nmi_pending = 1 ∧
    (m68ki_check_interrupts sample_cfg halted_nmi).stopped = STOP_LEVEL_HALT ∧
    (m68ki_check_interrupts sample_cfg halted_nmi).bus = [] ∧
    (m68ki_check_interrupts sample_cfg halted_nmi).pc = 0x400 ∧
    (m68ki_exception_interrupt sample_cfg halted_nmi 7).stopped = STOP_LEVEL_HALT ∧
    (m68ki_exception_trace sample_cfg halted_nmi).stopped = STOP_LEVEL_HALT :=
  have h := halt_survives_interrupts sample_cfg halted_nmi 7 (by decide)
  ⟨by decide, by decide,
   (congrArg (fun v => v.1) (h.1 (by decide)).2.2).trans (by decide),
   (congrArg (fun v => v.2.2.2.2.1) (h.1 (by decide)).2.2).trans (by decide),
   h.2.1.trans (by decide), h.2.2.trans (by decide)⟩

/-- C30: let `m68ki_exception_interrupt` service level `L` with vector `X`
(CPU not halted, PMMU off, S either clear or set).  On a 68EC020 or later with
M set, the bus record grows by the acknowledge, the vector fetch (and the
fetch of the uninitialized-interrupt vector when the first is zero), the
format-0 frame on the master stack (format word X << 2, PC, SR) and then the
format-1 frame on the interrupt stack, whose pointer is `sp[4]`: format word
0x1000 | (X << 2), the same PC, and the same SR with bit 0x2000 set.
Afterwards M is clear, A7 is the interrupt stack pointer below the second
frame, and the master stack pointer saved in `sp[6]` is below the first.  On
a 68000 or 68010, or with M clear, the format-0 frame is the only frame
(three words on the 68000) and M is what it was. -/
theorem interrupt_throwaway_frame (cfg : Config) (s : m68ki_cpu_core) (lvl L X : Nat)
    (hrun : s.stopped = 0 ∨ s.stopped = STOP_LEVEL_STOP)
    (hL : (s.nmi_pending ≠ 0 ∧ L = 7) ∨
      (s.nmi_pending = 0 ∧ s.int_level > s.int_mask ∧ L = s.int_level >>> 8))
    (hp : s.pmmu_enabled = 0)
    (hv : interrupt_vector cfg (m68ki_int_ack cfg s L).1 L = some X)
    (hS : s.s_flag = 0 ∨ s.s_flag = SFLAG_SET) :
    (s.m_flag = MFLAG_SET → CPU_TYPE_IS_EC020_PLUS s.cpu_type ≠ 0 →
      (m68ki_exception_interrupt cfg s lvl).bus =
        (s.bus ++ if cfg.M68K_EMULATE_INT_ACK then [BusEvent.int_ack L] else []) ++
          (BusEvent.read32 (add32 (shl32 X 2) s.vbr &&& s.address_mask) ::
            (if mem_read_32 s.mem (add32 (shl32 X 2) s.vbr &&& s.address_mask) = 0 then
              [BusEvent.read32
                (add32 (shl32 EXCEPTION_UNINITIALIZED_INTERRUPT 2) s.vbr &&& s.address_mask)]
            else [])) ++
          [BusEvent.write16 (sub32 (supervisor_sp s) 2 &&& s.address_mask) (shl32 X 2),
           BusEvent.write32 (sub32 (supervisor_sp s) 6 &&& s.address_mask) s.pc,
           BusEvent.write16 (sub32 (supervisor_sp s) 8 &&& s.address_mask) (m68ki_get_sr s)] ++
          [BusEvent.write16 (sub32 (s.sp 4) 2 &&& s.address_mask) (0x1000 ||| shl32 X 2),
           BusEvent.write32 (sub32 (s.sp 4) 6 &&& s.address_mask) s.pc,
           BusEvent.write16 (sub32 (s.sp 4) 8 &&& s.address_mask)
             (m68ki_get_sr s ||| 0x2000)] ∧
      (m68ki_exception_interrupt cfg s lvl).m_flag = 0 ∧
      (m68ki_exception_interrupt cfg s lvl).s_flag = SFLAG_SET ∧
      (m68ki_exception_interrupt cfg s lvl).dar 15 = sub32 (s.sp 4) 8 ∧
      (m68ki_exception_interrupt cfg s lvl).sp 6 = sub32 (supervisor_sp s) 8) ∧
    ((s.m_flag = 0 ∨ s.cpu_type = CPU_TYPE_000 ∨ s.cpu_type = CPU_TYPE_010) →
      (m68ki_exception_interrupt cfg s lvl).bus =
        (s.bus ++ if cfg.M68K_EMULATE_INT_ACK then [BusEvent.int_ack L] else []) ++
          (BusEvent.read32 (add32 (shl32 X 2) s.vbr &&& s.address_mask) ::
            (if mem_read_32 s.mem (add32 (shl32 X 2) s.vbr &&& s.address_mask) = 0 then
              [BusEvent.read32
                (add32 (shl32 EXCEPTION_UNINITIALIZED_INTERRUPT 2) s.vbr &&& s.address_mask)]
            else [])) ++
          (if s.cpu_type = CPU_TYPE_000 then
            [BusEvent.write32 (sub32 (supervisor_sp s) 4 &&& s.address_mask) s.pc,
             BusEvent.write16 (sub32 (supervisor_sp s) 6 &&& s.address_mask) (m68ki_get_sr s)]
          else
            [BusEvent.write16 (sub32 (supervisor_sp s) 2 &&& s.address_mask) (shl32 X 2),
             BusEvent.write32 (sub32 (supervisor_sp s) 6 &&& s.address_mask) s.pc,
             BusEvent.write16 (sub32 (supervisor_sp s) 8 &&& s.address_mask)
               (m68ki_get_sr s)]) ∧
      (m68ki_exception_interrupt cfg s lvl).m_flag = s.m_flag ∧
      (m68ki_exception_interrupt cfg s lvl).s_flag = SFLAG_SET ∧
      (m68ki_exception_interrupt cfg s lvl).dar 15 =
        sub32 (supervisor_sp s) (if s.cpu_type = CPU_TYPE_000 then 6 else 8)) := by
  rw [exception_interrupt_eq cfg s lvl L hrun hL, hv]
  have hpT : (interrupt_acknowledged cfg s L).pmmu_enabled = 0 := hp
  constructor
  · intro hM hcpu
    exact interrupt_process_master cfg (interrupt_acknowledged cfg s L) L X hpT hS hM hcpu
  · intro hone
    have hm : ¬ ((interrupt_acknowledged cfg s L).m_flag ≠ 0 ∧
        CPU_TYPE_IS_EC020_PLUS (interrupt_acknowledged cfg s L).cpu_type ≠ 0) := by
      rintro ⟨h1, h2⟩
      rcases hone with h | h | h
      · exact h1 h
      · exact h2 (by show CPU_TYPE_IS_EC020_PLUS s.cpu_type = 0; rw [h]; decide)
      · exact h2 (by show CPU_TYPE_IS_EC020_PLUS s.cpu_type = 0; rw [h]; decide)
    exact interrupt_process_single cfg (interrupt_acknowledged cfg s L) L X hpT hm

theorem interrupt_throwaway_frame_witness :
    ((m68ki_exception_interrupt sample_cfg master_020 0).bus =
      [BusEvent.int_ack 5, BusEvent.read32 0x74,
       BusEvent.write16 0x2FFE 0x74, BusEvent.write32 0x2FFA 0x400,
       BusEvent.write16 0x2FF8 0x1300,
       BusEvent.write16 0xFFE 0x1074, BusEvent.write32 0xFFA 0x400,
       BusEvent.write16 0xFF8 0x3300] ∧
     (m68ki_exception_interrupt sample_cfg master_020 0).m_flag = 0 ∧
     (m68ki_exception_interrupt sample_cfg master_020 0).dar 15 = 0xFF8) ∧
    ((m68ki_exception_interrupt sample_cfg sample_000 0).bus =
      [BusEvent.int_ack 5, BusEvent.read32 0x74,
       BusEvent.write32 0xFFC 0x400, BusEvent.write16 0xFFA 0x0300] ∧
     (m68ki_exception_interrupt sample_cfg sample_000 0).m_flag = 0) :=
  have h := (interrupt_throwaway_frame sample_cfg master_020 0 5 29
    (by decide) (by decide) (by decide) (by decide) (by decide)).1 (by decide) (by decide)
  have g := (interrupt_throwaway_frame sample_cfg sample_000 0 5 29
    (by decide) (by decide) (by decide) (by decide) (by decide)).2 (by decide)
  ⟨⟨h.1.trans (by decide), h.2.1, h.2.2.2.1.trans (by decide)⟩,
   ⟨g.1.trans (by decide), g.2.1.trans (by decide)⟩⟩

/-- C31: let `F` be the state after `m68ki_stack_frame_buserr` (PMMU off).
The frame is written by five host writes, the first of which is the stacked PC
at A7 + 10 of the final A7; then SR at A7 + 8, IR at A7 + 6, the access
address at A7 + 2 and the status word at A7.  The stacked PC is
(PPC + 2) & address_mask when IR is 0x4E75, 0x4EF9, one of 0x4ED0..0x4EDF,
0x4E73, 0x4EB9, 0x4E90, 0x4EA8 or 0x4A2F, and PC & address_mask for every
other IR. -/
theorem buserr_frame_stacked_pc (cfg : Config) (s F : m68ki_cpu_core) (sr : Nat)
    (hp : s.pmmu_enabled = 0) (hF : F = m68ki_stack_frame_buserr cfg s sr) :
    F.bus = s.bus ++
      [BusEvent.write32 (ADDRESS_68K s (add32 (F.dar 15) 10))
         (if s.ir = 0x4E75 ∨ s.ir = 0x4EF9 ∨ (0x4ED0 ≤ s.ir ∧ s.ir ≤ 0x4EDF) ∨
             s.ir = 0x4E73 ∨ s.ir = 0x4EB9 ∨ s.ir = 0x4E90 ∨ s.ir = 0x4EA8 ∨ s.ir = 0x4A2F then
           ADDRESS_68K s (add32 s.ppc 2)
         else ADDRESS_68K s s.pc),
       BusEvent.write16 (ADDRESS_68K s (add32 (F.dar 15) 8)) sr,
       BusEvent.write16 (ADDRESS_68K s (add32 (F.dar 15) 6)) s.ir,
       BusEvent.write32 (ADDRESS_68K s (add32 (F.dar 15) 2)) s.m68ki_aerr_address,
       BusEvent.write16 (ADDRESS_68K s (F.dar 15))
         (s.m68ki_aerr_write_mode ||| s.instr_mode ||| s.m68ki_aerr_fc)] := by
  obtain ⟨h1, -, h3⟩ := buserr_frame_obs cfg s sr _ hp rfl
  subst hF
  rw [h1, h3, add32_sub32 _ 14 10 (by decide) (by decide),
    add32_sub32 _ 14 8 (by decide) (by decide), add32_sub32 _ 14 6 (by decide) (by decide),
    add32_sub32 _ 14 2 (by decide) (by decide), buserr_stacked_pc_fst]
  rfl

theorem buserr_frame_stacked_pc_witness :
    ((m68ki_stack_frame_buserr sample_cfg rts_000 0).bus.head? =
        some (BusEvent.write32 0x7FFC 0x400) ∧
      rts_000.ppc = 0x3FE ∧ rts_000.pc = 0x1234) ∧
    (m68ki_stack_frame_buserr sample_cfg move_000 0).bus.head? =
        some (BusEvent.write32 0x7FFC 0x1234) :=
  ⟨⟨(congrArg List.head? (buserr_frame_stacked_pc sample_cfg rts_000 _ 0 (by decide) rfl)).trans
      (by decide), by decide, by decide⟩,
   (congrArg List.head? (buserr_frame_stacked_pc sample_cfg move_000 _ 0 (by decide) rfl)).trans
      (by decide)⟩

/-- C32, the claim refuted: in the state `jsr_an_000` IR is 0x4E90, JSR (A0),
A7 is 0x8000 and the saved USP `sp[0]` is 0.  With a stacked SR that has S set
`m68ki_stack_frame_buserr` writes the frame from 0x8004 down and leaves
A7 = 0x7FF6, four above 0x8000 - 14; with S clear it leaves `sp[0]` = 4. -/
theorem jsr_register_pulls_stack :
    jsr_an_000.ir = 0x4E90 ∧ jsr_an_000.dar 15 = 0x8000 ∧ jsr_an_000.sp 0 = 0 ∧
    (m68ki_stack_frame_buserr sample_cfg jsr_an_000 0x2000).dar 15 = 0x7FF6 ∧
    (m68ki_stack_frame_buserr sample_cfg jsr_an_000 0x2000).bus.head? =
      some (BusEvent.write32 0x8000 0x400) ∧
    (m68ki_stack_frame_buserr sample_cfg jsr_an_000 0).sp 0 = 4 := by
  refine ⟨?_, ?_, ?_, ?_, ?_, ?_⟩ <;> decide

/-- C32 as amended: in `m68ki_stack_frame_buserr` (PMMU off) four bytes are
pulled back from the selected stack before the frame is pushed when IR is one
of the JSR opcodes 0x4EB9, 0x4E90 and 0x4EA8: with S set in the stacked SR the
active A7 is raised by 4, so that the frame starts below `B` = A7 + 4 and A7
ends at `B` - 14; with S clear the saved USP `sp[0]` is raised by 4.  For any
other IR the frame starts below A7, and neither the bank `sp` nor any other
register is touched. -/
theorem buserr_frame_stack_correction (cfg : Config) (s : m68ki_cpu_core) (sr B : Nat)
    (hp : s.pmmu_enabled = 0)
    (hB : B = if (s.ir = 0x4EB9 ∨ s.ir = 0x4E90 ∨ s.ir = 0x4EA8) ∧ sr &&& 0x2000 ≠ 0
              then add32 (s.dar 15) 4 else s.dar 15) :
    (m68ki_stack_frame_buserr cfg s sr).dar 15 = sub32 B 14 ∧
    (∀ i, i ≠ 15 → (m68ki_stack_frame_buserr cfg s sr).dar i = s.dar i) ∧
    (m68ki_stack_frame_buserr cfg s sr).sp =
      (if (s.ir = 0x4EB9 ∨ s.ir = 0x4E90 ∨ s.ir = 0x4EA8) ∧ sr &&& 0x2000 = 0
        then Function.update s.sp 0 (add32 (s.sp 0) 4) else s.sp) ∧
    ∃ v rest, (m68ki_stack_frame_buserr cfg s sr).bus =
      s.bus ++ BusEvent.write32 (ADDRESS_68K s (sub32 B 4)) v :: rest := by
  obtain ⟨h1, h2, h3⟩ := buserr_frame_obs cfg s sr B hp hB
  refine ⟨h1, ?_, h2, _, _, h3⟩
  intro i hi
  rw [m68ki_stack_frame_buserr_eq _ _ _ (by rw [buserr_stacked_pc_snd]; split_ifs <;> exact hp)]
  rw [buserr_stacked_pc_snd]
  split_ifs <;> simp only [Function.update_noteq hi]

theorem buserr_frame_stack_correction_witness :
    (m68ki_stack_frame_buserr sample_cfg jsr_long_000 0x2000).dar 15 = 0x7FF6 ∧
    (m68ki_stack_frame_buserr sample_cfg jsr_long_000 0).dar 15 = 0x7FF2 ∧
    (m68ki_stack_frame_buserr sample_cfg jsr_long_000 0).sp 0 = 4 ∧
    (m68ki_stack_frame_buserr sample_cfg move_000 0x2000).dar 15 = 0x7FF2 ∧
    (m68ki_stack_frame_buserr sample_cfg move_000 0).sp 0 = 0 :=
  ⟨(buserr_frame_stack_correction sample_cfg jsr_long_000 0x2000 _ (by decide) rfl).1.trans
      (by decide),
   (buserr_frame_stack_correction sample_cfg jsr_long_000 0 _ (by decide) rfl).1.trans
      (by decide),
   (congrFun (buserr_frame_stack_correction sample_cfg jsr_long_000 0 _ (by decide)
      rfl).2.2.1 0).trans (by decide),
   (buserr_frame_stack_correction sample_cfg move_000 0x2000 _ (by decide) rfl).1.trans
      (by decide),
   (congrFun (buserr_frame_stack_correction sample_cfg move_000 0 _ (by decide)
      rfl).2.2.1 0).trans (by decide)⟩

/-- C33: with the PMMU off, each of these exceptions adds to the bus record
the writes of its frame on the supervisor stack and then the fetch of its
vector.  The PC written into the frame (two bytes above the SR at the frame
base) is PPC for `m68ki_exception_illegal` (when the callback answers zero),
`m68ki_exception_privilege_violation`, `m68ki_exception_1010` and
`m68ki_exception_1111`, and the current PC for `m68ki_exception_trapN`,
`m68ki_exception_format_error`, `m68ki_exception_trap` and
`m68ki_exception_trace`; the last two stack a format-2 frame on a CPU after
the 68010, which holds PPC as the instruction address and the current PC as
the PC. -/
theorem exceptions_stack_ppc_or_pc (cfg : Config) (s : m68ki_cpu_core) (vector : Nat)
    (hp : s.pmmu_enabled = 0) :
    ((cfg.m68ki_illg_callback s.ir = 0 →
        (m68ki_exception_illegal cfg s).bus =
          s.bus ++ spec_frame_0000 s (supervisor_sp s) s.ppc (m68ki_get_sr s)
            EXCEPTION_ILLEGAL_INSTRUCTION ++
          [BusEvent.ps_read32 (add32 (shl32 EXCEPTION_ILLEGAL_INSTRUCTION 2) s.vbr)]) ∧
     (m68ki_exception_privilege_violation cfg s).bus =
        s.bus ++ spec_frame_0000 s (supervisor_sp s) s.ppc (m68ki_get_sr s)
          EXCEPTION_PRIVILEGE_VIOLATION ++
        [BusEvent.ps_read32 (add32 (shl32 EXCEPTION_PRIVILEGE_VIOLATION 2) s.vbr)] ∧
     (m68ki_exception_1010 cfg s).bus =
        s.bus ++ spec_frame_0000 s (supervisor_sp s) s.ppc (m68ki_get_sr s) EXCEPTION_1010 ++
        [BusEvent.ps_read32 (add32 (shl32 EXCEPTION_1010 2) s.vbr)] ∧
     (m68ki_exception_1111 cfg s).bus =
        s.bus ++ spec_frame_0000 s (supervisor_sp s) s.ppc (m68ki_get_sr s) EXCEPTION_1111 ++
        [BusEvent.ps_read32 (add32 (shl32 EXCEPTION_1111 2) s.vbr)]) ∧
    ((m68ki_exception_trapN cfg s vector).bus =
        s.bus ++ spec_frame_0000 s (supervisor_sp s) s.pc (m68ki_get_sr s) vector ++
        [BusEvent.ps_read32 (add32 (shl32 vector 2) s.vbr)] ∧
     (m68ki_exception_format_error cfg s).bus =
        s.bus ++ spec_frame_0000 s (supervisor_sp s) s.pc (m68ki_get_sr s)
          EXCEPTION_FORMAT_ERROR ++
        [BusEvent.ps_read32 (add32 (shl32 EXCEPTION_FORMAT_ERROR 2) s.vbr)] ∧
     (m68ki_exception_trap cfg s vector).bus =
        s.bus ++
          (if CPU_TYPE_IS_010_LESS s.cpu_type ≠ 0 then
            spec_frame_0000 s (supervisor_sp s) s.pc (m68ki_get_sr s) vector
          else spec_frame_0010 s (supervisor_sp s) s.ppc s.pc (m68ki_get_sr s) vector) ++
        [BusEvent.ps_read32 (add32 (shl32 vector 2) s.vbr)] ∧
     (m68ki_exception_trace cfg s).bus =
        s.bus ++
          (if CPU_TYPE_IS_010_LESS s.cpu_type ≠ 0 then
            spec_frame_0000 s (supervisor_sp s) s.pc (m68ki_get_sr s) EXCEPTION_TRACE
          else
            spec_frame_0010 s (supervisor_sp s) s.ppc s.pc (m68ki_get_sr s) EXCEPTION_TRACE) ++
        [BusEvent.ps_read32 (add32 (shl32 EXCEPTION_TRACE 2) s.vbr)]) := by
  refine ⟨⟨?_, ?_, ?_, ?_⟩, ?_, ?_, ?_, ?_⟩
  · intro hcb
    rw [(exception_illegal_obs cfg s hp hcb).2.2.1]
    rfl
  · unfold m68ki_exception_privilege_violation spec_frame_0000
    by_cases ha : cfg.M68K_EMULATE_ADDRESS_ERROR = true ∧ CPU_TYPE_IS_000 s.cpu_type = true
    · simp only [m68ki_init_exception_eq, ha, and_self, ↓reduceIte, m68ki_stack_frame_0000_eq,
        hp, m68ki_jump_vector_eq, USE_CYCLES, Function.update_same, supervisor_sp_eq]
    · simp only [m68ki_init_exception_eq, ha, ↓reduceIte, m68ki_stack_frame_0000_eq, hp,
        m68ki_jump_vector_eq, USE_CYCLES, Function.update_same, supervisor_sp_eq]
  · unfold m68ki_exception_1010 spec_frame_0000
    simp only [m68ki_init_exception_eq, m68ki_stack_frame_0000_eq, hp, m68ki_jump_vector_eq,
      USE_CYCLES, Function.update_same, supervisor_sp_eq]
  · unfold m68ki_exception_1111 spec_frame_0000
    simp only [m68ki_init_exception_eq, m68ki_stack_frame_0000_eq, hp, m68ki_jump_vector_eq,
      USE_CYCLES, Function.update_same, supervisor_sp_eq]
  · rw [(exception_trapN_obs cfg s vector hp).2.2.1]
    rfl
  · unfold m68ki_exception_format_error spec_frame_0000
    simp only [m68ki_init_exception_eq, m68ki_stack_frame_0000_eq, hp, m68ki_jump_vector_eq,
      USE_CYCLES, Function.update_same, supervisor_sp_eq]
  · by_cases hl : CPU_TYPE_IS_010_LESS s.cpu_type ≠ 0
    · rw [exception_trap_eq_trapN cfg s vector hl, (exception_trapN_obs cfg s vector hp).2.2.1,
        if_pos hl]
      rfl
    · rw [(exception_trap_obs_0010 cfg s vector hp (not_not.mp hl)).2.1, if_neg hl]
      simp only [spec_frame_0010, List.append_assoc, List.cons_append, List.nil_append]
  · unfold m68ki_exception_trace spec_frame_0000 spec_frame_0010
    by_cases hl : CPU_TYPE_IS_010_LESS s.cpu_type ≠ 0 <;>
    by_cases ha : cfg.M68K_EMULATE_ADDRESS_ERROR = true ∧ CPU_TYPE_IS_000 s.cpu_type = true <;>
    simp only [m68ki_init_exception_eq, hl, ha, and_self, ↓reduceIte, m68ki_stack_frame_0000_eq,
      m68ki_stack_frame_0010_eq, hp, m68ki_jump_vector_eq, USE_CYCLES, not_false_eq_true,
      ne_eq, not_true_eq_false, Function.update_same, supervisor_sp_eq, List.append_assoc,
      List.singleton_append, List.cons_append, List.nil_append]

theorem exceptions_stack_ppc_or_pc_witness :
    (rts_000.ppc = 0x3FE ∧ rts_000.pc = 0x1234) ∧
    (m68ki_exception_privilege_violation sample_cfg rts_000).bus =
      [BusEvent.write32 0xFFC 0x3FE, BusEvent.write16 0xFFA 0x0300, BusEvent.ps_read32 0x20] ∧
    (m68ki_exception_trapN sample_cfg rts_000 32).bus =
      [BusEvent.write32 0xFFC 0x1234, BusEvent.write16 0xFFA 0x0300, BusEvent.ps_read32 0x80] :=
  have h := exceptions_stack_ppc_or_pc sample_cfg rts_000 32 (by decide)
  ⟨⟨by decide, by decide⟩, h.1.2.1.trans (by decide), h.2.1.trans (by decide)⟩

/-- C34: let `ext` be the extension word that `m68ki_get_ea_ix` fetches and
`s0` the state after the fetch.  When the CPU is not a 68010 or older and
bit 8 of `ext` is set (full format), the remaining-cycle counter ends
`m68ki_ea_idx_cycle_table[ext & 0x3f]` below its value at entry; with a brief
extension word, or on a 68000, 68008 or 68010, it ends at its value at entry.
The fetch functions that are parameters of the model
(`m68ki_read_imm16_addr_slowpath` and the host immediate reads) are taken to
leave the counter alone. -/
theorem get_ea_ix_cycle_debit (cfg : Config) (s s0 : m68ki_cpu_core) (An ext : Nat)
    (hfetch : m68ki_read_imm_16 cfg s = (ext, s0))
    (hslow : ∀ t pc, (cfg.m68ki_read_imm16_addr_slowpath t pc).2.m68ki_remaining_cycles =
      t.m68ki_remaining_cycles)
    (hi16 : ∀ t a, (cfg.m68k_read_immediate_16 t a).2.m68ki_remaining_cycles =
      t.m68ki_remaining_cycles)
    (hi32 : ∀ t a, (cfg.m68k_read_immediate_32 t a).2.m68ki_remaining_cycles =
      t.m68ki_remaining_cycles) :
    (m68ki_get_ea_ix cfg s An).2.m68ki_remaining_cycles =
      (if CPU_TYPE_IS_010_LESS s0.cpu_type = 0 ∧ ext.testBit 8 = true then
        s.m68ki_remaining_cycles - (cfg.m68ki_ea_idx_cycle_table (ext &&& 0x3f) : Int)
      else s.m68ki_remaining_cycles) ∧
    ((s0.cpu_type = CPU_TYPE_000 ∨ s0.cpu_type = CPU_TYPE_008 ∨ s0.cpu_type = CPU_TYPE_010) →
      (m68ki_get_ea_ix cfg s An).2.m68ki_remaining_cycles = s.m68ki_remaining_cycles) := by
  have h := cyc_get_ea_ix cfg hslow hi16 hi32 s An
  rw [hfetch] at h
  simp only [] at h
  constructor
  · rw [h]
    by_cases hl : CPU_TYPE_IS_010_LESS s0.cpu_type = 0
    · by_cases h8 : ext.testBit 8 = true
      · have hb : ¬ (BIT_8 ext = 0) := fun hz => by
          rw [(BIT_8_eq_zero ext).mp hz] at h8
          exact Bool.noConfusion h8
        rw [if_neg (not_not.mpr hl), if_neg hb, if_pos ⟨hl, h8⟩]
      · have hb : BIT_8 ext = 0 := (BIT_8_eq_zero ext).mpr (by simpa using h8)
        rw [if_neg (not_not.mpr hl), if_pos hb, if_neg (fun hc => h8 hc.2)]
    · rw [if_pos hl, if_neg (fun hc => hl hc.1)]
  · intro hcpu
    have hl : CPU_TYPE_IS_010_LESS s0.cpu_type ≠ 0 := by
      rcases hcpu with hc | hc | hc <;> rw [hc] <;> decide
    rw [h, if_pos hl]

theorem get_ea_ix_cycle_debit_witness :
    (m68ki_get_ea_ix table_cfg full_020 0x2000).2.m68ki_remaining_cycles = -5 ∧
    (m68ki_get_ea_ix table_cfg ea_020 0x2000).2.m68ki_remaining_cycles = 0 ∧
    (m68ki_get_ea_ix table_cfg ea_000 0x2000).2.m68ki_remaining_cycles = 0 :=
  ⟨(get_ea_ix_cycle_debit table_cfg full_020 _ 0x2000 _ rfl (fun _ _ => rfl) (fun _ _ => rfl)
      (fun _ _ => rfl)).1.trans (by decide),
   (get_ea_ix_cycle_debit table_cfg ea_020 _ 0x2000 _ rfl (fun _ _ => rfl) (fun _ _ => rfl)
      (fun _ _ => rfl)).1.trans (by decide),
   (get_ea_ix_cycle_debit table_cfg ea_000 _ 0x2000 _ rfl (fun _ _ => rfl) (fun _ _ => rfl)
      (fun _ _ => rfl)).2 (by decide)⟩

/-- C35: with the PMMU off and 24 or 32 address lines, every stack-frame
builder lowers A7 by its frame size modulo 2^32 and ends with the push of the
PC and then of the SR, so that the SR word lies at the new A7 and the PC long
at A7 + 2 (`frame_built`): 6 bytes for `m68ki_stack_frame_3word`, 6 on a
68000 and 8 otherwise for `m68ki_stack_frame_0000`, 8 for
`m68ki_stack_frame_0001`, 12 for `m68ki_stack_frame_0010` (which stacks the
current PC), 58 for `m68ki_stack_frame_1000`, 32 for `m68ki_stack_frame_1010`,
92 for `m68ki_stack_frame_1011` and 60 for `m68ki_stack_frame_0111`. -/
theorem stack_frames_lower_sp (cfg : Config) (s : m68ki_cpu_core)
    (pc sr vector fault_address in_mmu : Nat)
    (hp : s.pmmu_enabled = 0)
    (hmask : s.address_mask = 0x00ffffff ∨ s.address_mask = 0xffffffff) :
    frame_built s (m68ki_stack_frame_3word cfg s pc sr) 6 pc sr ∧
    frame_built s (m68ki_stack_frame_0000 cfg s pc sr vector)
      (if s.cpu_type = CPU_TYPE_000 then 6 else 8) pc sr ∧
    frame_built s (m68ki_stack_frame_0001 cfg s pc sr vector) 8 pc sr ∧
    frame_built s (m68ki_stack_frame_0010 cfg s sr vector) 12 s.pc sr ∧
    frame_built s (m68ki_stack_frame_1000 cfg s pc sr vector) 58 pc sr ∧
    frame_built s (m68ki_stack_frame_1010 cfg s sr vector pc fault_address) 32 pc sr ∧
    frame_built s (m68ki_stack_frame_1011 cfg s sr vector pc fault_address) 92 pc sr ∧
    frame_built s (m68ki_stack_frame_0111 cfg s sr vector pc fault_address in_mmu) 60 pc sr := by
  refine ⟨?_, ?_, ?_, ?_, ?_, ?_, ?_, ?_⟩
  · exact frame_built_of_eq s _ 6 pc sr _ _ hmask (by decide)
      (m68ki_stack_frame_3word_eq cfg s pc sr hp) rfl
  · by_cases hc : s.cpu_type = CPU_TYPE_000
    · rw [if_pos hc]
      exact frame_built_of_eq s _ 6 pc sr _ _ hmask (by decide)
        (m68ki_stack_frame_0000_eq_000 cfg s pc sr vector hp hc) rfl
    · rw [if_neg hc]
      exact frame_built_of_eq s _ 8 pc sr _ _ hmask (by decide)
        (m68ki_stack_frame_0000_eq_010 cfg s pc sr vector hp hc) rfl
  · exact frame_built_of_eq s _ 8 pc sr _ _ hmask (by decide)
      (m68ki_stack_frame_0001_eq cfg s pc sr vector hp) rfl
  · exact frame_built_of_eq s _ 12 s.pc sr _ _ hmask (by decide)
      (m68ki_stack_frame_0010_eq cfg s sr vector hp) rfl
  · obtain ⟨M, w, hF, hw⟩ := m68ki_stack_frame_1000_tail cfg s pc sr vector hp
    exact frame_built_of_eq s _ 58 pc sr M w hmask (by decide) hF hw
  · obtain ⟨M, w, hF, hw⟩ := m68ki_stack_frame_1010_tail cfg s sr vector pc fault_address hp
    exact frame_built_of_eq s _ 32 pc sr M w hmask (by decide) hF hw
  · obtain ⟨M, w, hF, hw⟩ := m68ki_stack_frame_1011_tail cfg s sr vector pc fault_address hp
    exact frame_built_of_eq s _ 92 pc sr M w hmask (by decide) hF hw
  · obtain ⟨M, w, hF, hw⟩ :=
      m68ki_stack_frame_0111_tail cfg s sr vector pc fault_address in_mmu hp
    exact frame_built_of_eq s _ 60 pc sr M w hmask (by decide) hF hw

theorem stack_frames_lower_sp_witness :
    (m68ki_stack_frame_0000 sample_cfg sample_000 0x400 0x2700 2).dar 15 = 0x7FFA ∧
    (m68ki_stack_frame_0000 sample_cfg sample_020 0x400 0x2700 2).dar 15 = 0x7FF8 ∧
    (m68ki_stack_frame_1011 sample_cfg sample_020 0x2700 2 0x400 0x1001).dar 15 = 0x7FA4 ∧
    mem_read_32 (m68ki_stack_frame_1011 sample_cfg sample_020 0x2700 2 0x400 0x1001).mem
      (ADDRESS_68K sample_020
        (add32 ((m68ki_stack_frame_1011 sample_cfg sample_020 0x2700 2 0x400 0x1001).dar 15) 2)) =
      0x400 ∧
    (m68ki_stack_frame_0111 sample_cfg sample_020 0x2700 2 0x400 0x1001 0).dar 15 = 0x7FC4 ∧
    mem_read_16 (m68ki_stack_frame_0111 sample_cfg sample_020 0x2700 2 0x400 0x1001 0).mem
      (ADDRESS_68K sample_020
        ((m68ki_stack_frame_0111 sample_cfg sample_020 0x2700 2 0x400 0x1001 0).dar 15)) =
      0x2700 :=
  have h0 := stack_frames_lower_sp sample_cfg sample_000 0x400 0x2700 2 0x1001 0
    (by decide) (by decide)
  have h := stack_frames_lower_sp sample_cfg sample_020 0x400 0x2700 2 0x1001 0
    (by decide) (by decide)
  ⟨h0.2.1.1.trans (by decide), h.2.1.1.trans (by decide),
   h.2.2.2.2.2.2.1.1.trans (by decide), h.2.2.2.2.2.2.1.2.2.2.trans (by decide),
   h.2.2.2.2.2.2.2.1.trans (by decide), h.2.2.2.2.2.2.2.2.2.1.trans (by decide)⟩

/-- C36: for a 32-bit address the tag of a lookup, (address >> 8) with or
without 0x1000000 OR-ed in, is not 0xFFFFFFFF, which is what every line's tag
is after `m68ki_ic_clear`.  So with the cache enabled on a 68EC020 or 68020 the
fetch after the clear takes the miss path, whatever `ic_valid` holds: with
CACR.FI set it reads the word with `m68k_read_immediate_16`; otherwise it
reads the long at address & ~3 and, with `g_buserr` clear, fills the line and
returns the selected half of that long, or, with `g_buserr` set, reads the
word with `m68k_read_immediate_16`.  In no case is the value taken from the
`ic_data` of before. -/
theorem ic_clear_forces_miss (cfg : Config) (s : m68ki_cpu_core) (address : Nat)
    (r : Nat × m68ki_cpu_core)
    (ha : address < 0x100000000)
    (hei : s.cacr &&& M68K_CACR_EI ≠ 0)
    (hcpu : s.cpu_type = CPU_TYPE_EC020 ∨ s.cpu_type = CPU_TYPE_020)
    (hr : r = m68ki_read_32 cfg (m68ki_ic_clear s) (address &&& not32 3)) :
    (address >>> 8 ≠ 0xffffffff ∧ (address >>> 8) ||| 0x1000000 ≠ 0xffffffff) ∧
    (m68ki_ic_clear s).ic_address (ic_idx address) = 0xffffffff ∧
    (m68ki_ic_clear s).ic_address (ic_idx address) ≠ ic_tag (m68ki_ic_clear s) address ∧
    m68ki_ic_readimm16 cfg (m68ki_ic_clear s) address =
      (if s.cacr &&& M68K_CACR_FI ≠ 0 then
        m68k_read_immediate_16 cfg (m68ki_ic_clear s) address
      else if r.2.g_buserr = 0 then
        (if address &&& 2 = 0 then r.1 >>> 16 else r.1 &&& 0xffff,
          { r.2 with
            ic_address := Function.update r.2.ic_address (ic_idx address)
              (ic_tag (m68ki_ic_clear s) address)
            ic_data := Function.update r.2.ic_data (ic_idx address) r.1
            ic_valid := Function.update r.2.ic_valid (ic_idx address) 1 })
      else m68k_read_immediate_16 cfg r.2 address) := by
  have hne : (m68ki_ic_clear s).ic_address (ic_idx address) ≠
      ic_tag (m68ki_ic_clear s) address := by
    rw [ic_clear_line]
    exact (ic_tag_ne_cleared _ address ha).symm
  have hen := ic_enabled_iff (m68ki_ic_clear s) hei hcpu
  have h24 : address >>> 8 < 0x1000000 := by
    rw [Nat.shiftRight_eq_div_pow]
    omega
  refine ⟨⟨?_, ?_⟩, ic_clear_line s address, hne, ?_⟩
  · omega
  · rw [or_bit24 _ h24]
    omega
  · subst hr
    have hmiss : (m68ki_ic_clear s).ic_valid ((address >>> 2) &&& 0x3f) = 0 ∨
        (m68ki_ic_clear s).ic_address ((address >>> 2) &&& 0x3f) ≠
          (address >>> 8) ||| (if (m68ki_ic_clear s).s_flag ≠ 0 then 0x1000000 else 0) :=
      Or.inr hne
    by_cases hfi : s.cacr &&& M68K_CACR_FI ≠ 0
    · rw [if_pos hfi]
      exact ic_readimm16_frozen cfg _ address hen hmiss hfi
    · rw [if_neg hfi]
      by_cases hok : (m68ki_read_32 cfg (m68ki_ic_clear s) (address &&& not32 3)).2.g_buserr = 0
      · rw [if_pos hok, ic_readimm16_fill cfg _ address hen hmiss hfi hok, ic_line_word_eq]
        simp only [Function.update_same]
        rfl
      · rw [if_neg hok]
        exact ic_readimm16_fill_error cfg _ address hen hmiss hfi hok

theorem ic_clear_forces_miss_witness :
    (m68ki_ic_readimm16 sample_cfg cached_020 0x400).1 = 0x1234 ∧
    (m68ki_ic_clear cached_020).ic_valid (ic_idx 0x400) = 1 ∧
    (m68ki_ic_readimm16 sample_cfg (m68ki_ic_clear cached_020) 0x400).1 = 0 ∧
    (m68ki_ic_readimm16 sample_cfg (m68ki_ic_clear cached_020) 0x400).2.bus =
      [BusEvent.read32 0x400] :=
  have h := (ic_clear_forces_miss sample_cfg cached_020 0x400 _ (by decide) (by decide)
    (by decide) rfl).2.2.2
  ⟨by decide, by decide, (congrArg Prod.fst h).trans (by decide),
   (congrArg (fun p => p.2.bus) h).trans (by decide)⟩

/-- C37: `m68ki_ic_readimm16` looks a fetch up under the line `ic_idx` and the
tag `ic_tag` of its address, and answers from the line when it is valid and
holds that tag.  For 32-bit addresses, two fetches with the same line and the
same tag have the same address & ~3 and the same supervisor state, so the
long of a line belongs to one long-word address and one privilege level; and
the line number is below 64, within the M68K_IC_SIZE entries of the cache
arrays. -/
theorem ic_key_identifies_line (cfg : Config) (s t : m68ki_cpu_core) (a b : Nat)
    (ha : a < 0x100000000) (hb : b < 0x100000000)
    (hidx : ic_idx a = ic_idx b) (htag : ic_tag s a = ic_tag t b) :
    (a &&& not32 3 = b &&& not32 3 ∧ (s.s_flag ≠ 0 ↔ t.s_flag ≠ 0)) ∧
    (ic_idx a < 64 ∧ 64 ≤ M68K_IC_SIZE) ∧
    (s.cacr &&& M68K_CACR_EI ≠ 0 →
      (s.cpu_type = CPU_TYPE_EC020 ∨ s.cpu_type = CPU_TYPE_020) →
      s.ic_valid (ic_idx a) ≠ 0 → s.ic_address (ic_idx a) = ic_tag s a →
      m68ki_ic_readimm16 cfg s a = (ic_line_word s (ic_idx a) a, s)) := by
  have hlt : ic_idx a < 64 := by
    rw [ic_idx_eq]
    omega
  refine ⟨?_, ⟨hlt, by decide⟩, ?_⟩
  · rw [ic_tag_eq s a ha, ic_tag_eq t b hb] at htag
    rw [ic_idx_eq, ic_idx_eq] at hidx
    rw [and_not_3 a ha, and_not_3 b hb, Nat.shiftRight_eq_div_pow, Nat.shiftRight_eq_div_pow]
    have ea : a / 4 / 64 = a / 0x100 := Nat.div_div_eq_div_mul a 4 64
    have eb : b / 4 / 64 = b / 0x100 := Nat.div_div_eq_div_mul b 4 64
    have h4 : a / 2 ^ 2 = b / 2 ^ 2 ∧ (s.s_flag ≠ 0 ↔ t.s_flag ≠ 0) := by
      simp only [Nat.reducePow]
      by_cases hs : s.s_flag ≠ 0
      · by_cases ht : t.s_flag ≠ 0
        · rw [if_pos hs, if_pos ht] at htag
          exact ⟨by omega, fun _ => ht, fun _ => hs⟩
        · rw [if_pos hs, if_neg ht] at htag
          exfalso
          omega
      · by_cases ht : t.s_flag ≠ 0
        · rw [if_neg hs, if_pos ht] at htag
          exfalso
          omega
        · rw [if_neg hs, if_neg ht] at htag
          exact ⟨by omega, fun h => absurd h hs, fun h => absurd h ht⟩
    exact ⟨by rw [h4.1], h4.2⟩
  · intro hei hcpu hv ht
    exact ic_readimm16_hit cfg s a (ic_enabled_iff s hei hcpu) hv ht

theorem ic_key_identifies_line_witness :
    (ic_idx 0x400 = ic_idx 0x402 ∧ ic_tag cached_020 0x400 = ic_tag cached_020 0x402) ∧
    0x400 &&& not32 3 = 0x402 &&& not32 3 ∧
    ic_idx 0x400 ≠ ic_idx 0x404 ∧
    ic_tag cached_020 0x400 ≠ ic_tag { cached_020 with s_flag := SFLAG_SET } 0x400 :=
  ⟨⟨by decide, by decide⟩,
   (ic_key_identifies_line sample_cfg cached_020 cached_020 0x400 0x402 (by decide) (by decide)
      (by decide) (by decide)).1.1,
   by decide, by decide⟩

/-- C38: whatever value they are given, `m68ki_set_sr_noint`,
`m68ki_set_sr_noint_nosp` and `m68ki_set_sm_flag` leave `s_flag` equal to 0 or
4 and `m_flag` equal to 0 or 2.  For such flags the index
`s_flag | ((s_flag >> 1) & m_flag)` into the stack-pointer bank is 0 (USP),
4 (ISP) or 6 (MSP), which is below 7, the length of `sp`; and with S = 0 the
index is 0 for every value of M. -/
theorem sm_flags_index_in_bank (s : m68ki_cpu_core) (value : Nat) :
    (((m68ki_set_sr_noint s value).s_flag = 0 ∨ (m68ki_set_sr_noint s value).s_flag = 4) ∧
      ((m68ki_set_sr_noint s value).m_flag = 0 ∨ (m68ki_set_sr_noint s value).m_flag = 2)) ∧
    (((m68ki_set_sr_noint_nosp s value).s_flag = 0 ∨
        (m68ki_set_sr_noint_nosp s value).s_flag = 4) ∧
      ((m68ki_set_sr_noint_nosp s value).m_flag = 0 ∨
        (m68ki_set_sr_noint_nosp s value).m_flag = 2)) ∧
    (((m68ki_set_sm_flag s value).s_flag = 0 ∨ (m68ki_set_sm_flag s value).s_flag = 4) ∧
      ((m68ki_set_sm_flag s value).m_flag = 0 ∨ (m68ki_set_sm_flag s value).m_flag = 2)) ∧
    (∀ S M : Nat, (S = 0 ∨ S = 4) → (M = 0 ∨ M = 2) →
      (sp_index S M = 0 ∨ sp_index S M = 4 ∨ sp_index S M = 6) ∧ sp_index S M < 7) ∧
    (∀ M : Nat, sp_index 0 M = 0) := by
  have hS : ∀ v : Nat, v &&& SFLAG_SET = 0 ∨ v &&& SFLAG_SET = 4 := fun v =>
    and_two_pow_cases v 2
  have hM : ∀ v : Nat, v &&& MFLAG_SET = 0 ∨ v &&& MFLAG_SET = 2 := fun v =>
    and_two_pow_cases v 1
  refine ⟨⟨hS _, hM _⟩, ⟨hS _, hM _⟩, ⟨hS _, hM _⟩, ?_, ?_⟩
  · intro S M h1 h2
    rcases h1 with h1 | h1 <;> rcases h2 with h2 | h2 <;> rw [h1, h2] <;> decide
  · intro M
    unfold sp_index
    rw [Nat.zero_shiftRight, Nat.zero_and, Nat.or_zero]

theorem sm_flags_index_in_bank_witness :
    (m68ki_set_sr_noint sample_020 0xFFFF).s_flag = 4 ∧
    (m68ki_set_sr_noint sample_020 0xFFFF).m_flag = 2 ∧
    (m68ki_set_sr_noint sample_000 0xFFFF).m_flag = 0 ∧
    sp_index 4 2 = 6 ∧ sp_index 0 2 = 0 :=
  have h := sm_flags_index_in_bank sample_020 0xFFFF
  ⟨by decide, by decide, by decide,
   ((h.2.2.2.1 4 2 (Or.inr rfl) (Or.inr rfl)).1.resolve_left (by decide)).resolve_left
     (by decide),
   h.2.2.2.2 2⟩

/-- C39: let `m68ki_exception_interrupt` service level `L` with vector `X`
(CPU not halted, PMMU off), and let the long read at VBR + (X << 2) be zero.
Then the long at VBR + (15 << 2) is read as well and becomes the new PC, while
the cycles charged are `cyc_exception[X]` and the format-0 frame is that of
vector `X`: on a CPU other than the 68000 its first word is X << 2. -/
theorem interrupt_zero_vector_uses_15 (cfg : Config) (s : m68ki_cpu_core) (lvl L X : Nat)
    (hrun : s.stopped = 0 ∨ s.stopped = STOP_LEVEL_STOP)
    (hL : (s.nmi_pending ≠ 0 ∧ L = 7) ∨
      (s.nmi_pending = 0 ∧ s.int_level > s.int_mask ∧ L = s.int_level >>> 8))
    (hp : s.pmmu_enabled = 0)
    (hv : interrupt_vector cfg (m68ki_int_ack cfg s L).1 L = some X)
    (hzero : mem_read_32 s.mem (ADDRESS_68K s (add32 (shl32 X 2) s.vbr)) = 0) :
    (m68ki_exception_interrupt cfg s lvl).pc =
      mem_read_32 s.mem
        (ADDRESS_68K s (add32 (shl32 EXCEPTION_UNINITIALIZED_INTERRUPT 2) s.vbr)) ∧
    (m68ki_exception_interrupt cfg s lvl).m68ki_remaining_cycles =
      s.m68ki_remaining_cycles - s.cyc_exception X ∧
    (∃ post, (m68ki_exception_interrupt cfg s lvl).bus =
      (s.bus ++ if cfg.M68K_EMULATE_INT_ACK then [BusEvent.int_ack L] else []) ++
        [BusEvent.read32 (ADDRESS_68K s (add32 (shl32 X 2) s.vbr)),
         BusEvent.read32
           (ADDRESS_68K s (add32 (shl32 EXCEPTION_UNINITIALIZED_INTERRUPT 2) s.vbr))] ++
        spec_frame_0000 s (supervisor_sp s) s.pc (m68ki_get_sr s) X ++ post) ∧
    (s.cpu_type ≠ CPU_TYPE_000 →
      (spec_frame_0000 s (supervisor_sp s) s.pc (m68ki_get_sr s) X).head? =
        some (BusEvent.write16 (ADDRESS_68K s (sub32 (supervisor_sp s) 2)) (shl32 X 2))) := by
  rw [exception_interrupt_eq cfg s lvl L hrun hL, hv]
  have hpT : (interrupt_acknowledged cfg s L).pmmu_enabled = 0 := hp
  have hzT : mem_read_32 (interrupt_acknowledged cfg s L).mem
      (add32 (shl32 X 2) (interrupt_acknowledged cfg s L).vbr &&&
        (interrupt_acknowledged cfg s L).address_mask) = 0 := hzero
  obtain ⟨-, -, -, -, -, h6, h7⟩ := interrupt_process_flags cfg _ L X hpT
  obtain ⟨post, hb⟩ := interrupt_process_zero_vector cfg _ L X hpT hzT
  refine ⟨?_, h6, ⟨post, hb⟩, ?_⟩
  · show (interrupt_process cfg (interrupt_acknowledged cfg s L) L X).pc = _
    rw [h7, if_pos hzT]
    rfl
  · intro hc
    unfold spec_frame_0000
    rw [if_neg hc]
    rfl

theorem interrupt_zero_vector_uses_15_witness :
    mem_read_32 zero_vector_010.mem 0x74 = 0 ∧
    (m68ki_exception_interrupt sample_cfg zero_vector_010 0).pc = 0x1234 ∧
    (m68ki_exception_interrupt sample_cfg zero_vector_010 0).m68ki_remaining_cycles = 56 ∧
    (m68ki_exception_interrupt sample_cfg zero_vector_010 0).bus =
      [BusEvent.int_ack 5, BusEvent.read32 0x74, BusEvent.read32 0x3C,
       BusEvent.write16 0xFFE 0x74, BusEvent.write32 0xFFA 0x400,
       BusEvent.write16 0xFF8 0x0300] :=
  have h := interrupt_zero_vector_uses_15 sample_cfg zero_vector_010 0 5 29
    (by decide) (by decide) (by decide) (by decide) (by decide)
  ⟨by decide, h.1.trans (by decide), h.2.1.trans (by decide), by decide⟩

set_option maxRecDepth 4096

/-- C40, the address-error frames at inputs on which the format word does not
carry the vector taken: on the 68010 state `aerr_010` the routine
`m68ki_exception_address_error` writes the format word 0x8008 (format 8,
vector offset 0x008 of the bus-error vector 2) six bytes above the SR and then
fetches the new PC from 0x00C, the address-error vector 3; on the 68020
states `aerr_020` and `aerr_020_at_ppc` the format words are 0xB008 and
0xA008, and the vector fetched is again the one at 0x00C. -/
theorem address_error_frame_names_bus_error :
    (aerr_010.cpu_type = CPU_TYPE_010 ∧
      (m68ki_exception_address_error sample_cfg aerr_010).bus =
        [BusEvent.write16 0xFDE 0, BusEvent.write16 0xFDA 0, BusEvent.write16 0xFD6 0,
         BusEvent.write32 0xFD0 0, BusEvent.write16 0xFCE 0,
         BusEvent.write16 0xFCC 0x8008, BusEvent.write32 0xFC8 0x3FE,
         BusEvent.write16 0xFC6 0x0300,
         BusEvent.ps_read32 0x00C] ∧
      shl32 EXCEPTION_ADDRESS_ERROR 2 = 0x00C ∧ shl32 EXCEPTION_BUS_ERROR 2 = 0x008) ∧
    (aerr_020.cpu_type = CPU_TYPE_020 ∧
      (m68ki_exception_address_error sample_cfg aerr_020).bus.drop 25 =
        [BusEvent.write16 0xFAA 0xB008, BusEvent.write32 0xFA6 0x3FE,
         BusEvent.write16 0xFA4 0x0300, BusEvent.ps_read32 0x00C]) ∧
    (aerr_020_at_ppc.cpu_type = CPU_TYPE_020 ∧
      (m68ki_exception_address_error sample_cfg aerr_020_at_ppc).bus.drop 10 =
        [BusEvent.write16 0xFE6 0xA008, BusEvent.write32 0xFE2 0x3FE,
         BusEvent.write16 0xFE0 0x0300, BusEvent.ps_read32 0x00C]) := by
  refine ⟨⟨?_, ?_, ?_, ?_⟩, ⟨?_, ?_⟩, ⟨?_, ?_⟩⟩
  · decide
  · decide
  · decide
  · decide
  · decide
  · decide
  · decide
  · decide

end Musashi
